import Mathlib

/-! # xcpdump: the XCP dissector of `xcpdissect.c` as Lean definitions

The dissector turns one CAN (FD) frame into a line of text.  Every C function
that prints becomes a Lean function returning the printed text as a `String`;
the file-scope variables of `xcpdissect.c` (`service_request`,
`getSegmentInfoRequest`, `get_sector_info_mode`, `include_dtos`, `CanIds`)
become the fields of `DissectState`, passed in and returned explicitly.

Machine integers are natural numbers; a payload byte is reduced modulo 256
where it is read (`MSG_BYTE`), words and double words are reduced to their C
width where they are assembled.
-/

namespace XcpDump

/-! ## Types of `xcp.h` and `linux/can.h` -/

/-- The part of `struct canfd_frame` the dissector looks at: the arbitration
id, the payload length field and the payload buffer. -/
structure canfd_frame where
  can_id : Nat
  len : Nat
  data : List Nat
deriving DecidableEq, Repr

/-- The two configured identifiers, `typedef struct tagCanIdType`. -/
structure CanIdType where
  src : Nat
  dst : Nat
deriving DecidableEq, Repr

/-- A frame handed to the dissector, `typedef struct tagXcpMessage`; the
pointer `frame` is modelled by the frame it points to. -/
structure XcpMessage where
  src : Nat
  dst : Nat
  frame : canfd_frame
deriving DecidableEq, Repr

/-- The three remembered bytes of a GET_SEGMENT_INFO request,
`typedef struct tagGetSegmentInfoRequestType`. -/
structure GetSegmentInfoRequestType where
  mode : Nat
  segmentInfo : Nat
  mappingIndex : Nat
deriving DecidableEq, Repr

/-- The file-scope variables of `xcpdissect.c`. -/
structure DissectState where
  getSegmentInfoRequest : GetSegmentInfoRequestType
  get_sector_info_mode : Nat
  include_dtos : Bool
  CanIds : CanIdType
  service_request : Nat
deriving DecidableEq, Repr

/-- The values the file-scope variables have at program start: zero
initialised statics, `include_dtos = FALSE`, `service_request = 0`. -/
def DissectState.initial : DissectState :=
  { getSegmentInfoRequest := { mode := 0, segmentInfo := 0, mappingIndex := 0 }
    get_sector_info_mode := 0
    include_dtos := false
    CanIds := { src := 0, dst := 0 }
    service_request := 0 }

/-- Copies the configured identifiers into the state, `setIdentifiers`. -/
def setIdentifiers (st : DissectState) (ids : CanIdType) : DissectState :=
  { st with CanIds := ids }

/-! ## Function-like macros -/

/-- The n-th byte of the payload buffer, `MSG_BYTE(n)`; a `uint8_t`. -/
def MSG_BYTE (msg : XcpMessage) (n : Nat) : Nat :=
  msg.frame.data.getD n 0 % 256

/-- The length field of the frame, `MSG_FRAME_LEN()`. -/
def MSG_FRAME_LEN (msg : XcpMessage) : Nat :=
  msg.frame.len

/-- A C condition `x & mask`: true when some masked bit is set. -/
def maskSet (x mask : Nat) : Bool :=
  (x &&& mask) != 0

/-- The text of `MSG_BOOL(idx, mask)`. -/
def MSG_BOOL (msg : XcpMessage) (idx mask : Nat) : String :=
  if maskSet (MSG_BYTE msg idx) mask then "TRUE" else "FALSE"

/-- Word from high and low byte, `XCP_MAKEWORD(h, l)`. -/
def XCP_MAKEWORD (h l : Nat) : Nat :=
  (((h &&& 0xff) % 65536) <<< 8) ||| ((l &&& 0xff) % 65536)

/-- Double word from high and low word, `XCP_MAKEDWORD(h, l)`; the shift is
done in `uint32_t`. -/
def XCP_MAKEDWORD (h l : Nat) : Nat :=
  ((((h &&& 0xffff) % 4294967296) <<< 16) % 4294967296) ||| ((l &&& 0xffff) % 4294967296)

/-- Little-endian word at `idx`, `MSG_WORD(idx)`. -/
def MSG_WORD (msg : XcpMessage) (idx : Nat) : Nat :=
  XCP_MAKEWORD (MSG_BYTE msg (idx + 1)) (MSG_BYTE msg idx)

/-- Little-endian double word at `idx`, `MSG_DWORD(idx)`. -/
def MSG_DWORD (msg : XcpMessage) (idx : Nat) : Nat :=
  XCP_MAKEDWORD
    (XCP_MAKEWORD (MSG_BYTE msg (idx + 3)) (MSG_BYTE msg (idx + 2)))
    (XCP_MAKEWORD (MSG_BYTE msg (idx + 1)) (MSG_BYTE msg idx))

/-! ## `printf` conversions -/

/-- Left-pads a digit list with `'0'` up to the minimum field width. -/
def zeroPad (width : Nat) (digits : List Char) : List Char :=
  List.replicate (width - digits.length) '0' ++ digits

/-- Conversions `%u` and `%d` of a non-negative value. -/
def fmt_u (n : Nat) : String :=
  Nat.repr n

/-- Conversion `%0<width>x`: lower-case hexadecimal, zero padded. -/
def fmt_x (width n : Nat) : String :=
  String.mk (zeroPad width (Nat.toDigits 16 n))

/-- Conversion `%0<width>X`: upper-case hexadecimal, zero padded. -/
def fmt_X (width n : Nat) : String :=
  String.mk (zeroPad width ((Nat.toDigits 16 n).map Char.toUpper))

/-! ## Hex dump -/

/-- The `for` loop of `hexdump_xcp_message`: `count` iterations starting at
index `idx`, each printing `"%02X "` of the byte at the running index. -/
def hexdump_loop (msg : XcpMessage) : Nat → Nat → String
  | _, 0 => ""
  | idx, count + 1 => fmt_X 2 (MSG_BYTE msg idx) ++ " " ++ hexdump_loop msg (idx + 1) count

/-- Print message content as hex bytes, `hexdump_xcp_message`.  The guard
compares the `int` difference `len - offset` with zero; the loop runs while
`idx < len`, that is `len - offset` times when `offset < len` and not at all
otherwise. -/
def hexdump_xcp_message (msg : XcpMessage) (offset : Nat) : String :=
  if (Int.ofNat msg.frame.len - Int.ofNat offset) = 0 then
    ""
  else
    "[ " ++ hexdump_loop msg offset (msg.frame.len - offset) ++ "]"

/-! ## Field formatters -/

/-- Resource bit mask, `print_resources`. -/
def print_resources (res variant : Nat) : String :=
  (if variant = 0 then "resources" else "protected") ++ " = \x7b "
    ++ (if maskSet res 1 then "CAL_PAG " else "")
    ++ (if maskSet res 4 then "DAQ " else "")
    ++ (if maskSet res 8 then "STIM " else "")
    ++ (if maskSet res 16 then "PGM " else "")
    ++ "\x7d"

/-- Basic communication mode, `print_comm_mode_basic`. -/
def print_comm_mode_basic (mode : Nat) : String :=
  "commModeBasic = \x7b"
    ++ "byteOrder = "
    ++ (if maskSet mode 1 then "MOTOROLA" else "INTEL")
    ++ ", AG = "
    ++ (if maskSet mode 2 then "WORD" else if maskSet mode 4 then "DWORD" else "BYTE")
    ++ ", slaveBlockMode = " ++ (if maskSet mode 0x40 then "TRUE" else "FALSE")
    ++ ", optional = " ++ (if maskSet mode 0x80 then "TRUE" else "FALSE")
    ++ "\x7d"

/-- Session status byte, `print_current_session_status`. -/
def print_current_session_status (status : Nat) : String :=
  "sessionStatus = \x7b"
    ++ "storeCalReq = " ++ (if maskSet status 0x01 then "SET" else "RESET") ++ ", "
    ++ "storeDaqReq = " ++ (if maskSet status 0x04 then "SET" else "RESET") ++ ", "
    ++ "clearCalReq = " ++ (if maskSet status 0x08 then "SET" else "RESET") ++ ", "
    ++ "daqRunning = " ++ (if maskSet status 0x40 then "TRUE" else "FALSE") ++ ", "
    ++ "resume = " ++ (if maskSet status 0x80 then "TRUE" else "FALSE")
    ++ "\x7d"

/-- Checksum method, `print_checksum_method`. -/
def print_checksum_method (meth : Nat) : String :=
  "checksumMethod = \x7b "
    ++ (if meth = 1 then "XCP_ADD_11"
        else if meth = 2 then "XCP_ADD_12"
        else if meth = 3 then "XCP_ADD_14"
        else if meth = 4 then "XCP_ADD_22"
        else if meth = 5 then "XCP_ADD_24"
        else if meth = 6 then "XCP_ADD_44"
        else if meth = 7 then "XCP_CRC_16"
        else if meth = 8 then "XCP_CRC_16_CITT"
        else if meth = 9 then "XCP_CRC_32"
        else if meth = 0xff then "USER_DEFINED"
        else fmt_u meth)
    ++ " \x7d"

/-- Mode byte of SET_CAL_PAGE, `print_set_cal_page_mode`. -/
def print_set_cal_page_mode (mode : Nat) : String :=
  "mode = \x7b"
    ++ (if maskSet mode 0x80 then " ALL" else "")
    ++ (if maskSet mode 0x02 then " XCP" else "")
    ++ (if maskSet mode 0x01 then " ECU" else "")
    ++ " \x7d"

/-- PAG processor properties, `print_get_pag_processor_info`. -/
def print_get_pag_processor_info (properties : Nat) : String :=
  "properties = \x7b "
    ++ (if maskSet properties 1 then "FREEZE_SUPPORTED" else "")
    ++ " \x7d"

/-- Page properties, `print_get_page_info`; the cases 3, 12 and 48 of the
three switches print nothing. -/
def print_get_page_info (properties : Nat) : String :=
  "properties = \x7b "
    ++ "ecuAccessType = "
    ++ (if properties &&& 3 = 0 then "\"ECU access not allowed\""
        else if properties &&& 3 = 1 then "\"without XCP only\""
        else if properties &&& 3 = 2 then "\"with XCP only\""
        else "")
    ++ ", xcpReadAccessType = "
    ++ (if properties &&& 12 = 0 then "\"XCP READ access not allowed\""
        else if properties &&& 12 = 4 then "\"without ECU only\""
        else if properties &&& 12 = 8 then "\"with ECU only\""
        else "")
    ++ ", xcpWriteAccessType = "
    ++ (if properties &&& 48 = 0 then "\"XCP WRITE access not allowed\""
        else if properties &&& 48 = 16 then "\"without ECU only\""
        else if properties &&& 48 = 32 then "\"with ECU only\""
        else "")
    ++ " \x7d"

/-- Segment mode, `print_segment_mode`. -/
def print_segment_mode (mode : Nat) : String :=
  "segmentMode = \x7b "
    ++ "freeze = "
    ++ (if maskSet mode 1 then "ENABLE" else "DISABLE")
    ++ " \x7d"

/-- Mode byte of SET_DAQ_LIST_MODE, `print_daq_list_mode`; the function
prints no closing brace. -/
def print_daq_list_mode (mode : Nat) : String :=
  " mode = \x7b "
    ++ (if maskSet mode 0x01 then " ALTERNATING" else "")
    ++ (if maskSet mode 0x02 then " DIRECTION" else "")
    ++ (if maskSet mode 0x10 then " TIMESTAMP" else "")
    ++ (if maskSet mode 0x20 then " PID_OFF" else "")

/-- DAQ processor properties, `print_daq_properties`. -/
def print_daq_properties (properties : Nat) : String :=
  let ovl := ((properties &&& (0x80 ||| 0x40)) >>> 6) % 256
  "daqProperties = \x7b"
    ++ "daqConfigType = "
    ++ (if maskSet properties 0x01 then "DYNAMIC" else "STATIC")
    ++ ", prescalerSupported = "
    ++ (if maskSet properties 0x02 then "TRUE" else "FALSE")
    ++ ", resumeSupported = "
    ++ (if maskSet properties 0x04 then "TRUE" else "FALSE")
    ++ ", bitStimSupported = "
    ++ (if maskSet properties 0x08 then "TRUE" else "FALSE")
    ++ ", timestampSupported = "
    ++ (if maskSet properties 0x10 then "TRUE" else "FALSE")
    ++ ", pidOffSupported = "
    ++ (if maskSet properties 0x20 then "TRUE" else "FALSE")
    ++ ", overloadIndicationType = "
    ++ (if ovl = 0 then "\"no overload indication\""
        else if ovl = 1 then "\"overload indication in MSB of PID\""
        else if ovl = 2 then "\"overload indication by Event Packet\""
        else if ovl = 3 then "\"not allowed\""
        else "")
    ++ "\x7d"

/-- DAQ key byte, `print_daq_key_byte`. -/
def print_daq_key_byte (key : Nat) : String :=
  let opt := key &&& (0x08 ||| 0x04 ||| 0x02 ||| 0x01)
  let ext := ((key &&& (0x20 ||| 0x10)) >>> 4) % 256
  let idf := ((key &&& (0x80 ||| 0x40)) >>> 6) % 256
  "keyByte = \x7b"
    ++ "optimisationType = "
    ++ (if opt = 0 then "OM_DEFAULT"
        else if opt = 1 then "OM_ODT_TYPE_16"
        else if opt = 2 then "OM_ODT_TYPE_32"
        else if opt = 3 then "OM_ODT_TYPE_64"
        else if opt = 4 then "OM_ODT_TYPE_ALIGNMENT"
        else if opt = 5 then "OM_MAX_ENTRY_SIZE"
        else "\"INVALID\"")
    ++ ", addressExtensionType = "
    ++ (if ext = 0 then "\"address extension can be different within one and the same ODT\""
        else if ext = 1 then "\"address extension to be the same for all entries within one ODT\""
        else if ext = 2 then "\"Not allowed\""
        else if ext = 3 then "\"address extension to be the same for all entries within one DAQ\""
        else "")
    ++ ", identificationFieldType = "
    ++ (if idf = 0 then "\"Absolute ODT number\""
        else if idf = 1 then "\"Relative ODT number, absolute DAQ list number (BYTE)\""
        else if idf = 2 then "\"Relative ODT number, absolute DAQ list number (WORD)\""
        else if idf = 3 then "\"Relative ODT number, absolute DAQ list number (WORD, aligned)\""
        else "")
    ++ "\x7d"

/-- DAQ timestamp mode, `print_daq_timestamp_mode`. -/
def print_daq_timestamp_mode (mode : Nat) : String :=
  let size := mode &&& (0x04 ||| 0x02 ||| 0x01)
  let unit := ((mode &&& (0x80 ||| 0x40 ||| 0x20 ||| 0x10)) >>> 4) % 256
  "timestampMode = \x7b"
    ++ "size = "
    ++ (if size = 0 then "\"no timestamp\""
        else if size = 1 then "1"
        else if size = 2 then "2"
        else if size = 3 then "\"not allowed\""
        else if size = 4 then "4"
        else "\"INVALID\"")
    ++ ", unit = "
    ++ (if unit = 0 then "1ns"
        else if unit = 1 then "10ns"
        else if unit = 2 then "100ns"
        else if unit = 3 then "1us"
        else if unit = 4 then "10us"
        else if unit = 5 then "100us"
        else if unit = 6 then "1ms"
        else if unit = 7 then "10ms"
        else if unit = 8 then "100ms"
        else if unit = 9 then "1s"
        else if unit = 10 then "1ps"
        else if unit = 11 then "10ps"
        else if unit = 12 then "100ps"
        else "\"INVALID\"")
    ++ ", fixed = " ++ (if maskSet mode 0x08 then "TRUE" else "FALSE")
    ++ "\x7d"

/-- Current DAQ list mode, `print_daq_get_list_mode`. -/
def print_daq_get_list_mode (mode : Nat) : String :=
  "mode = \x7b"
    ++ "resume = \""
    ++ (if maskSet mode 0x80 then "list is part of a RESUME configuration"
        else "list is NOT part of a RESUME configuration")
    ++ "\""
    ++ ", running = \""
    ++ (if maskSet mode 0x40 then "DAQ list is active" else "DAQ list is inactive")
    ++ "\""
    ++ ", packetIdentifierTransmitted = " ++ (if maskSet mode 0x20 then "FALSE" else "TRUE")
    ++ ", timestamp = " ++ (if maskSet mode 0x10 then "TRUE" else "FALSE")
    ++ ", direction = " ++ (if maskSet mode 0x02 then "STIM" else "DAQ")
    ++ ", selected = " ++ (if maskSet mode 0x01 then "TRUE" else "FALSE")
    ++ " \x7d"

/-- Event channel properties, `print_daq_event_properties`; consistency
value 3 prints nothing. -/
def print_daq_event_properties (properties : Nat) : String :=
  let eventChannelType := ((properties &&& (0x04 ||| 0x08)) >>> 2) % 256
  let consistency := ((properties &&& (0x80 ||| 0x40)) >>> 6) % 256
  "eventProperties = \x7b"
    ++ "eventChannelType = "
    ++ (if eventChannelType = 0 then "\"not allowed\""
        else if eventChannelType = 1 then "\"DIRECTION = DAQ only\""
        else if eventChannelType = 2 then "\"DIRECTION = STIM only\""
        else if eventChannelType = 3 then "\"DIRECTION DAQ and STIM\""
        else "")
    ++ ", consistency = "
    ++ (if consistency = 0 then "\"ODT level consistency\""
        else if consistency = 1 then "\"DAQ list level consistency\""
        else if consistency = 2 then "\"Event Channel level consistency\""
        else "")
    ++ " \x7d"

/-- Event channel time unit, `print_event_channel_time_unit`; the switch has
no default case. -/
def print_event_channel_time_unit (unit : Nat) : String :=
  "unit = "
    ++ (if unit = 0 then "1ns"
        else if unit = 1 then "10ns"
        else if unit = 2 then "100ns"
        else if unit = 3 then "1us"
        else if unit = 4 then "10us"
        else if unit = 5 then "100us"
        else if unit = 6 then "1ms"
        else if unit = 7 then "10ms"
        else if unit = 8 then "100ms"
        else if unit = 9 then "1s"
        else if unit = 10 then "1ps"
        else if unit = 11 then "10ps"
        else if unit = 12 then "100ps"
        else "")

/-- DAQ list properties, `print_daq_list_properties`. -/
def print_daq_list_properties (properties : Nat) : String :=
  let daqListType := ((properties &&& (8 ||| 4)) >>> 2) % 256
  "properties = \x7b"
    ++ "configurationType = "
    ++ (if maskSet properties 1 then "PREDEFINED" else "CHANGEABLE")
    ++ ", eventChannelAssignment = "
    ++ (if maskSet properties 2 then "FIXED" else "CHANGEABLE")
    ++ ", daqListType = "
    ++ (if daqListType = 0 then "\"Not allowed\""
        else if daqListType = 1 then "\"DIRECTION = DAQ only\""
        else if daqListType = 2 then "\"DIRECTION = STIM only\""
        else if daqListType = 3 then "\"DIRECTION DAQ or STIM\""
        else "")
    ++ "\x7d"

/-- Programming communication mode, `print_pgm_comm_mode`. -/
def print_pgm_comm_mode (mode : Nat) : String :=
  "mode = \x7b"
    ++ "interleavedMode = " ++ (if maskSet mode 0x02 then "TRUE" else "FALSE")
    ++ ", masterBlockmode = " ++ (if maskSet mode 0x01 then "TRUE" else "FALSE")
    ++ ", slaveBlockmode = " ++ (if maskSet mode 0x40 then "TRUE" else "FALSE")
    ++ "\x7d"

/-- The text shared by the compression, encryption and non-sequential
switches of `print_pgm_properties`: cases 0, 1 and the joint case 2, 3. -/
def pgm_support_text (v : Nat) : String :=
  if v = 0 then "\"not supported\""
  else if v = 1 then "\"supported\""
  else if v = 2 ∨ v = 3 then "\"supported and required\""
  else ""

/-- Programming properties, `print_pgm_properties`. -/
def print_pgm_properties (properties : Nat) : String :=
  let mode := (properties &&& (2 ||| 1)) % 256
  let compression := ((properties &&& (8 ||| 4)) >>> 2) % 256
  let encryption := ((properties &&& (0x20 ||| 0x10)) >>> 4) % 256
  let non_sequential_programming := ((properties &&& (0x80 ||| 0x40)) >>> 6) % 256
  "properties = \x7b"
    ++ "clearPprogrammingMode = "
    ++ (if mode = 0 then "\"Not allowed\""
        else if mode = 1 then "\"Only ABSOLUTE\""
        else if mode = 2 then "\"Only FUNCTIONAL\""
        else if mode = 3 then "\"ABSOLUTE and FUNCTIONAL \""
        else "")
    ++ ", compression = " ++ pgm_support_text compression
    ++ ", encryption = " ++ pgm_support_text encryption
    ++ ", nonSequentialProgramming = " ++ pgm_support_text non_sequential_programming
    ++ "\x7d"

/-! ## Service codes, error codes and event codes of `xcp.h` -/

abbrev CONNECT : Nat := 0xFF
abbrev DISCONNECT : Nat := 0xFE
abbrev GET_STATUS : Nat := 0xFD
abbrev SYNCH : Nat := 0xFC
abbrev GET_COMM_MODE_INFO : Nat := 0xFB
abbrev GET_ID : Nat := 0xFA
abbrev SET_REQUEST : Nat := 0xF9
abbrev GET_SEED : Nat := 0xF8
abbrev UNLOCK : Nat := 0xF7
abbrev SET_MTA : Nat := 0xF6
abbrev UPLOAD : Nat := 0xF5
abbrev SHORT_UPLOAD : Nat := 0xF4
abbrev BUILD_CHECKSUM : Nat := 0xF3
abbrev TRANSPORT_LAYER_CMD : Nat := 0xF2
abbrev USER_CMD : Nat := 0xF1
abbrev DOWNLOAD : Nat := 0xF0
abbrev DOWNLOAD_NEXT : Nat := 0xEF
abbrev DOWNLOAD_MAX : Nat := 0xEE
abbrev SHORT_DOWNLOAD : Nat := 0xED
abbrev MODIFY_BITS : Nat := 0xEC
abbrev SET_CAL_PAGE : Nat := 0xEB
abbrev GET_CAL_PAGE : Nat := 0xEA
abbrev GET_PAG_PROCESSOR_INFO : Nat := 0xE9
abbrev GET_SEGMENT_INFO : Nat := 0xE8
abbrev GET_PAGE_INFO : Nat := 0xE7
abbrev SET_SEGMENT_MODE : Nat := 0xE6
abbrev GET_SEGMENT_MODE : Nat := 0xE5
abbrev COPY_CAL_PAGE : Nat := 0xE4
abbrev CLEAR_DAQ_LIST : Nat := 0xE3
abbrev SET_DAQ_PTR : Nat := 0xE2
abbrev WRITE_DAQ : Nat := 0xE1
abbrev SET_DAQ_LIST_MODE : Nat := 0xE0
abbrev GET_DAQ_LIST_MODE : Nat := 0xDF
abbrev START_STOP_DAQ_LIST : Nat := 0xDE
abbrev START_STOP_SYNCH : Nat := 0xDD
abbrev GET_DAQ_CLOCK : Nat := 0xDC
abbrev READ_DAQ : Nat := 0xDB
abbrev GET_DAQ_PROCESSOR_INFO : Nat := 0xDA
abbrev GET_DAQ_RESOLUTION_INFO : Nat := 0xD9
abbrev GET_DAQ_LIST_INFO : Nat := 0xD8
abbrev GET_DAQ_EVENT_INFO : Nat := 0xD7
abbrev FREE_DAQ : Nat := 0xD6
abbrev ALLOC_DAQ : Nat := 0xD5
abbrev ALLOC_ODT : Nat := 0xD4
abbrev ALLOC_ODT_ENTRY : Nat := 0xD3
abbrev PROGRAM_START : Nat := 0xD2
abbrev PROGRAM_CLEAR : Nat := 0xD1
abbrev PROGRAM : Nat := 0xD0
abbrev PROGRAM_RESET : Nat := 0xCF
abbrev GET_PGM_PROCESSOR_INFO : Nat := 0xCE
abbrev GET_SECTOR_INFO : Nat := 0xCD
abbrev PROGRAM_PREPARE : Nat := 0xCC
abbrev PROGRAM_FORMAT : Nat := 0xCB
abbrev PROGRAM_NEXT : Nat := 0xCA
abbrev PROGRAM_MAX : Nat := 0xC9
abbrev PROGRAM_VERIFY : Nat := 0xC8
abbrev WRITE_DAQ_MULTIPLE : Nat := 0xC7
abbrev TIME_CORRELATION_PROPERTIES : Nat := 0xC6
abbrev DTO_CTR_PROPERTIES : Nat := 0xC5

abbrev ERR_CMD_SYNCH : Nat := 0x00
abbrev ERR_CMD_BUSY : Nat := 0x10
abbrev ERR_DAQ_ACTIVE : Nat := 0x11
abbrev ERR_PGM_ACTIVE : Nat := 0x12
abbrev ERR_CMD_UNKNOWN : Nat := 0x20
abbrev ERR_CMD_SYNTAX : Nat := 0x21
abbrev ERR_OUT_OF_RANGE : Nat := 0x22
abbrev ERR_WRITE_PROTECTED : Nat := 0x23
abbrev ERR_ACCESS_DENIED : Nat := 0x24
abbrev ERR_ACCESS_LOCKED : Nat := 0x25
abbrev ERR_PAGE_NOT_VALID : Nat := 0x26
abbrev ERR_MODE_NOT_VALID : Nat := 0x27
abbrev ERR_SEGMENT_NOT_VALID : Nat := 0x28
abbrev ERR_SEQUENCE : Nat := 0x29
abbrev ERR_DAQ_CONFIG : Nat := 0x2A
abbrev ERR_MEMORY_OVERFLOW : Nat := 0x30
abbrev ERR_GENERIC : Nat := 0x31
abbrev ERR_VERIFY : Nat := 0x32
abbrev ERR_RESOURCE_TEMPORARY_NOT_ACCESSIBLE : Nat := 0x33
abbrev ERR_SUCCESS : Nat := 0xff

abbrev XCP_EV_RESUME_MODE : Nat := 0x00
abbrev XCP_EV_CLEAR_DAQ : Nat := 0x01
abbrev XCP_EV_STORE_DAQ : Nat := 0x02
abbrev XCP_EV_STORE_CAL : Nat := 0x03
abbrev XCP_EV_CMD_PENDING : Nat := 0x05
abbrev XCP_EV_DAQ_OVERLOAD : Nat := 0x06
abbrev XCP_EV_SESSION_TERMINATED : Nat := 0x07
abbrev XCP_EV_TIME_SYNC : Nat := 0x08
abbrev XCP_EV_STIM_TIMEOUT : Nat := 0x09
abbrev XCP_EV_SLEEP : Nat := 0x0A
abbrev XCP_EV_WAKE_UP : Nat := 0x0B
abbrev XCP_EV_USER : Nat := 0xFE
abbrev XCP_EV_TRANSPORT : Nat := 0xFF

/-! ## Request decoder -/

/-- The statements of `case DOWNLOAD:` in `print_requested_service`. -/
def service_DOWNLOAD_text (msg : XcpMessage) : String :=
  "DOWNLOAD("
    ++ "numberOfDataElements = " ++ fmt_u (MSG_BYTE msg 1)
    ++ ", elements: "
    ++ hexdump_xcp_message msg 2

/-- The statements of `case USER_CMD:`, which has no `break` and runs on into
`case DOWNLOAD:`. -/
def service_USER_CMD_text (msg : XcpMessage) : String :=
  "USER_CMD("
    ++ "subCommandCode = " ++ fmt_u (MSG_BYTE msg 1)
    ++ "parameters: "
    ++ hexdump_xcp_message msg 2
    ++ service_DOWNLOAD_text msg

/-- The statements of `case TRANSPORT_LAYER_CMD:`, which has no `break` and
runs on into `case USER_CMD:`. -/
def service_TRANSPORT_LAYER_CMD_text (msg : XcpMessage) : String :=
  "TRANSPORT_LAYER_CMD("
    ++ "subCommandCode = " ++ fmt_u (MSG_BYTE msg 1)
    ++ "parameters: "
    ++ hexdump_xcp_message msg 2
    ++ service_USER_CMD_text msg

/-- The statements of `case GET_SEGMENT_INFO:`; `mode` and `segmentInfo` are
the values just stored in `getSegmentInfoRequest`. -/
def service_GET_SEGMENT_INFO_text (msg : XcpMessage) (mode segmentInfo : Nat) : String :=
  "GET_SEGMENT_INFO("
    ++ "mode = "
    ++ (if mode = 0 then "0 [\"get basic address info for this SEGMENT\"]"
        else if mode = 1 then "1 [\"get standard info for this SEGMENT\"]"
        else if mode = 2 then "2 [\"get address mapping info for this SEGMENT\"]"
        else fmt_u mode ++ " [\"*** INVALID ***\"]")
    ++ ", segmentNumber = " ++ fmt_u (MSG_BYTE msg 2)
    ++ (if mode = 0 then
          ", segmentInfo = \"" ++ (if segmentInfo = 0 then "address" else "length") ++ "\""
        else if mode = 2 then
          ", segmentInfo = \""
            ++ (if segmentInfo = 0 then "sourceAddress"
                else if segmentInfo = 1 then "destinationAddress" else "lengthAddress")
            ++ "\""
        else "")
    ++ (if mode = 2 then
          ", mappingIndex = " ++ fmt_u (MSG_BYTE msg 4)
            ++ " [\"identifier for address mapping range that MAPPING_INFO belongs to\"]"
        else "")

/-- The `for` loop of `case WRITE_DAQ_MULTIPLE:`: `count` iterations starting
at element `idx`. -/
def write_daq_multiple_loop (msg : XcpMessage) : Nat → Nat → String
  | _, 0 => ""
  | idx, count + 1 =>
    "\x7b"
      ++ "bitOffset = " ++ fmt_u (MSG_BYTE msg ((idx * 8) + 2))
      ++ ", sizeofElement = " ++ fmt_u (MSG_BYTE msg ((idx * 8) + 3))
      ++ ", adddress = 0x" ++ fmt_x 8 (MSG_DWORD msg ((idx * 8) + 4))
      ++ ", addressExtension = " ++ fmt_u (MSG_BYTE msg ((idx * 8) + 8))
      ++ "\x7d, "
      ++ write_daq_multiple_loop msg (idx + 1) count

/-- Decodes the fixed fields of a request, `print_requested_service`: the
printed text, the returned index `idx` (initially 1) and the file-scope
variables after the call. -/
def print_requested_service (st : DissectState) (msg : XcpMessage) :
    String × Nat × DissectState :=
  let service := MSG_BYTE msg 0
  if service = CONNECT then
    ("-> " ++ "CONNECT(mode = "
      ++ (if MSG_BYTE msg 1 = 0x00 then "NORMAL"
          else if MSG_BYTE msg 1 = 0x01 then "USER_DEFINED" else ""),
     2, st)
  else if service = DISCONNECT then
    ("-> " ++ "DISCONNECT(", 1, st)
  else if service = GET_STATUS then
    ("-> " ++ "GET_STATUS(", 1, st)
  else if service = SYNCH then
    ("-> " ++ "SYNCH(", 1, st)
  else if service = GET_COMM_MODE_INFO then
    ("-> " ++ "GET_COMM_MODE_INFO(", 1, st)
  else if service = GET_ID then
    ("-> " ++ "GET_ID("
      ++ "requestedIdentificationType = " ++ fmt_u (MSG_BYTE msg 1),
     2, st)
  else if service = SET_REQUEST then
    ("-> " ++ "SET_REQUEST("
      ++ "mode = \x7b"
      ++ "clearDaqReq = " ++ MSG_BOOL msg 1 8
      ++ ", storeDaqReqResume = " ++ MSG_BOOL msg 1 4
      ++ ", storeDaqReqNoResume = " ++ MSG_BOOL msg 1 2
      ++ ", storeCalReq = " ++ MSG_BOOL msg 1 1
      ++ "\x7d"
      ++ ", sessionConfigurationId = " ++ fmt_u (MSG_WORD msg 2),
     3, st)
  else if service = GET_SEED then
    ("-> " ++ "GET_SEED("
      ++ "mode = \""
      ++ (if MSG_BYTE msg 1 = 0 then "first part of seed" else "remaining part of seed")
      ++ "\""
      ++ ", \"" ++ (if MSG_BYTE msg 2 = 0 then "Resource" else "Don’t care") ++ "\"",
     3, st)
  else if service = UNLOCK then
    ("-> " ++ "UNLOCK("
      ++ "length = " ++ fmt_u (MSG_BYTE msg 1) ++ ", key: ",
     2, st)
  else if service = SET_MTA then
    ("-> " ++ "SET_MTA("
      ++ "address = 0x" ++ fmt_x 8 (MSG_DWORD msg 4)
      ++ ", addressExtension = 0x" ++ fmt_x 2 (MSG_BYTE msg 3),
     8, st)
  else if service = UPLOAD then
    ("-> " ++ "UPLOAD("
      ++ "numberOfDataElements = " ++ fmt_u (MSG_BYTE msg 1),
     2, st)
  else if service = SHORT_UPLOAD then
    ("-> " ++ "SHORT_UPLOAD("
      ++ "numberOfDataElements = " ++ fmt_u (MSG_BYTE msg 1)
      ++ "address = 0x" ++ fmt_x 8 (MSG_DWORD msg 4)
      ++ ", addressExtension = 0x" ++ fmt_x 2 (MSG_BYTE msg 3),
     8, st)
  else if service = BUILD_CHECKSUM then
    ("-> " ++ "BUILD_CHECKSUM("
      ++ "blockSize = 0x" ++ fmt_x 8 (MSG_DWORD msg 4) ++ " ",
     8, st)
  else if service = TRANSPORT_LAYER_CMD then
    ("-> " ++ service_TRANSPORT_LAYER_CMD_text msg, 8, st)
  else if service = USER_CMD then
    ("-> " ++ service_USER_CMD_text msg, 8, st)
  else if service = DOWNLOAD then
    ("-> " ++ service_DOWNLOAD_text msg, 8, st)
  else if service = DOWNLOAD_NEXT then
    ("-> " ++ "DOWNLOAD_NEXT("
      ++ "numberOfDataElements = " ++ fmt_u (MSG_BYTE msg 1)
      ++ ", elements: "
      ++ hexdump_xcp_message msg 2,
     8, st)
  else if service = DOWNLOAD_MAX then
    ("-> " ++ "DOWNLOAD_MAX("
      ++ "elements: "
      ++ hexdump_xcp_message msg 1,
     8, st)
  else if service = SHORT_DOWNLOAD then
    ("-> " ++ "SHORT_DOWNLOAD("
      ++ "numberOfDataElements = " ++ fmt_u (MSG_BYTE msg 1)
      ++ ", address = 0x" ++ fmt_x 8 (MSG_DWORD msg 4)
      ++ ", addressExtension = 0x" ++ fmt_x 2 (MSG_BYTE msg 3)
      ++ (if MSG_FRAME_LEN msg ≠ 0 then "elements: " ++ hexdump_xcp_message msg 8 else ""),
     8, st)
  else if service = MODIFY_BITS then
    ("-> " ++ "MODIFY_BITS("
      ++ "shiftValue = " ++ fmt_u (MSG_BYTE msg 1)
      ++ ", andMask = 0x" ++ fmt_x 4 (MSG_WORD msg 2)
      ++ ", xorMask = 0x" ++ fmt_x 4 (MSG_WORD msg 4),
     6, st)
  else if service = SET_CAL_PAGE then
    ("-> " ++ "SET_CAL_PAGE("
      ++ print_set_cal_page_mode (MSG_BYTE msg 1)
      ++ ", logicalDataSegmentNumber = " ++ fmt_u (MSG_BYTE msg 2)
      ++ ", logicalDataPageNumber = " ++ fmt_u (MSG_BYTE msg 3),
     4, st)
  else if service = GET_CAL_PAGE then
    ("-> " ++ "GET_CAL_PAGE("
      ++ ", logicalDataPageNumber = " ++ fmt_u (MSG_BYTE msg 3),
     4, st)
  else if service = GET_PAG_PROCESSOR_INFO then
    ("-> " ++ "GET_PAG_PROCESSOR_INFO(", 1, st)
  else if service = GET_SEGMENT_INFO then
    ("-> " ++ service_GET_SEGMENT_INFO_text msg (MSG_BYTE msg 1) (MSG_BYTE msg 3),
     5,
     { st with getSegmentInfoRequest :=
        { st.getSegmentInfoRequest with mode := MSG_BYTE msg 1, segmentInfo := MSG_BYTE msg 3 } })
  else if service = GET_PAGE_INFO then
    ("-> " ++ "GET_PAGE_INFO("
      ++ "segmentNumber = " ++ fmt_u (MSG_BYTE msg 2)
      ++ ", pageNumber = " ++ fmt_u (MSG_BYTE msg 3),
     1, st)
  else if service = SET_SEGMENT_MODE then
    ("-> " ++ "SET_SEGMENT_MODE("
      ++ print_segment_mode (MSG_BYTE msg 1)
      ++ ", segmentNumber = " ++ fmt_u (MSG_BYTE msg 2),
     1, st)
  else if service = GET_SEGMENT_MODE then
    ("-> " ++ "GET_SEGMENT_MODE("
      ++ ", segmentNumber = " ++ fmt_u (MSG_BYTE msg 2),
     1, st)
  else if service = COPY_CAL_PAGE then
    ("-> " ++ "COPY_CAL_PAGE("
      ++ "logicalDataSegmentNumberSource= " ++ fmt_u (MSG_BYTE msg 1)
      ++ ", logicalDataPageNumberSource = " ++ fmt_u (MSG_BYTE msg 2)
      ++ ", logicalDataSegmentNumberDestination = " ++ fmt_u (MSG_BYTE msg 3)
      ++ ", logicalDataPageNumberDestination = " ++ fmt_u (MSG_BYTE msg 4),
     1, st)
  else if service = CLEAR_DAQ_LIST then
    ("-> " ++ "CLEAR_DAQ_LIST("
      ++ "daqListNumber = " ++ fmt_u (MSG_WORD msg 2),
     1, st)
  else if service = SET_DAQ_PTR then
    ("-> " ++ "SET_DAQ_PTR("
      ++ "daqListNumber = " ++ fmt_u (MSG_WORD msg 2)
      ++ ", odtNumber = " ++ fmt_u (MSG_BYTE msg 4)
      ++ ", odtEntryNumber = " ++ fmt_u (MSG_BYTE msg 5),
     1, st)
  else if service = WRITE_DAQ then
    ("-> " ++ "WRITE_DAQ("
      ++ "bitOffset = " ++ fmt_u (MSG_BYTE msg 1)
      ++ ", sizeofElement = " ++ fmt_u (MSG_BYTE msg 2)
      ++ ", addressExtension = " ++ fmt_u (MSG_BYTE msg 3)
      ++ ", adddress = 0x" ++ fmt_x 8 (MSG_DWORD msg 4),
     1, st)
  else if service = SET_DAQ_LIST_MODE then
    ("-> " ++ "SET_DAQ_LIST_MODE("
      ++ print_daq_list_mode (MSG_BYTE msg 1)
      ++ " , daqListNumber = " ++ fmt_u (MSG_WORD msg 2)
      ++ " , eventChannelNumber = " ++ fmt_u (MSG_WORD msg 4)
      ++ " , transmissionRatePrescaler = " ++ fmt_u (MSG_WORD msg 6)
      ++ " , daqListPriority = " ++ fmt_u (MSG_BYTE msg 7),
     1, st)
  else if service = GET_DAQ_LIST_MODE then
    ("-> " ++ "GET_DAQ_LIST_MODE("
      ++ "daqListNumber = " ++ fmt_u (MSG_WORD msg 2),
     4, st)
  else if service = START_STOP_DAQ_LIST then
    ("-> " ++ "START_STOP_DAQ_LIST("
      ++ "mode = "
      ++ (if MSG_BYTE msg 1 = 0 then "STOP"
          else if MSG_BYTE msg 1 = 1 then "START"
          else if MSG_BYTE msg 1 = 2 then "SELECT" else "")
      ++ ", daqListNumber = " ++ fmt_u (MSG_WORD msg 2),
     1, st)
  else if service = START_STOP_SYNCH then
    ("-> " ++ "START_STOP_SYNCH("
      ++ "mode = "
      ++ (if MSG_BYTE msg 1 = 0 then "STOP_ALL"
          else if MSG_BYTE msg 1 = 1 then "START_SELECTED"
          else if MSG_BYTE msg 1 = 2 then "STOP_SELECTED" else ""),
     1, st)
  else if service = GET_DAQ_CLOCK then
    ("-> " ++ "GET_DAQ_CLOCK(", 1, st)
  else if service = READ_DAQ then
    ("-> " ++ "READ_DAQ(", 1, st)
  else if service = GET_DAQ_PROCESSOR_INFO then
    ("-> " ++ "GET_DAQ_PROCESSOR_INFO(", 1, st)
  else if service = GET_DAQ_RESOLUTION_INFO then
    ("-> " ++ "GET_DAQ_RESOLUTION_INFO(", 1, st)
  else if service = GET_DAQ_LIST_INFO then
    ("-> " ++ "GET_DAQ_LIST_INFO("
      ++ "daqListNumber = " ++ fmt_u (MSG_WORD msg 2),
     4, st)
  else if service = GET_DAQ_EVENT_INFO then
    ("-> " ++ "GET_DAQ_EVENT_INFO("
      ++ "eventChannelNumber = " ++ fmt_u (MSG_WORD msg 2),
     4, st)
  else if service = FREE_DAQ then
    ("-> " ++ "FREE_DAQ(", 1, st)
  else if service = ALLOC_DAQ then
    ("-> " ++ "ALLOC_DAQ("
      ++ "daqCount = " ++ fmt_u (MSG_WORD msg 2),
     4, st)
  else if service = ALLOC_ODT then
    ("-> " ++ "ALLOC_ODT("
      ++ "daqListNumber = " ++ fmt_u (MSG_WORD msg 2)
      ++ ", odtCount = " ++ fmt_u (MSG_WORD msg 4),
     6, st)
  else if service = ALLOC_ODT_ENTRY then
    ("-> " ++ "ALLOC_ODT_ENTRY("
      ++ "daqListNumber = " ++ fmt_u (MSG_WORD msg 2)
      ++ ", odtNumber = " ++ fmt_u (MSG_WORD msg 4)
      ++ ", odtEntriesCount = " ++ fmt_u (MSG_BYTE msg 5),
     7, st)
  else if service = PROGRAM_START then
    ("-> " ++ "PROGRAM_START(", 1, st)
  else if service = PROGRAM_CLEAR then
    ("-> " ++ "PROGRAM_CLEAR("
      ++ "accessMode = "
      ++ (if MSG_BYTE msg 1 = 0 then "ABSOLUTE"
          else if MSG_BYTE msg 1 = 1 then "FUNCTIONAL" else "\"INVALID\"")
      ++ ", clearRange = " ++ fmt_u (MSG_DWORD msg 4),
     1, st)
  else if service = PROGRAM then
    ("-> " ++ "PROGRAM("
      ++ "numberOfDataElements = " ++ fmt_u (MSG_BYTE msg 1)
      ++ ", elements: "
      ++ hexdump_xcp_message msg 2,
     8, st)
  else if service = PROGRAM_RESET then
    ("-> " ++ "PROGRAM_RESET(", 1, st)
  else if service = GET_PGM_PROCESSOR_INFO then
    ("-> " ++ "GET_PGM_PROCESSOR_INFO(", 1, st)
  else if service = GET_SECTOR_INFO then
    ("-> " ++ "GET_SECTOR_INFO("
      ++ "mode = "
      ++ (if MSG_BYTE msg 1 = 0 then "\"get start address for this SECTOR\""
          else if MSG_BYTE msg 1 = 1 then "\"get length of this SECTOR[bytes]\""
          else if MSG_BYTE msg 1 = 2 then "\"get name length of this SECTOR\"" else "")
      ++ ", sectorNumber = " ++ fmt_u (MSG_BYTE msg 2),
     1, { st with get_sector_info_mode := MSG_BYTE msg 1 })
  else if service = PROGRAM_PREPARE then
    ("-> " ++ "PROGRAM_PREPARE("
      ++ "Codesize[AG] = " ++ fmt_u (MSG_WORD msg 2),
     1, st)
  else if service = PROGRAM_FORMAT then
    ("-> " ++ "PROGRAM_FORMAT("
      ++ "compressionMethod = " ++ fmt_u (MSG_BYTE msg 1)
      ++ ", encryptionMethod = " ++ fmt_u (MSG_BYTE msg 2)
      ++ ", programmingMethod = " ++ fmt_u (MSG_BYTE msg 3)
      ++ ", accessMethod = " ++ fmt_u (MSG_BYTE msg 4),
     1, st)
  else if service = PROGRAM_NEXT then
    ("-> " ++ "PROGRAM_NEXT("
      ++ "numberOfDataElements = " ++ fmt_u (MSG_BYTE msg 1)
      ++ ", elements: "
      ++ hexdump_xcp_message msg 2,
     8, st)
  else if service = PROGRAM_MAX then
    ("-> " ++ "PROGRAM_MAX("
      ++ "elements: "
      ++ hexdump_xcp_message msg 1,
     8, st)
  else if service = PROGRAM_VERIFY then
    ("-> " ++ "PROGRAM_VERIFY("
      ++ "verificationMode = \""
      ++ (if MSG_BYTE msg 1 = 0 then "request to start internal routine"
          else if MSG_BYTE msg 1 = 1 then "sending Verification Value" else "")
      ++ "\""
      ++ ", verificationType = " ++ fmt_u (MSG_WORD msg 2)
      ++ ", verificationValue = " ++ fmt_u (MSG_DWORD msg 4),
     1, st)
  else if service = WRITE_DAQ_MULTIPLE then
    ("-> " ++ "WRITE_DAQ_MULTIPLE("
      ++ "elements = ["
      ++ write_daq_multiple_loop msg 0 (MSG_BYTE msg 1)
      ++ "]",
     1, st)
  else if service = TIME_CORRELATION_PROPERTIES then
    ("-> " ++ "TIME_CORRELATION_PROPERTIES(", 1, st)
  else if service = DTO_CTR_PROPERTIES then
    ("-> " ++ "DTO_CTR_PROPERTIES(", 1, st)
  else
    ("-> ", 1, st)

/-- Decodes a request frame, `print_xcp_request`: remembers the command
code, prints the decoded fields, the hex dump from the returned index and the
closing parenthesis. -/
def print_xcp_request (st : DissectState) (msg : XcpMessage) : String × DissectState :=
  let st1 := { st with service_request := MSG_BYTE msg 0 }
  let r := print_requested_service st1 msg
  (r.1 ++ hexdump_xcp_message msg r.2.1 ++ ")", r.2.2)

/-! ## Response decoder -/

/-- Decodes an event packet, `print_event`. -/
def print_event (msg : XcpMessage) : String :=
  let event_id := MSG_BYTE msg 1
  let event_type := MSG_BYTE msg 2
  let event_channel := MSG_WORD msg 4 % 65536
  let session_id := MSG_WORD msg 2 % 65536
  let timestamp := MSG_DWORD msg 4 % 4294967296
  let r : String × Nat :=
    if event_id = XCP_EV_RESUME_MODE then
      ("EV_RESUME_MODE, sessionConfigurationId = " ++ fmt_u session_id
        ++ ", timestamp = " ++ fmt_u timestamp, 8)
    else if event_id = XCP_EV_CLEAR_DAQ then ("EV_CLEAR_DAQ", 2)
    else if event_id = XCP_EV_STORE_DAQ then ("EV_STORE_DAQ", 2)
    else if event_id = XCP_EV_STORE_CAL then ("EV_STORE_CAL", 2)
    else if event_id = XCP_EV_CMD_PENDING then ("EV_CMD_PENDING", 2)
    else if event_id = XCP_EV_DAQ_OVERLOAD then ("EV_DAQ_OVERLOAD", 2)
    else if event_id = XCP_EV_SESSION_TERMINATED then ("EV_SESSION_TERMINATED", 2)
    else if event_id = XCP_EV_TIME_SYNC then
      ("EV_TIME_SYNC, timestamp = " ++ fmt_u timestamp, 2)
    else if event_id = XCP_EV_STIM_TIMEOUT then
      ("EV_STIM_TIMEOUT, eventType = "
        ++ (if event_type = 0 then "EVENT_CHANNEL_NUMBER"
            else if event_type = 1 then "DAQ LIST NUMBER" else "INVALID")
        ++ ", eventChannel =" ++ fmt_u event_channel, 6)
    else if event_id = XCP_EV_SLEEP then ("EV_SLEEP", 2)
    else if event_id = XCP_EV_WAKE_UP then ("EV_WAKE_UP", 2)
    else if event_id = XCP_EV_USER then ("EV_USER", 2)
    else if event_id = XCP_EV_TRANSPORT then ("EV_TRANSPORT", 2)
    else ("0x" ++ fmt_x 0 event_id ++ " ", 2)
  "EVENT(id = " ++ r.1 ++ hexdump_xcp_message msg r.2 ++ ")"

/-- The statements of `case GET_SEGMENT_MODE:` in
`print_xcp_positive_response`. -/
def response_GET_SEGMENT_MODE_text (msg : XcpMessage) : String :=
  "(" ++ print_segment_mode (MSG_BYTE msg 2) ++ ")"

/-- The statements of `case GET_PAGE_INFO:`, which has no `break` and runs on
into `case GET_SEGMENT_MODE:`. -/
def response_GET_PAGE_INFO_text (msg : XcpMessage) : String :=
  "(" ++ print_get_page_info (MSG_BYTE msg 1)
    ++ ", initSegment = " ++ fmt_u (MSG_BYTE msg 2)
    ++ ")"
    ++ response_GET_SEGMENT_MODE_text msg

/-- The statements of `case GET_SEGMENT_INFO:`, which has no `break` and runs
on into `case GET_PAGE_INFO:`. -/
def response_GET_SEGMENT_INFO_text (st : DissectState) (msg : XcpMessage) : String :=
  "("
    ++ (if st.getSegmentInfoRequest.mode = 0 then
          (if st.getSegmentInfoRequest.segmentInfo = 0 then
             "address = 0x" ++ fmt_x 8 (MSG_DWORD msg 4)
           else if st.getSegmentInfoRequest.segmentInfo = 1 then
             "length = " ++ fmt_u (MSG_DWORD msg 4)
           else "")
        else if st.getSegmentInfoRequest.mode = 1 then
          "maxPages = " ++ fmt_u (MSG_BYTE msg 1)
            ++ ", addressExtension = " ++ fmt_u (MSG_BYTE msg 2)
            ++ ", maxMapping = " ++ fmt_u (MSG_BYTE msg 3)
            ++ ", compressionMethod = " ++ fmt_u (MSG_BYTE msg 4)
            ++ ", encryptionMethod = " ++ fmt_u (MSG_BYTE msg 5)
        else if st.getSegmentInfoRequest.mode = 2 then
          (if st.getSegmentInfoRequest.segmentInfo = 0 then
             ", sourceAddress = 0x" ++ fmt_x 8 (MSG_DWORD msg 4)
           else if st.getSegmentInfoRequest.segmentInfo = 1 then
             ", destinationAddress = 0x" ++ fmt_x 8 (MSG_DWORD msg 4)
           else if st.getSegmentInfoRequest.segmentInfo = 2 then
             ", length = " ++ fmt_u (MSG_DWORD msg 4)
           else "")
        else "")
    ++ ")"
    ++ response_GET_PAGE_INFO_text msg

/-- The statements of `case GET_PAG_PROCESSOR_INFO:`, which has no `break`
and runs on into `case GET_SEGMENT_INFO:`. -/
def response_GET_PAG_PROCESSOR_INFO_text (st : DissectState) (msg : XcpMessage) : String :=
  "("
    ++ "maxSegment = " ++ fmt_u (MSG_BYTE msg 1) ++ ", "
    ++ print_get_pag_processor_info (MSG_BYTE msg 2)
    ++ ")"
    ++ response_GET_SEGMENT_INFO_text st msg

/-- The statements of `case GET_SECTOR_INFO:`; in the joint case 0, 1 both
inner conditions test `get_sector_info_mode == 0`. -/
def response_GET_SECTOR_INFO_text (st : DissectState) (msg : XcpMessage) : String :=
  "("
    ++ (if st.get_sector_info_mode = 0 ∨ st.get_sector_info_mode = 1 then
          "clearSequenceNumber = " ++ fmt_u (MSG_BYTE msg 1)
            ++ ", programSequenceNumber = " ++ fmt_u (MSG_BYTE msg 2)
            ++ ", programmingMethod = " ++ fmt_u (MSG_BYTE msg 3)
            ++ (if st.get_sector_info_mode = 0 then
                  ", startAddress = 0x" ++ fmt_x 8 (MSG_DWORD msg 4)
                else if st.get_sector_info_mode = 0 then
                  ", length = " ++ fmt_u (MSG_DWORD msg 4)
                else "")
        else if st.get_sector_info_mode = 2 then
          "nameLength = " ++ fmt_u (MSG_BYTE msg 1)
        else "")
    ++ ")"

/-- Decodes a positive response by the remembered command code,
`print_xcp_positive_response`. -/
def print_xcp_positive_response (st : DissectState) (msg : XcpMessage) : String :=
  let service_request := st.service_request
  if service_request = CONNECT then
    "(" ++ print_resources (MSG_BYTE msg 1) 0
      ++ ", "
      ++ print_comm_mode_basic (MSG_BYTE msg 2)
      ++ ", maxCto = " ++ fmt_u (MSG_BYTE msg 3)
      ++ ", maxDto = " ++ fmt_u (XCP_MAKEWORD (MSG_BYTE msg 5) (MSG_BYTE msg 4))
      ++ ", protocolLayerVersion = " ++ fmt_u (MSG_BYTE msg 6) ++ "." ++ fmt_u (MSG_BYTE msg 7)
      ++ ")"
  else if service_request = GET_STATUS then
    "(" ++ print_current_session_status (MSG_BYTE msg 1)
      ++ ", "
      ++ print_resources (MSG_BYTE msg 2) 1
      ++ ", "
      ++ "sessionConfigurationId = " ++ fmt_u (XCP_MAKEWORD (MSG_BYTE msg 5) (MSG_BYTE msg 4))
      ++ ")"
  else if service_request = GET_COMM_MODE_INFO then
    "(" ++ "commModeOptional = \x7b"
      ++ "masterBlockMode = " ++ MSG_BOOL msg 2 1
      ++ ", interleavedMode = " ++ MSG_BOOL msg 2 2
      ++ "\x7d"
      ++ ", maxBs = " ++ fmt_u (MSG_BYTE msg 4)
      ++ ", minSt = " ++ fmt_u (MSG_BYTE msg 5)
      ++ ", queueSize = " ++ fmt_u (MSG_BYTE msg 6)
      ++ ", XCPDriverVersion = " ++ fmt_u ((MSG_BYTE msg 7 &&& 0xf0) >>> 8)
      ++ "." ++ fmt_u (MSG_BYTE msg 7 &&& 0x0f)
      ++ ")"
  else if service_request = GET_ID then
    "(" ++ "mode = \x7b"
      ++ "compressedEncrypted = " ++ MSG_BOOL msg 1 2
      ++ ", transferMode = " ++ MSG_BOOL msg 1 1
      ++ "\x7d"
      ++ ", length = "
      ++ fmt_u (XCP_MAKEDWORD
          (XCP_MAKEWORD (MSG_BYTE msg 7) (MSG_BYTE msg 6))
          (XCP_MAKEWORD (MSG_BYTE msg 5) (MSG_BYTE msg 4)))
      ++ (if MSG_FRAME_LEN msg ≠ 0 then hexdump_xcp_message msg 8 else "")
      ++ ")"
  else if service_request = GET_SEED then
    "(" ++ "length = " ++ fmt_u (MSG_BYTE msg 1)
      ++ ", seed: "
      ++ hexdump_xcp_message msg 2
      ++ ")"
  else if service_request = UNLOCK then
    "(" ++ print_resources (MSG_BYTE msg 1) 1 ++ ")"
  else if service_request = UPLOAD then
    "(" ++ "elements: " ++ hexdump_xcp_message msg 1 ++ ")"
  else if service_request = BUILD_CHECKSUM then
    "(" ++ print_checksum_method (MSG_BYTE msg 1)
      ++ ", checksum = 0x" ++ fmt_x 8 (MSG_DWORD msg 4)
      ++ ")"
  else if service_request = TRANSPORT_LAYER_CMD then
    "(" ++ hexdump_xcp_message msg 1 ++ ")"
  else if service_request = GET_PAG_PROCESSOR_INFO then
    response_GET_PAG_PROCESSOR_INFO_text st msg
  else if service_request = GET_SEGMENT_INFO then
    response_GET_SEGMENT_INFO_text st msg
  else if service_request = GET_PAGE_INFO then
    response_GET_PAGE_INFO_text msg
  else if service_request = GET_SEGMENT_MODE then
    response_GET_SEGMENT_MODE_text msg
  else if service_request = START_STOP_DAQ_LIST then
    "(" ++ "firstPID = " ++ fmt_u (MSG_BYTE msg 1) ++ ")"
  else if service_request = GET_DAQ_CLOCK then
    "(" ++ "timestamp = " ++ fmt_u (MSG_WORD msg 4) ++ ")"
  else if service_request = GET_DAQ_PROCESSOR_INFO then
    "(" ++ print_daq_properties (MSG_BYTE msg 1)
      ++ ", minDaq = " ++ fmt_u (MSG_BYTE msg 6)
      ++ ", maxDaq = " ++ fmt_u (MSG_WORD msg 2)
      ++ ", maxEventChannel = " ++ fmt_u (MSG_WORD msg 4)
      ++ ", "
      ++ print_daq_key_byte (MSG_BYTE msg 7)
      ++ ")"
  else if service_request = GET_DAQ_RESOLUTION_INFO then
    "(" ++ "granularityOdtEntrySizeDaq = " ++ fmt_u (MSG_BYTE msg 1)
      ++ ", maxOdtEntrySizeDaq = " ++ fmt_u (MSG_BYTE msg 2)
      ++ ", granularityOdtEntrySizeStim = " ++ fmt_u (MSG_BYTE msg 3)
      ++ ", maxOdtEntrySizeStim = " ++ fmt_u (MSG_BYTE msg 4)
      ++ ", "
      ++ print_daq_timestamp_mode (MSG_BYTE msg 5)
      ++ ", timestampTicks = " ++ fmt_u (MSG_BYTE msg 6)
      ++ ")"
  else if service_request = GET_DAQ_LIST_MODE then
    "(" ++ print_daq_get_list_mode (MSG_BYTE msg 1)
      ++ ", currentEventChannelNumber = " ++ fmt_u (MSG_WORD msg 4)
      ++ ", currentPrescaler = " ++ fmt_u (MSG_BYTE msg 6)
      ++ ", currentDaqListPriority = " ++ fmt_u (MSG_BYTE msg 7)
      ++ ")"
  else if service_request = GET_DAQ_EVENT_INFO then
    "(" ++ print_daq_event_properties (MSG_BYTE msg 1)
      ++ ", maxDaqList = " ++ fmt_u (MSG_BYTE msg 2)
      ++ ", channelNameLength = " ++ fmt_u (MSG_BYTE msg 3)
      ++ ", channelTimeCycle = "
      ++ (if MSG_BYTE msg 4 = 0 then "\"not cyclic\"" ++ ", channelTimeUnit = \"N/A\""
          else fmt_u (MSG_BYTE msg 4))
      ++ (if MSG_BYTE msg 4 ≠ 0 then ", " ++ print_event_channel_time_unit (MSG_BYTE msg 5)
          else "")
      ++ ", channelPriority = " ++ fmt_u (MSG_BYTE msg 6)
      ++ ")"
  else if service_request = GET_DAQ_LIST_INFO then
    "(" ++ print_daq_list_properties (MSG_BYTE msg 1)
      ++ ", maxOdt = " ++ fmt_u (MSG_BYTE msg 2)
      ++ ", maxOdtEntries = " ++ fmt_u (MSG_BYTE msg 3)
      ++ ", fixedEvent = " ++ fmt_u (MSG_WORD msg 4)
      ++ ")"
  else if service_request = READ_DAQ then
    "(" ++ "bitOffset = " ++ fmt_u (MSG_BYTE msg 1)
      ++ ", elementSize = " ++ fmt_u (MSG_BYTE msg 2)
      ++ ", addressExtension = 0x" ++ fmt_x 2 (MSG_BYTE msg 3)
      ++ ", address = 0x" ++ fmt_x 8 (MSG_DWORD msg 4)
      ++ ")"
  else if service_request = PROGRAM_START then
    "(" ++ print_pgm_comm_mode (MSG_BYTE msg 2)
      ++ ", maxCtoPgm = " ++ fmt_u (MSG_BYTE msg 3)
      ++ ", maxBsPgm = " ++ fmt_u (MSG_BYTE msg 4)
      ++ ", minStPgm = " ++ fmt_u (MSG_BYTE msg 5)
      ++ ", queueSizePgm = " ++ fmt_u (MSG_BYTE msg 6)
      ++ ")"
  else if service_request = GET_PGM_PROCESSOR_INFO then
    "(" ++ print_pgm_properties (MSG_BYTE msg 1)
      ++ ", maxSector = " ++ fmt_u (MSG_BYTE msg 2)
      ++ ")"
  else if service_request = GET_SECTOR_INFO then
    response_GET_SECTOR_INFO_text st msg
  else
    "(" ++ hexdump_xcp_message msg 1 ++ ")"

/-- The inner `switch (MSG_BYTE(1))` of the error case of
`print_xcp_response`: the printed name and the hex dump offset `idx`, which
is 2 for a named code and 1 in the default case. -/
def error_code_text (code : Nat) : String × Nat :=
  if code = ERR_CMD_SYNCH then ("CMD_SYNCH", 2)
  else if code = ERR_CMD_BUSY then ("CMD_BUSY", 2)
  else if code = ERR_DAQ_ACTIVE then ("DAQ_ACTIVE", 2)
  else if code = ERR_PGM_ACTIVE then ("PGM_ACTIVE", 2)
  else if code = ERR_CMD_UNKNOWN then ("CMD_UNKNOWN", 2)
  else if code = ERR_CMD_SYNTAX then ("CMD_SYNTAX", 2)
  else if code = ERR_OUT_OF_RANGE then ("OUT_OF_RANGE", 2)
  else if code = ERR_WRITE_PROTECTED then ("WRITE_PROTECTED", 2)
  else if code = ERR_ACCESS_DENIED then ("ACCESS_DENIED", 2)
  else if code = ERR_ACCESS_LOCKED then ("ACCESS_LOCKED", 2)
  else if code = ERR_PAGE_NOT_VALID then ("PAGE_NOT_VALID", 2)
  else if code = ERR_MODE_NOT_VALID then ("MODE_NOT_VALID", 2)
  else if code = ERR_SEGMENT_NOT_VALID then ("SEGMENT_NOT_VALID", 2)
  else if code = ERR_SEQUENCE then ("SEQUENCE", 2)
  else if code = ERR_DAQ_CONFIG then ("DAQ_CONFIG", 2)
  else if code = ERR_MEMORY_OVERFLOW then ("MEMORY_OVERFLOW", 2)
  else if code = ERR_GENERIC then ("GENERIC", 2)
  else if code = ERR_VERIFY then ("VERIFY", 2)
  else if code = ERR_RESOURCE_TEMPORARY_NOT_ACCESSIBLE then
    ("RESOURCE_TEMPORARY_NOT_ACCESSIBLE", 2)
  else if code = ERR_SUCCESS then ("SUCCESS", 2)
  else ("", 1)

/-- Decodes a response frame, `print_xcp_response`; the last statement
resets `service_request` to 0. -/
def print_xcp_response (st : DissectState) (msg : XcpMessage) : String × DissectState :=
  let code := MSG_BYTE msg 0
  let text :=
    if code = 0xff then
      "OK" ++ print_xcp_positive_response st msg
    else if code = 0xfe then
      "ERROR(" ++ (error_code_text (MSG_BYTE msg 1)).1
        ++ hexdump_xcp_message msg (error_code_text (MSG_BYTE msg 1)).2
        ++ ")"
    else if code = 0xfd then
      print_event msg
    else if code = 0xfc then
      "SERVICE REQ" ++ hexdump_xcp_message msg 1
    else
      "DTO(pid = " ++ fmt_u code ++ ", " ++ hexdump_xcp_message msg 1 ++ ")"
  ("<- " ++ text, { st with service_request := 0 })

/-! ## Frame classifier -/

/-- Main entry point, `print_xcp_message`: stores the flag, then dispatches
on the arbitration id. -/
def print_xcp_message (st : DissectState) (msg : XcpMessage) (dtos : Bool) :
    String × DissectState :=
  let st1 := { st with include_dtos := dtos }
  if msg.frame.can_id = st1.CanIds.src then
    print_xcp_request st1 msg
  else if msg.frame.can_id = st1.CanIds.dst then
    print_xcp_response st1 msg
  else
    (hexdump_xcp_message msg 0, st1)

/-! ## Notions used to state the properties -/

/-- The upper-case hexadecimal digit for a value below 16, as the
specification of the hex dump words it. -/
def spec_hex_digit (d : Nat) : Char :=
  ['0', '1', '2', '3', '4', '5', '6', '7', '8', '9', 'A', 'B', 'C', 'D', 'E', 'F'].getD d '?'

/-- The hex dump token the specification gives for one byte: its two-digit
upper-case hexadecimal value followed by one space. -/
def spec_hex_token (b : Nat) : String :=
  String.mk [spec_hex_digit (b / 16), spec_hex_digit (b % 16), ' ']

/-- The error code macros of `xcp.h`: each macro name with its value. -/
def ERR_codes : List (String × Nat) :=
  [("ERR_CMD_SYNCH", 0x00), ("ERR_CMD_BUSY", 0x10), ("ERR_DAQ_ACTIVE", 0x11),
   ("ERR_PGM_ACTIVE", 0x12), ("ERR_CMD_UNKNOWN", 0x20), ("ERR_CMD_SYNTAX", 0x21),
   ("ERR_OUT_OF_RANGE", 0x22), ("ERR_WRITE_PROTECTED", 0x23), ("ERR_ACCESS_DENIED", 0x24),
   ("ERR_ACCESS_LOCKED", 0x25), ("ERR_PAGE_NOT_VALID", 0x26), ("ERR_MODE_NOT_VALID", 0x27),
   ("ERR_SEGMENT_NOT_VALID", 0x28), ("ERR_SEQUENCE", 0x29), ("ERR_DAQ_CONFIG", 0x2A),
   ("ERR_MEMORY_OVERFLOW", 0x30), ("ERR_GENERIC", 0x31), ("ERR_VERIFY", 0x32),
   ("ERR_RESOURCE_TEMPORARY_NOT_ACCESSIBLE", 0x33), ("ERR_SUCCESS", 0xff)]

/-- The session of the specification examples: master id `0x7E0`, slave id
`0x7E8`, nothing decoded yet. -/
def exampleSession : DissectState :=
  setIdentifiers DissectState.initial { src := 0x7E0, dst := 0x7E8 }

/-- The command codes that have a `case` label in the switch of
`print_xcp_positive_response`, in the order of the source. -/
def positive_response_cases : List Nat :=
  [CONNECT, GET_STATUS, GET_COMM_MODE_INFO, GET_ID, GET_SEED, UNLOCK, UPLOAD, BUILD_CHECKSUM,
   TRANSPORT_LAYER_CMD, GET_PAG_PROCESSOR_INFO, GET_SEGMENT_INFO, GET_PAGE_INFO,
   GET_SEGMENT_MODE, START_STOP_DAQ_LIST, GET_DAQ_CLOCK, GET_DAQ_PROCESSOR_INFO,
   GET_DAQ_RESOLUTION_INFO, GET_DAQ_LIST_MODE, GET_DAQ_EVENT_INFO, GET_DAQ_LIST_INFO,
   READ_DAQ, PROGRAM_START, GET_PGM_PROCESSOR_INFO, GET_SECTOR_INFO]

/-- The standard event macros of `xcp.h`: each macro name with its value. -/
def XCP_EV_codes : List (String × Nat) :=
  [("XCP_EV_RESUME_MODE", 0x00), ("XCP_EV_CLEAR_DAQ", 0x01), ("XCP_EV_STORE_DAQ", 0x02),
   ("XCP_EV_STORE_CAL", 0x03), ("XCP_EV_CMD_PENDING", 0x05), ("XCP_EV_DAQ_OVERLOAD", 0x06),
   ("XCP_EV_SESSION_TERMINATED", 0x07), ("XCP_EV_TIME_SYNC", 0x08),
   ("XCP_EV_STIM_TIMEOUT", 0x09), ("XCP_EV_SLEEP", 0x0A), ("XCP_EV_WAKE_UP", 0x0B),
   ("XCP_EV_USER", 0xFE), ("XCP_EV_TRANSPORT", 0xFF)]

/-- The lower-case hexadecimal digit for a value below 16. -/
def spec_hex_lower_digit (d : Nat) : Char :=
  "0123456789abcdef".toList.getD d '?'

/-- The zero-padded hexadecimal numeral of exactly `width` digits the
specification asks for address and mask fields: the digit at position `i`
from the right is `n / 16 ^ i % 16`. -/
def spec_hex_fixed : Nat → Nat → List Char
  | 0, _ => []
  | width + 1, n => spec_hex_fixed width (n / 16) ++ [spec_hex_lower_digit (n % 16)]

/-! ## Option parsing of `xcpdump.c` -/

/-- The value `NO_CAN_ID` of `xcpdump.c`. -/
abbrev NO_CAN_ID : Nat := 0xFFFFFFFF

/-- The flag `CAN_EFF_FLAG` of `linux/can.h`. -/
abbrev CAN_EFF_FLAG : Nat := 0x80000000

/-- One option as `getopt` hands it to `main`: the option character, the
value `strtoul(optarg, NULL, 16)` of its argument and the length
`strlen(optarg)` of its argument. -/
structure CmdOption where
  opt : Char
  value : Nat
  arglen : Nat
deriving DecidableEq, Repr

/-- The locals `src` and `dst` of `main`, both of type `canid_t`. -/
structure MainIds where
  src : Nat
  dst : Nat
deriving DecidableEq, Repr

/-- One round of the `getopt` loop of `main`, for the two options that set an
identifier: `case 'm'` assigns `dst`, `case 's'` assigns `src`, each with
`CAN_EFF_FLAG` or-ed in when the argument has more than 7 characters; the
other options leave both locals unchanged. -/
def main_option (ids : MainIds) (o : CmdOption) : MainIds :=
  if o.opt = 'm' then
    { ids with dst :=
        if o.arglen > 7 then ((o.value % 4294967296) ||| CAN_EFF_FLAG) else o.value % 4294967296 }
  else if o.opt = 's' then
    { ids with src :=
        if o.arglen > 7 then ((o.value % 4294967296) ||| CAN_EFF_FLAG) else o.value % 4294967296 }
  else ids

/-- The identifiers `main` hands to `setIdentifiers` after the option loop:
`CanIds.src = src` (commented `Master` in the source) and `CanIds.dst = dst`
(commented `Slave`); both locals start as `NO_CAN_ID`. -/
def main_CanIds (options : List CmdOption) : CanIdType :=
  let ids := options.foldl main_option { src := NO_CAN_ID, dst := NO_CAN_ID }
  { src := ids.src, dst := ids.dst }

/-- The dissector state `main` starts its read loop with. -/
def main_session (options : List CmdOption) : DissectState :=
  setIdentifiers DissectState.initial (main_CanIds options)

/-! ## Decoding a sequence of frames -/

/-- The calls `print_xcp_message(&message, dtos)` the main loop of
`xcpdump.c` makes, one after the other, for the frames it hands to the
dissector: the file-scope variables after the last call. -/
def decode_trace (st : DissectState) : List (XcpMessage × Bool) → DissectState
  | [] => st
  | f :: rest => decode_trace (print_xcp_message st f.1 f.2).2 rest

/-- The most recent frame of a sequence whose id is the master id or the
slave id, if there is one. -/
def spec_last_session_frame (ids : CanIdType) : List (XcpMessage × Bool) → Option XcpMessage
  | [] => none
  | f :: rest =>
    match spec_last_session_frame ids rest with
    | some m => some m
    | none =>
      if f.1.frame.can_id = ids.src ∨ f.1.frame.can_id = ids.dst then some f.1 else none

/-- The command code the specification says is remembered after a sequence
of frames: the first byte of the most recent session frame when that frame is
a master frame, and 0 otherwise. -/
def spec_pending_command (ids : CanIdType) (frames : List (XcpMessage × Bool)) : Nat :=
  match spec_last_session_frame ids frames with
  | some m => if m.frame.can_id = ids.src then MSG_BYTE m 0 else 0
  | none => 0

/-! # Properties -/

/-! ## Helper lemmas: bytes, words and text -/

theorem MSG_BYTE_lt (msg : XcpMessage) (n : Nat) : MSG_BYTE msg n < 256 :=
  Nat.mod_lt _ (by decide)

theorem XCP_MAKEWORD_eq (h l : Nat) (hh : h < 256) (hl : l < 256) :
    XCP_MAKEWORD h l = l + 256 * h := by
  unfold XCP_MAKEWORD
  have e1 : h &&& 0xff = h % 256 := Nat.and_pow_two_sub_one_eq_mod h 8
  have e2 : l &&& 0xff = l % 256 := Nat.and_pow_two_sub_one_eq_mod l 8
  rw [e1, e2, Nat.mod_eq_of_lt hh, Nat.mod_eq_of_lt hl,
    Nat.mod_eq_of_lt (by omega : h < 65536), Nat.mod_eq_of_lt (by omega : l < 65536),
    Nat.shiftLeft_eq, Nat.mul_comm h (2 ^ 8),
    ← Nat.mul_add_lt_is_or (by omega : l < 2 ^ 8) h]
  omega

set_option maxRecDepth 100000 in
theorem fmt_X_two_digits : ∀ b, b < 256 → fmt_X 2 b ++ " " = spec_hex_token b := by
  decide

theorem ok_open (s : String) : "<- " ++ ("OK" ++ ("(" ++ s)) = "<- OK(" ++ s := by
  rw [← String.append_assoc, ← String.append_assoc]
  rfl

theorem error_open (s : String) : "<- " ++ ("ERROR(" ++ s) = "<- ERROR(" ++ s := by
  rw [← String.append_assoc]
  rfl

theorem hexdump_loop_eq_join (msg : XcpMessage) (idx count : Nat) :
    hexdump_loop msg idx count
      = String.join ((List.range' idx count).map fun i => spec_hex_token (MSG_BYTE msg i)) := by
  induction count generalizing idx with
  | zero => rfl
  | succ n ih =>
    apply String.ext
    rw [hexdump_loop, ih (idx + 1), fmt_X_two_digits _ (MSG_BYTE_lt msg idx)]
    simp [String.data_join, List.range'_succ]

theorem hexdump_loop_length (msg : XcpMessage) (idx count : Nat) :
    (hexdump_loop msg idx count).length = 3 * count := by
  induction count generalizing idx with
  | zero => rfl
  | succ n ih =>
    rw [hexdump_loop, fmt_X_two_digits _ (MSG_BYTE_lt msg idx),
      String.length_append, ih (idx + 1)]
    simp only [spec_hex_token, String.length_mk, List.length_cons, List.length_nil]
    omega

theorem hexdump_of_ne (msg : XcpMessage) (offset : Nat) (h : msg.frame.len ≠ offset) :
    hexdump_xcp_message msg offset
      = "[ " ++ hexdump_loop msg offset (msg.frame.len - offset) ++ "]" := by
  unfold hexdump_xcp_message
  rw [if_neg]
  intro h0
  apply h
  have : (Int.ofNat msg.frame.len) = Int.ofNat offset := by omega
  exact Int.ofNat.inj this

theorem hexdump_of_eq (msg : XcpMessage) (offset : Nat) (h : msg.frame.len = offset) :
    hexdump_xcp_message msg offset = "" := by
  unfold hexdump_xcp_message
  rw [if_pos]
  rw [h]
  exact Int.sub_self _

theorem hexdump_of_lt (msg : XcpMessage) (offset : Nat) (h : msg.frame.len < offset) :
    hexdump_xcp_message msg offset = "[ ]" := by
  have hne : msg.frame.len ≠ offset := by omega
  rw [hexdump_of_ne msg offset hne, Nat.sub_eq_zero_of_le (Nat.le_of_lt h)]
  rfl

/-! ## Helper lemmas: request decoder -/

theorem print_requested_service_keeps_command (st : DissectState) (msg : XcpMessage) :
    (print_requested_service st msg).2.2.service_request = st.service_request := by
  unfold print_requested_service
  simp only [apply_ite Prod.snd, apply_ite DissectState.service_request, ite_self]

theorem print_requested_service_text_of_frame (st st' : DissectState) (msg : XcpMessage) :
    (print_requested_service st msg).1 = (print_requested_service st' msg).1
      ∧ (print_requested_service st msg).2.1 = (print_requested_service st' msg).2.1 := by
  unfold print_requested_service
  simp only [apply_ite Prod.fst, apply_ite Prod.snd, and_self]

theorem print_xcp_request_text_of_frame (st st' : DissectState) (msg : XcpMessage) :
    (print_xcp_request st msg).1 = (print_xcp_request st' msg).1 := by
  unfold print_xcp_request
  simp only []
  rw [(print_requested_service_text_of_frame
        { st with service_request := MSG_BYTE msg 0 }
        { st' with service_request := MSG_BYTE msg 0 } msg).1,
      (print_requested_service_text_of_frame
        { st with service_request := MSG_BYTE msg 0 }
        { st' with service_request := MSG_BYTE msg 0 } msg).2]

theorem print_xcp_request_command (st : DissectState) (msg : XcpMessage) :
    (print_xcp_request st msg).2.service_request = MSG_BYTE msg 0 := by
  unfold print_xcp_request
  exact print_requested_service_keeps_command _ msg

theorem print_requested_service_CONNECT (st : DissectState) (msg : XcpMessage)
    (h0 : MSG_BYTE msg 0 = CONNECT) :
    print_requested_service st msg
      = ("-> " ++ "CONNECT(mode = "
          ++ (if MSG_BYTE msg 1 = 0x00 then "NORMAL"
              else if MSG_BYTE msg 1 = 0x01 then "USER_DEFINED" else ""),
         2, st) := by
  unfold print_requested_service
  exact if_pos h0

/-! ## Helper lemmas: response decoder -/

theorem print_xcp_response_text_of_flag (st : DissectState) (msg : XcpMessage) (dtos : Bool) :
    (print_xcp_response { st with include_dtos := dtos } msg).1 = (print_xcp_response st msg).1 :=
  rfl

theorem print_xcp_response_positive (st : DissectState) (msg : XcpMessage)
    (h0 : MSG_BYTE msg 0 = 0xFF) :
    (print_xcp_response st msg).1 = "<- " ++ ("OK" ++ print_xcp_positive_response st msg) := by
  unfold print_xcp_response
  simp only [if_pos h0]

theorem print_xcp_response_error (st : DissectState) (msg : XcpMessage)
    (h0 : MSG_BYTE msg 0 = 0xFE) :
    (print_xcp_response st msg).1
      = "<- " ++ ("ERROR(" ++ (error_code_text (MSG_BYTE msg 1)).1
          ++ hexdump_xcp_message msg (error_code_text (MSG_BYTE msg 1)).2 ++ ")") := by
  unfold print_xcp_response
  have hne : ¬ MSG_BYTE msg 0 = 0xff := by rw [h0]; decide
  simp only [if_neg hne, if_pos h0]

theorem error_code_text_named :
    ∀ e ∈ ERR_codes, error_code_text e.2 = (String.mk (e.1.data.drop 4), 2) := by
  decide

set_option maxRecDepth 100000 in
theorem error_code_text_unnamed :
    ∀ b, b < 256 → (∀ e ∈ ERR_codes, b ≠ e.2) → error_code_text b = ("", 1) := by
  decide

theorem error_code_text_of_mem (name : String) (code : Nat)
    (h : ("ERR_" ++ name, code) ∈ ERR_codes) : error_code_text code = (name, 2) :=
  error_code_text_named _ h

/-! ## Helper lemmas: frame classifier -/

theorem print_xcp_message_of_master (st : DissectState) (msg : XcpMessage) (dtos : Bool)
    (h : msg.frame.can_id = st.CanIds.src) :
    print_xcp_message st msg dtos = print_xcp_request { st with include_dtos := dtos } msg :=
  if_pos h

theorem print_xcp_message_of_slave (st : DissectState) (msg : XcpMessage) (dtos : Bool)
    (h1 : msg.frame.can_id ≠ st.CanIds.src) (h2 : msg.frame.can_id = st.CanIds.dst) :
    print_xcp_message st msg dtos = print_xcp_response { st with include_dtos := dtos } msg :=
  (if_neg h1).trans (if_pos h2)

theorem print_xcp_message_of_other (st : DissectState) (msg : XcpMessage) (dtos : Bool)
    (h1 : msg.frame.can_id ≠ st.CanIds.src) (h2 : msg.frame.can_id ≠ st.CanIds.dst) :
    print_xcp_message st msg dtos
      = (hexdump_xcp_message msg 0, { st with include_dtos := dtos }) :=
  (if_neg h1).trans (if_neg h2)

theorem master_text (st : DissectState) (msg : XcpMessage) (dtos : Bool)
    (h : msg.frame.can_id = st.CanIds.src) :
    (print_xcp_message st msg dtos).1 = (print_xcp_request st msg).1 := by
  rw [print_xcp_message_of_master st msg dtos h]
  exact print_xcp_request_text_of_frame _ _ msg

theorem slave_text (st : DissectState) (msg : XcpMessage) (dtos : Bool)
    (h1 : msg.frame.can_id ≠ st.CanIds.src) (h2 : msg.frame.can_id = st.CanIds.dst) :
    (print_xcp_message st msg dtos).1 = (print_xcp_response st msg).1 := by
  rw [print_xcp_message_of_slave st msg dtos h1 h2]
  exact print_xcp_response_text_of_flag st msg dtos

/-! ## Frame classifier -/

/-- C1: `print_xcp_message` renders a frame whose id is the master id with
the request decoder (also when the id equals the slave id as well), any other
frame whose id is the slave id with the response decoder, and every remaining
frame as the hex dump of the whole payload from offset 0. -/
theorem print_xcp_message_classification (st : DissectState) (msg : XcpMessage) (dtos : Bool) :
    (msg.frame.can_id = st.CanIds.src →
        (print_xcp_message st msg dtos).1 = (print_xcp_request st msg).1)
      ∧ (msg.frame.can_id ≠ st.CanIds.src → msg.frame.can_id = st.CanIds.dst →
        (print_xcp_message st msg dtos).1 = (print_xcp_response st msg).1)
      ∧ (msg.frame.can_id ≠ st.CanIds.src → msg.frame.can_id ≠ st.CanIds.dst →
        (print_xcp_message st msg dtos).1 = hexdump_xcp_message msg 0) := by
  refine ⟨master_text st msg dtos, slave_text st msg dtos, fun h1 h2 => ?_⟩
  rw [print_xcp_message_of_other st msg dtos h1 h2]

/-- Witness for C1: with master `0x7E0` and slave `0x7E8` the frame with id
`0x123` and payload `[0x01, 0x02]` is rendered as `[ 01 02 ]`. -/
theorem print_xcp_message_classification_witness :
    (print_xcp_message exampleSession ⟨0x7E0, 0x7E8, ⟨0x123, 2, [0x01, 0x02]⟩⟩ false).1
      = "[ 01 02 ]" :=
  ((print_xcp_message_classification exampleSession
      ⟨0x7E0, 0x7E8, ⟨0x123, 2, [0x01, 0x02]⟩⟩ false).2.2 (by decide) (by decide)).trans
    (by decide)

/-! ## Request decoder -/

/-- C2: a master frame of length 2 whose first byte is `0xFF` is rendered as
`-> CONNECT(mode = NORMAL)` when byte 1 is `0x00` and as
`-> CONNECT(mode = USER_DEFINED)` when byte 1 is `0x01`; the decoder returns
index 2 and the hex dump from that index is empty. -/
theorem connect_request (st : DissectState) (msg : XcpMessage) (dtos : Bool)
    (hid : msg.frame.can_id = st.CanIds.src) (hlen : msg.frame.len = 2)
    (h0 : MSG_BYTE msg 0 = 0xFF) :
    (MSG_BYTE msg 1 = 0x00 →
        (print_xcp_message st msg dtos).1 = "-> CONNECT(mode = NORMAL)")
      ∧ (MSG_BYTE msg 1 = 0x01 →
        (print_xcp_message st msg dtos).1 = "-> CONNECT(mode = USER_DEFINED)")
      ∧ (print_requested_service st msg).2.1 = 2
      ∧ hexdump_xcp_message msg (print_requested_service st msg).2.1 = "" := by
  have hd : hexdump_xcp_message msg 2 = "" := hexdump_of_eq msg 2 hlen
  have e : (print_xcp_message st msg dtos).1
      = "-> " ++ "CONNECT(mode = "
          ++ (if MSG_BYTE msg 1 = 0x00 then "NORMAL"
              else if MSG_BYTE msg 1 = 0x01 then "USER_DEFINED" else "")
          ++ hexdump_xcp_message msg 2 ++ ")" := by
    rw [master_text st msg dtos hid]
    unfold print_xcp_request
    simp only [print_requested_service_CONNECT _ msg h0]
  rw [print_requested_service_CONNECT st msg h0]
  refine ⟨fun h1 => ?_, fun h1 => ?_, rfl, hd⟩
  · rw [e, hd, if_pos h1]
    decide
  · rw [e, hd, if_neg (by rw [h1]; decide), if_pos h1]
    decide

/-- Witness for C2: the master frame with payload `[0xFF, 0x00]` is rendered
exactly as `-> CONNECT(mode = NORMAL)`. -/
theorem connect_request_witness :
    (print_xcp_message exampleSession ⟨0x7E0, 0x7E8, ⟨0x7E0, 2, [0xFF, 0x00]⟩⟩ false).1
      = "-> CONNECT(mode = NORMAL)" :=
  (connect_request exampleSession ⟨0x7E0, 0x7E8, ⟨0x7E0, 2, [0xFF, 0x00]⟩⟩ false
    (by decide) (by decide) (by decide)).1 (by decide)

/-! ## Response decoder -/

/-- C3: while the remembered command is CONNECT (`0xFF`), a slave frame of
length 8 with first byte `0xFF` is rendered as `<- OK(`, the resources of byte
1, the basic communication mode of byte 2, `maxCto` as byte 3, `maxDto` as the
little-endian word of bytes 4 and 5 and the protocol layer version as byte 6,
a dot and byte 7, all in decimal, then `)`.  The resources are the tokens
`CAL_PAG `, `DAQ `, `STIM `, `PGM ` for bits 0, 2, 3, 4 of byte 1; the basic
communication mode shows `byteOrder` by bit 0 of byte 2 (MOTOROLA when set,
else INTEL), `AG` by bits 1 and 2 (WORD when bit 1 is set, else DWORD when bit
2 is set, else BYTE), `slaveBlockMode` by bit 6 and `optional` by bit 7. -/
theorem connect_positive_response (st : DissectState) (msg : XcpMessage) (dtos : Bool)
    (hsrc : msg.frame.can_id ≠ st.CanIds.src) (hdst : msg.frame.can_id = st.CanIds.dst)
    (hreq : st.service_request = 0xFF) (_hlen : msg.frame.len = 8)
    (h0 : MSG_BYTE msg 0 = 0xFF) :
    (print_xcp_message st msg dtos).1
      = "<- OK("
        ++ ("resources" ++ " = \x7b "
          ++ (if (MSG_BYTE msg 1).testBit 0 then "CAL_PAG " else "")
          ++ (if (MSG_BYTE msg 1).testBit 2 then "DAQ " else "")
          ++ (if (MSG_BYTE msg 1).testBit 3 then "STIM " else "")
          ++ (if (MSG_BYTE msg 1).testBit 4 then "PGM " else "")
          ++ "\x7d")
        ++ ", "
        ++ ("commModeBasic = \x7b"
          ++ "byteOrder = "
          ++ (if (MSG_BYTE msg 2).testBit 0 then "MOTOROLA" else "INTEL")
          ++ ", AG = "
          ++ (if (MSG_BYTE msg 2).testBit 1 then "WORD" else if (MSG_BYTE msg 2).testBit 2 then "DWORD" else "BYTE")
          ++ ", slaveBlockMode = " ++ (if (MSG_BYTE msg 2).testBit 6 then "TRUE" else "FALSE")
          ++ ", optional = " ++ (if (MSG_BYTE msg 2).testBit 7 then "TRUE" else "FALSE")
          ++ "\x7d")
        ++ ", maxCto = " ++ fmt_u (MSG_BYTE msg 3)
        ++ ", maxDto = " ++ fmt_u (MSG_BYTE msg 4 + 256 * MSG_BYTE msg 5)
        ++ ", protocolLayerVersion = " ++ fmt_u (MSG_BYTE msg 6) ++ "." ++ fmt_u (MSG_BYTE msg 7)
        ++ ")" := by
  rw [slave_text st msg dtos hsrc hdst, print_xcp_response_positive st msg h0]
  have e : print_xcp_positive_response st msg
      = "(" ++ print_resources (MSG_BYTE msg 1) 0
        ++ ", "
        ++ print_comm_mode_basic (MSG_BYTE msg 2)
        ++ ", maxCto = " ++ fmt_u (MSG_BYTE msg 3)
        ++ ", maxDto = " ++ fmt_u (XCP_MAKEWORD (MSG_BYTE msg 5) (MSG_BYTE msg 4))
        ++ ", protocolLayerVersion = " ++ fmt_u (MSG_BYTE msg 6) ++ "." ++ fmt_u (MSG_BYTE msg 7)
        ++ ")" := by
    unfold print_xcp_positive_response
    exact if_pos hreq
  have hm : ∀ x i : Nat, maskSet x (2 ^ i) = x.testBit i := by
    intro x i
    unfold maskSet
    rw [Nat.and_two_pow]
    cases x.testBit i <;> simp
  have r0 := hm (MSG_BYTE msg 1) 0
  have r2 := hm (MSG_BYTE msg 1) 2
  have r3 := hm (MSG_BYTE msg 1) 3
  have r4 := hm (MSG_BYTE msg 1) 4
  have c0 := hm (MSG_BYTE msg 2) 0
  have c1 := hm (MSG_BYTE msg 2) 1
  have c2 := hm (MSG_BYTE msg 2) 2
  have c6 := hm (MSG_BYTE msg 2) 6
  have c7 := hm (MSG_BYTE msg 2) 7
  norm_num only at r0 r2 r3 r4 c0 c1 c2 c6 c7
  rw [e, XCP_MAKEWORD_eq _ _ (MSG_BYTE_lt msg 5) (MSG_BYTE_lt msg 4)]
  unfold print_resources print_comm_mode_basic
  rw [r0, r2, r3, r4, c0, c1, c2, c6, c7, if_pos rfl]
  simp only [String.append_assoc]
  exact ok_open _

set_option maxRecDepth 100000 in
/-- Witness for C3: after the CONNECT request `[0xFF, 0x00]` the slave frame
`[0xFF, 0x05, 0x00, 0x08, 0x00, 0x01, 0x01, 0x00]` is rendered with the
resources CAL_PAG and DAQ, `maxCto = 8`, `maxDto = 256` and version `1.0`. -/
theorem connect_positive_response_witness :
    (print_xcp_message
        (print_xcp_message exampleSession ⟨0x7E0, 0x7E8, ⟨0x7E0, 2, [0xFF, 0x00]⟩⟩ false).2
        ⟨0x7E0, 0x7E8, ⟨0x7E8, 8, [0xFF, 0x05, 0x00, 0x08, 0x00, 0x01, 0x01, 0x00]⟩⟩ false).1
      = "<- OK(resources = \x7b CAL_PAG DAQ \x7d, commModeBasic = \x7bbyteOrder = INTEL, AG = BYTE, slaveBlockMode = FALSE, optional = FALSE\x7d, maxCto = 8, maxDto = 256, protocolLayerVersion = 1.0)" :=
  (connect_positive_response
      (print_xcp_message exampleSession ⟨0x7E0, 0x7E8, ⟨0x7E0, 2, [0xFF, 0x00]⟩⟩ false).2
      ⟨0x7E0, 0x7E8, ⟨0x7E8, 8, [0xFF, 0x05, 0x00, 0x08, 0x00, 0x01, 0x01, 0x00]⟩⟩ false
      (by decide) (by decide) (by decide) (by decide) (by decide)).trans (by decide)

/-- C5: a slave frame of length at least 2 whose first byte is `0xFE` and
whose second byte is the value of one of the error code macros `ERR_<NAME>`
is rendered as `<- ERROR(`, then `<NAME>`, then the hex dump from offset 2,
then `)`. -/
theorem named_error_response (st : DissectState) (msg : XcpMessage) (dtos : Bool)
    (hsrc : msg.frame.can_id ≠ st.CanIds.src) (hdst : msg.frame.can_id = st.CanIds.dst)
    (_hlen : 2 ≤ msg.frame.len) (h0 : MSG_BYTE msg 0 = 0xFE)
    (name : String) (code : Nat) (hmem : ("ERR_" ++ name, code) ∈ ERR_codes)
    (h1 : MSG_BYTE msg 1 = code) :
    (print_xcp_message st msg dtos).1
      = "<- ERROR(" ++ name ++ hexdump_xcp_message msg 2 ++ ")" := by
  rw [slave_text st msg dtos hsrc hdst,
    print_xcp_response_error st msg h0, h1, error_code_text_of_mem name code hmem]
  simp only [String.append_assoc]
  exact error_open _

/-- Witness for C5: the slave frame `[0xFE, 0x20]` is rendered exactly as
`<- ERROR(CMD_UNKNOWN)`. -/
theorem named_error_response_witness :
    (print_xcp_message exampleSession ⟨0x7E0, 0x7E8, ⟨0x7E8, 2, [0xFE, 0x20]⟩⟩ false).1
      = "<- ERROR(CMD_UNKNOWN)" :=
  (named_error_response exampleSession ⟨0x7E0, 0x7E8, ⟨0x7E8, 2, [0xFE, 0x20]⟩⟩ false
      (by decide) (by decide) (by decide) (by decide) "CMD_UNKNOWN" 0x20 (by decide)
      (by decide)).trans (by decide)

/-- C6: a slave frame of length at least 2 whose first byte is `0xFE` and
whose second byte is the value of none of the error code macros is rendered
as `<- ERROR(`, the hex dump from offset 1 and `)`, with no name; the first
token of that hex dump is the code byte itself. -/
theorem unknown_error_response (st : DissectState) (msg : XcpMessage) (dtos : Bool)
    (hsrc : msg.frame.can_id ≠ st.CanIds.src) (hdst : msg.frame.can_id = st.CanIds.dst)
    (hlen : 2 ≤ msg.frame.len) (h0 : MSG_BYTE msg 0 = 0xFE)
    (h1 : ∀ e ∈ ERR_codes, MSG_BYTE msg 1 ≠ e.2) :
    (print_xcp_message st msg dtos).1 = "<- ERROR(" ++ hexdump_xcp_message msg 1 ++ ")"
      ∧ hexdump_xcp_message msg 1
          = "[ " ++ spec_hex_token (MSG_BYTE msg 1)
            ++ String.join ((List.range' 2 (msg.frame.len - 2)).map
                fun i => spec_hex_token (MSG_BYTE msg i))
            ++ "]" := by
  constructor
  · rw [slave_text st msg dtos hsrc hdst,
      print_xcp_response_error st msg h0,
      error_code_text_unnamed _ (MSG_BYTE_lt msg 1) h1]
    simp only [String.append_assoc, String.empty_append]
    exact error_open _
  · have hne : msg.frame.len ≠ 1 := by omega
    have hcount : msg.frame.len - 1 = (msg.frame.len - 2) + 1 := by omega
    rw [hexdump_of_ne msg 1 hne, hcount, hexdump_loop,
      fmt_X_two_digits _ (MSG_BYTE_lt msg 1), hexdump_loop_eq_join]
    simp only [String.append_assoc]

/-- Witness for C6: the slave frame `[0xFE, 0x44, 0x03]`, whose code `0x44`
has no name, is rendered as `<- ERROR([ 44 03 ])`. -/
theorem unknown_error_response_witness :
    (print_xcp_message exampleSession ⟨0x7E0, 0x7E8, ⟨0x7E8, 3, [0xFE, 0x44, 0x03]⟩⟩ false).1
      = "<- ERROR([ 44 03 ])" :=
  ((unknown_error_response exampleSession ⟨0x7E0, 0x7E8, ⟨0x7E8, 3, [0xFE, 0x44, 0x03]⟩⟩ false
      (by decide) (by decide) (by decide) (by decide) (by decide)).1).trans (by decide)

/-! ## Hex dump -/

/-- C7: for an offset below the frame length, `hexdump_xcp_message` prints
`"[ "`, then for each index from `offset` to `len - 1` in increasing order the
byte as two upper-case hexadecimal digits and one space, then `"]"`; the text
has exactly `3 * (len - offset) + 3` characters. -/
theorem hexdump_xcp_message_format (msg : XcpMessage) (offset : Nat)
    (h : offset < msg.frame.len) :
    hexdump_xcp_message msg offset
        = "[ " ++ String.join ((List.range' offset (msg.frame.len - offset)).map
            fun i => spec_hex_token (MSG_BYTE msg i)) ++ "]"
      ∧ (hexdump_xcp_message msg offset).length = 3 * (msg.frame.len - offset) + 3 := by
  have hne : msg.frame.len ≠ offset := by omega
  rw [hexdump_of_ne msg offset hne]
  refine ⟨by rw [hexdump_loop_eq_join], ?_⟩
  rw [String.length_append, String.length_append, hexdump_loop_length]
  have h1 : "[ ".length = 2 := rfl
  have h2 : "]".length = 1 := rfl
  omega

/-- Witness for C7: the two-byte payload `[0x01, 0x02]` dumped from offset 0
is `[ 01 02 ]`, nine characters. -/
theorem hexdump_xcp_message_format_witness :
    hexdump_xcp_message ⟨0x7E0, 0x7E8, ⟨0x123, 2, [0x01, 0x02]⟩⟩ 0 = "[ 01 02 ]"
      ∧ (hexdump_xcp_message ⟨0x7E0, 0x7E8, ⟨0x123, 2, [0x01, 0x02]⟩⟩ 0).length = 9 := by
  have h := hexdump_xcp_message_format ⟨0x7E0, 0x7E8, ⟨0x123, 2, [0x01, 0x02]⟩⟩ 0 (by decide)
  exact ⟨h.1.trans (by decide), h.2.trans (by decide)⟩

/-- C8: with the offset equal to the frame length `hexdump_xcp_message`
prints nothing at all, whatever the frame. -/
theorem hexdump_xcp_message_at_length (msg : XcpMessage) :
    hexdump_xcp_message msg msg.frame.len = "" :=
  hexdump_of_eq msg msg.frame.len rfl

/-- C9, what the code does at an offset above the frame length: for the
master frame of length 1 with first byte `0xFF` the request decoder returns
index 2, `hexdump_xcp_message` at offset 2 prints the empty brackets `[ ]`
instead of nothing, and the frame is rendered as
`-> CONNECT(mode = NORMAL[ ])`. -/
theorem hexdump_xcp_message_past_length :
    (print_requested_service exampleSession ⟨0x7E0, 0x7E8, ⟨0x7E0, 1, [0xFF, 0x00]⟩⟩).2.1 = 2
      ∧ hexdump_xcp_message ⟨0x7E0, 0x7E8, ⟨0x7E0, 1, [0xFF, 0x00]⟩⟩ 2 = "[ ]"
      ∧ (print_xcp_message exampleSession ⟨0x7E0, 0x7E8, ⟨0x7E0, 1, [0xFF, 0x00]⟩⟩ false).1
          = "-> CONNECT(mode = NORMAL[ ])" := by
  decide

/-! ## Pending request state -/

/-- C10: after the request decoder has run on a frame, the remembered command
code is the first payload byte of that frame, whatever was remembered before
and whether or not the decoder has a case for the code; the same holds for
`print_xcp_message` on a frame with the master id. -/
theorem request_arms_command (st : DissectState) (msg : XcpMessage) :
    (print_xcp_request st msg).2.service_request = MSG_BYTE msg 0
      ∧ ∀ dtos : Bool, msg.frame.can_id = st.CanIds.src →
          (print_xcp_message st msg dtos).2.service_request = MSG_BYTE msg 0 := by
  refine ⟨print_xcp_request_command st msg, fun dtos h => ?_⟩
  rw [print_xcp_message_of_master st msg dtos h]
  exact print_xcp_request_command _ msg

/-- Witness for C10: a session that remembers GET_STATUS (`0xFD`) and then
decodes a master frame starting with the unassigned code `0x01` remembers
`0x01`. -/
theorem request_arms_command_witness :
    (print_xcp_message { exampleSession with service_request := 0xFD }
        ⟨0x7E0, 0x7E8, ⟨0x7E0, 2, [0x01, 0x02]⟩⟩ false).2.service_request = 0x01 :=
  ((request_arms_command { exampleSession with service_request := 0xFD }
      ⟨0x7E0, 0x7E8, ⟨0x7E0, 2, [0x01, 0x02]⟩⟩).2 false (by decide)).trans (by decide)

/-! ## Helper lemmas: words and double words -/

theorem XCP_MAKEWORD_lt (h l : Nat) (hh : h < 256) (hl : l < 256) :
    XCP_MAKEWORD h l < 65536 := by
  rw [XCP_MAKEWORD_eq h l hh hl]
  omega

theorem XCP_MAKEDWORD_eq (h l : Nat) (hh : h < 65536) (hl : l < 65536) :
    XCP_MAKEDWORD h l = l + 65536 * h := by
  unfold XCP_MAKEDWORD
  have e1 : h &&& 0xffff = h % 65536 := Nat.and_pow_two_sub_one_eq_mod h 16
  have e2 : l &&& 0xffff = l % 65536 := Nat.and_pow_two_sub_one_eq_mod l 16
  have e3 : h <<< 16 = 2 ^ 16 * h := by rw [Nat.shiftLeft_eq, Nat.mul_comm]
  rw [e1, e2, Nat.mod_eq_of_lt hh, Nat.mod_eq_of_lt hl,
    Nat.mod_eq_of_lt (by omega : h < 4294967296), Nat.mod_eq_of_lt (by omega : l < 4294967296),
    e3, Nat.mod_eq_of_lt (by omega : 2 ^ 16 * h < 4294967296),
    ← Nat.mul_add_lt_is_or (by omega : l < 2 ^ 16) h]
  omega

theorem MSG_WORD_eq (msg : XcpMessage) (o : Nat) :
    MSG_WORD msg o = MSG_BYTE msg o + 256 * MSG_BYTE msg (o + 1) :=
  XCP_MAKEWORD_eq _ _ (MSG_BYTE_lt msg (o + 1)) (MSG_BYTE_lt msg o)

theorem MSG_WORD_lt (msg : XcpMessage) (o : Nat) : MSG_WORD msg o < 65536 :=
  XCP_MAKEWORD_lt _ _ (MSG_BYTE_lt msg (o + 1)) (MSG_BYTE_lt msg o)

theorem MSG_DWORD_eq (msg : XcpMessage) (o : Nat) :
    MSG_DWORD msg o = MSG_WORD msg o + 65536 * MSG_WORD msg (o + 2) :=
  XCP_MAKEDWORD_eq _ _ (MSG_WORD_lt msg (o + 2)) (MSG_WORD_lt msg o)

/-! ## Little-endian assembly -/

/-- C15: for every payload and offset `o`, `MSG_WORD(o)` is
`data[o] + 256 * data[o+1]`, a value below `2^16`, and `MSG_DWORD(o)` is
`MSG_WORD(o) + 65536 * MSG_WORD(o+2)`, that is
`data[o] + 2^8 * data[o+1] + 2^16 * data[o+2] + 2^24 * data[o+3]`, a value
below `2^32`. -/
theorem little_endian_assembly (msg : XcpMessage) (o : Nat) :
    MSG_WORD msg o = MSG_BYTE msg o + 256 * MSG_BYTE msg (o + 1)
      ∧ MSG_WORD msg o < 2 ^ 16
      ∧ MSG_DWORD msg o = MSG_WORD msg o + 65536 * MSG_WORD msg (o + 2)
      ∧ MSG_DWORD msg o
          = MSG_BYTE msg o + 2 ^ 8 * MSG_BYTE msg (o + 1) + 2 ^ 16 * MSG_BYTE msg (o + 2)
            + 2 ^ 24 * MSG_BYTE msg (o + 3)
      ∧ MSG_DWORD msg o < 2 ^ 32 := by
  have w0 := MSG_WORD_eq msg o
  have w2 := MSG_WORD_eq msg (o + 2)
  have d := MSG_DWORD_eq msg o
  have b0 := MSG_BYTE_lt msg o
  have b1 := MSG_BYTE_lt msg (o + 1)
  have b2 := MSG_BYTE_lt msg (o + 2)
  have b3 := MSG_BYTE_lt msg (o + 2 + 1)
  have e : o + 2 + 1 = o + 3 := rfl
  rw [e] at w2 b3
  refine ⟨w0, ?_, d, ?_, ?_⟩ <;> omega

/-! ## Helper lemmas: state after decoding -/

theorem print_xcp_response_state (st : DissectState) (msg : XcpMessage) :
    (print_xcp_response st msg).2 = { st with service_request := 0 } :=
  rfl

theorem print_xcp_positive_response_generic (st : DissectState) (msg : XcpMessage)
    (h : st.service_request ∉ positive_response_cases) :
    print_xcp_positive_response st msg = "(" ++ hexdump_xcp_message msg 1 ++ ")" := by
  simp only [positive_response_cases, List.mem_cons, List.mem_singleton, List.not_mem_nil,
    not_or, or_false] at h
  unfold print_xcp_positive_response
  simp only [h, if_false]

theorem generic_positive_text (st : DissectState) (msg : XcpMessage)
    (h : st.service_request ∉ positive_response_cases) (h0 : MSG_BYTE msg 0 = 0xFF) :
    (print_xcp_response st msg).1 = "<- OK(" ++ hexdump_xcp_message msg 1 ++ ")" := by
  rw [print_xcp_response_positive st msg h0, print_xcp_positive_response_generic st msg h]
  simp only [String.append_assoc]
  exact ok_open _

/-! ## Pending request state after a response -/

/-- C11, counterexample: with CONNECT remembered, decoding the CONNECT
response `[0xFF, 0x05, 0x00, 0x08, 0x00, 0x01, 0x01, 0x00]` changes the
remembered command code (from `0xFF` to 0), and decoding the same response a
second time renders a different text. -/
theorem response_keeps_command_counterexample :
    (print_xcp_response { exampleSession with service_request := 0xFF }
        ⟨0x7E0, 0x7E8, ⟨0x7E8, 8, [0xFF, 0x05, 0x00, 0x08, 0x00, 0x01, 0x01, 0x00]⟩⟩).2.service_request
        ≠ ({ exampleSession with service_request := 0xFF } : DissectState).service_request
      ∧ (print_xcp_response
          (print_xcp_response { exampleSession with service_request := 0xFF }
            ⟨0x7E0, 0x7E8, ⟨0x7E8, 8, [0xFF, 0x05, 0x00, 0x08, 0x00, 0x01, 0x01, 0x00]⟩⟩).2
          ⟨0x7E0, 0x7E8, ⟨0x7E8, 8, [0xFF, 0x05, 0x00, 0x08, 0x00, 0x01, 0x01, 0x00]⟩⟩).1
        ≠ (print_xcp_response { exampleSession with service_request := 0xFF }
            ⟨0x7E0, 0x7E8, ⟨0x7E8, 8, [0xFF, 0x05, 0x00, 0x08, 0x00, 0x01, 0x01, 0x00]⟩⟩).1 := by
  decide

/-- C11, amended: response decoding reads and then clears the remembered
command code: after `print_xcp_response` (and after `print_xcp_message` on a
slave frame) it is 0 whatever it was before, so when the same positive
response is decoded a second time it is rendered with the generic layout
`<- OK(`, hex dump from offset 1, `)`. -/
theorem response_clears_command (st : DissectState) (msg : XcpMessage) :
    (print_xcp_response st msg).2.service_request = 0
      ∧ (∀ dtos : Bool,
          msg.frame.can_id ≠ st.CanIds.src → msg.frame.can_id = st.CanIds.dst →
          (print_xcp_message st msg dtos).2.service_request = 0)
      ∧ (MSG_BYTE msg 0 = 0xFF →
          (print_xcp_response (print_xcp_response st msg).2 msg).1
            = "<- OK(" ++ hexdump_xcp_message msg 1 ++ ")") := by
  refine ⟨rfl, fun dtos h1 h2 => ?_, fun h0 => ?_⟩
  · rw [print_xcp_message_of_slave st msg dtos h1 h2]
    rfl
  · have hz : (print_xcp_response st msg).2.service_request ∉ positive_response_cases := by
      show (0 : Nat) ∉ positive_response_cases
      decide
    exact generic_positive_text _ msg hz h0

/-- Witness for C11 as amended: after a CONNECT request and one CONNECT
response, the second identical response is rendered as
`<- OK([ 05 00 08 00 01 01 00 ])`. -/
theorem response_clears_command_witness :
    (print_xcp_response
        (print_xcp_response { exampleSession with service_request := 0xFF }
          ⟨0x7E0, 0x7E8, ⟨0x7E8, 8, [0xFF, 0x05, 0x00, 0x08, 0x00, 0x01, 0x01, 0x00]⟩⟩).2
        ⟨0x7E0, 0x7E8, ⟨0x7E8, 8, [0xFF, 0x05, 0x00, 0x08, 0x00, 0x01, 0x01, 0x00]⟩⟩).1
      = "<- OK([ 05 00 08 00 01 01 00 ])" :=
  ((response_clears_command { exampleSession with service_request := 0xFF }
      ⟨0x7E0, 0x7E8, ⟨0x7E8, 8, [0xFF, 0x05, 0x00, 0x08, 0x00, 0x01, 0x01, 0x00]⟩⟩).2.2
    (by decide)).trans (by decide)

/-- C12: when the remembered command code is 0 (nothing remembered) or any
other code without a case in `print_xcp_positive_response`, such as SET_MTA
or DISCONNECT, a slave frame with first byte `0xFF` is rendered exactly as
`<- OK(`, the hex dump from offset 1, `)`; that hex dump starts at index 1,
so the status byte at index 0 is not part of it. -/
theorem generic_positive_response :
    (0 ∉ positive_response_cases ∧ SET_MTA ∉ positive_response_cases
        ∧ DISCONNECT ∉ positive_response_cases)
      ∧ ∀ (st : DissectState) (msg : XcpMessage) (dtos : Bool),
          msg.frame.can_id ≠ st.CanIds.src → msg.frame.can_id = st.CanIds.dst →
          st.service_request ∉ positive_response_cases → MSG_BYTE msg 0 = 0xFF →
          (print_xcp_message st msg dtos).1 = "<- OK(" ++ hexdump_xcp_message msg 1 ++ ")"
            ∧ (1 < msg.frame.len →
                hexdump_xcp_message msg 1
                  = "[ " ++ String.join ((List.range' 1 (msg.frame.len - 1)).map
                      fun i => spec_hex_token (MSG_BYTE msg i)) ++ "]") := by
  refine ⟨by decide, fun st msg dtos h1 h2 hreq h0 => ⟨?_, fun hlen => ?_⟩⟩
  · rw [slave_text st msg dtos h1 h2]
    exact generic_positive_text st msg hreq h0
  · have hne : msg.frame.len ≠ 1 := by omega
    rw [hexdump_of_ne msg 1 hne, hexdump_loop_eq_join]

/-- Witness for C12: with nothing remembered the slave frame
`[0xFF, 0x05, 0x00]` is rendered as `<- OK([ 05 00 ])`. -/
theorem generic_positive_response_witness :
    (print_xcp_message exampleSession ⟨0x7E0, 0x7E8, ⟨0x7E8, 3, [0xFF, 0x05, 0x00]⟩⟩ false).1
      = "<- OK([ 05 00 ])" :=
  ((generic_positive_response.2 exampleSession ⟨0x7E0, 0x7E8, ⟨0x7E8, 3, [0xFF, 0x05, 0x00]⟩⟩
      false (by decide) (by decide) (by decide) (by decide)).1).trans (by decide)

/-! ## Unrelated traffic -/

/-- C14: for a frame whose id is neither the master nor the slave id,
`print_xcp_message` leaves the remembered command code, the remembered
GET_SEGMENT_INFO sub-fields and the remembered GET_SECTOR_INFO mode as they
were. -/
theorem unrelated_frame_keeps_session (st : DissectState) (msg : XcpMessage) (dtos : Bool)
    (h1 : msg.frame.can_id ≠ st.CanIds.src) (h2 : msg.frame.can_id ≠ st.CanIds.dst) :
    (print_xcp_message st msg dtos).2.service_request = st.service_request
      ∧ (print_xcp_message st msg dtos).2.getSegmentInfoRequest = st.getSegmentInfoRequest
      ∧ (print_xcp_message st msg dtos).2.get_sector_info_mode = st.get_sector_info_mode := by
  rw [print_xcp_message_of_other st msg dtos h1 h2]
  exact ⟨rfl, rfl, rfl⟩

/-- Witness for C14: a session that remembers a GET_SEGMENT_INFO request
keeps all of it when the frame with id `0x123` is decoded. -/
theorem unrelated_frame_keeps_session_witness :
    (print_xcp_message
        { exampleSession with
          service_request := 0xE8, get_sector_info_mode := 2,
          getSegmentInfoRequest := { mode := 2, segmentInfo := 1, mappingIndex := 0 } }
        ⟨0x7E0, 0x7E8, ⟨0x123, 2, [0x01, 0x02]⟩⟩ true).2.service_request = 0xE8 :=
  (unrelated_frame_keeps_session
      { exampleSession with
        service_request := 0xE8, get_sector_info_mode := 2,
        getSegmentInfoRequest := { mode := 2, segmentInfo := 1, mappingIndex := 0 } }
      ⟨0x7E0, 0x7E8, ⟨0x123, 2, [0x01, 0x02]⟩⟩ true (by decide) (by decide)).1

/-! ## Purity of the request decoder -/

theorem hexdump_loop_congr (msg msg' : XcpMessage) (idx count : Nat)
    (h : ∀ i, idx ≤ i → i < idx + count → MSG_BYTE msg i = MSG_BYTE msg' i) :
    hexdump_loop msg idx count = hexdump_loop msg' idx count := by
  induction count generalizing idx with
  | zero => rfl
  | succ n ih =>
    rw [hexdump_loop, hexdump_loop, h idx (Nat.le_refl _) (by omega),
      ih (idx + 1) (fun i h1 h2 => h i (by omega) (by omega))]

theorem hexdump_congr (msg msg' : XcpMessage) (hlen : msg.frame.len = msg'.frame.len)
    (hb : ∀ i, i < 8 ∨ i < msg.frame.len → MSG_BYTE msg i = MSG_BYTE msg' i) (offset : Nat) :
    hexdump_xcp_message msg offset = hexdump_xcp_message msg' offset := by
  unfold hexdump_xcp_message
  rw [← hlen, hexdump_loop_congr msg msg' offset (msg.frame.len - offset)
    (fun i h1 h2 => hb i (Or.inr (by omega)))]

theorem MSG_WORD_congr (msg msg' : XcpMessage) (k : Nat)
    (h0 : MSG_BYTE msg k = MSG_BYTE msg' k) (h1 : MSG_BYTE msg (k + 1) = MSG_BYTE msg' (k + 1)) :
    MSG_WORD msg k = MSG_WORD msg' k := by
  unfold MSG_WORD
  rw [h0, h1]

theorem MSG_DWORD_congr (msg msg' : XcpMessage) (k : Nat)
    (h0 : MSG_BYTE msg k = MSG_BYTE msg' k) (h1 : MSG_BYTE msg (k + 1) = MSG_BYTE msg' (k + 1))
    (h2 : MSG_BYTE msg (k + 2) = MSG_BYTE msg' (k + 2))
    (h3 : MSG_BYTE msg (k + 3) = MSG_BYTE msg' (k + 3)) :
    MSG_DWORD msg k = MSG_DWORD msg' k := by
  unfold MSG_DWORD
  rw [h0, h1, h2, h3]

theorem MSG_BOOL_congr (msg msg' : XcpMessage) (k mask : Nat)
    (h : MSG_BYTE msg k = MSG_BYTE msg' k) : MSG_BOOL msg k mask = MSG_BOOL msg' k mask := by
  unfold MSG_BOOL
  rw [h]

theorem print_requested_service_congr (st : DissectState) (msg msg' : XcpMessage)
    (hlen : msg.frame.len = msg'.frame.len)
    (hb : ∀ i, i < 8 ∨ i < msg.frame.len → MSG_BYTE msg i = MSG_BYTE msg' i)
    (hne : ¬ MSG_BYTE msg' 0 = WRITE_DAQ_MULTIPLE) :
    print_requested_service st msg = print_requested_service st msg' := by
  have e0 := hb 0 (Or.inl (by decide))
  have e1 := hb 1 (Or.inl (by decide))
  have e2 := hb 2 (Or.inl (by decide))
  have e3 := hb 3 (Or.inl (by decide))
  have e4 := hb 4 (Or.inl (by decide))
  have e5 := hb 5 (Or.inl (by decide))
  have e6 := hb 6 (Or.inl (by decide))
  have e7 := hb 7 (Or.inl (by decide))
  have w2 := MSG_WORD_congr msg msg' 2 e2 e3
  have w4 := MSG_WORD_congr msg msg' 4 e4 e5
  have w6 := MSG_WORD_congr msg msg' 6 e6 e7
  have d4 := MSG_DWORD_congr msg msg' 4 e4 e5 e6 e7
  have x := hexdump_congr msg msg' hlen hb
  have bl := fun mask => MSG_BOOL_congr msg msg' 1 mask e1
  have fl : MSG_FRAME_LEN msg = MSG_FRAME_LEN msg' := hlen
  have t1 : service_DOWNLOAD_text msg = service_DOWNLOAD_text msg' := by
    unfold service_DOWNLOAD_text
    rw [e1, x]
  have t2 : service_USER_CMD_text msg = service_USER_CMD_text msg' := by
    unfold service_USER_CMD_text
    rw [e1, x, t1]
  have t3 : service_TRANSPORT_LAYER_CMD_text msg = service_TRANSPORT_LAYER_CMD_text msg' := by
    unfold service_TRANSPORT_LAYER_CMD_text
    rw [e1, x, t2]
  have t4 : ∀ a b, service_GET_SEGMENT_INFO_text msg a b
      = service_GET_SEGMENT_INFO_text msg' a b := by
    intro a b
    unfold service_GET_SEGMENT_INFO_text
    rw [e2, e4]
  unfold print_requested_service
  simp only [e0, e1, e2, e3, e4, e5, e7, w2, w4, w6, d4, x, bl, fl, t1, t2, t3, t4, hne, if_false]

theorem print_xcp_request_congr (st : DissectState) (msg msg' : XcpMessage)
    (hlen : msg.frame.len = msg'.frame.len)
    (hb : ∀ i, i < 8 ∨ i < msg.frame.len → MSG_BYTE msg i = MSG_BYTE msg' i)
    (hne : ¬ MSG_BYTE msg' 0 = WRITE_DAQ_MULTIPLE) :
    print_xcp_request st msg = print_xcp_request st msg' := by
  unfold print_xcp_request
  simp only [hb 0 (Or.inl (by decide)), print_requested_service_congr _ msg msg' hlen hb hne,
    hexdump_congr msg msg' hlen hb]

theorem print_event_congr (msg msg' : XcpMessage)
    (hlen : msg.frame.len = msg'.frame.len)
    (hb : ∀ i, i < 8 ∨ i < msg.frame.len → MSG_BYTE msg i = MSG_BYTE msg' i) :
    print_event msg = print_event msg' := by
  have e1 := hb 1 (Or.inl (by decide))
  have e2 := hb 2 (Or.inl (by decide))
  have e3 := hb 3 (Or.inl (by decide))
  have e4 := hb 4 (Or.inl (by decide))
  have e5 := hb 5 (Or.inl (by decide))
  have e6 := hb 6 (Or.inl (by decide))
  have e7 := hb 7 (Or.inl (by decide))
  have w2 := MSG_WORD_congr msg msg' 2 e2 e3
  have w4 := MSG_WORD_congr msg msg' 4 e4 e5
  have d4 := MSG_DWORD_congr msg msg' 4 e4 e5 e6 e7
  have x := hexdump_congr msg msg' hlen hb
  unfold print_event
  simp only [e1, e2, w2, w4, d4, x]

theorem print_xcp_positive_response_congr (st : DissectState) (msg msg' : XcpMessage)
    (hlen : msg.frame.len = msg'.frame.len)
    (hb : ∀ i, i < 8 ∨ i < msg.frame.len → MSG_BYTE msg i = MSG_BYTE msg' i) :
    print_xcp_positive_response st msg = print_xcp_positive_response st msg' := by
  have e1 := hb 1 (Or.inl (by decide))
  have e2 := hb 2 (Or.inl (by decide))
  have e3 := hb 3 (Or.inl (by decide))
  have e4 := hb 4 (Or.inl (by decide))
  have e5 := hb 5 (Or.inl (by decide))
  have e6 := hb 6 (Or.inl (by decide))
  have e7 := hb 7 (Or.inl (by decide))
  have w2 := MSG_WORD_congr msg msg' 2 e2 e3
  have w4 := MSG_WORD_congr msg msg' 4 e4 e5
  have d4 := MSG_DWORD_congr msg msg' 4 e4 e5 e6 e7
  have x := hexdump_congr msg msg' hlen hb
  have b1 := fun mask => MSG_BOOL_congr msg msg' 1 mask e1
  have b2 := fun mask => MSG_BOOL_congr msg msg' 2 mask e2
  have fl : MSG_FRAME_LEN msg = MSG_FRAME_LEN msg' := hlen
  have t1 : response_GET_SEGMENT_MODE_text msg = response_GET_SEGMENT_MODE_text msg' := by
    unfold response_GET_SEGMENT_MODE_text
    rw [e2]
  have t2 : response_GET_PAGE_INFO_text msg = response_GET_PAGE_INFO_text msg' := by
    unfold response_GET_PAGE_INFO_text
    rw [e1, e2, t1]
  have t3 : response_GET_SEGMENT_INFO_text st msg = response_GET_SEGMENT_INFO_text st msg' := by
    unfold response_GET_SEGMENT_INFO_text
    rw [e1, e2, e3, e4, e5, d4, t2]
  have t4 : response_GET_PAG_PROCESSOR_INFO_text st msg
      = response_GET_PAG_PROCESSOR_INFO_text st msg' := by
    unfold response_GET_PAG_PROCESSOR_INFO_text
    rw [e1, e2, t3]
  have t5 : response_GET_SECTOR_INFO_text st msg = response_GET_SECTOR_INFO_text st msg' := by
    unfold response_GET_SECTOR_INFO_text
    rw [e1, e2, e3, d4]
  unfold print_xcp_positive_response
  simp only [e1, e2, e3, e4, e5, e6, e7, w2, w4, d4, x, b1, b2, fl, t1, t2, t3, t4, t5]

theorem print_xcp_response_congr (st : DissectState) (msg msg' : XcpMessage)
    (hlen : msg.frame.len = msg'.frame.len)
    (hb : ∀ i, i < 8 ∨ i < msg.frame.len → MSG_BYTE msg i = MSG_BYTE msg' i) :
    print_xcp_response st msg = print_xcp_response st msg' := by
  unfold print_xcp_response
  simp only [hb 0 (Or.inl (by decide)), hb 1 (Or.inl (by decide)),
    print_xcp_positive_response_congr st msg msg' hlen hb, print_event_congr msg msg' hlen hb,
    hexdump_congr msg msg' hlen hb]

/-! ## Reads beyond the frame length -/

/-- C16, counterexample: two master frames of length 1 with the same id and
the same payload byte `0xFF`, which differ only in the buffer byte at index 1
(beyond the frame length), are rendered differently: the CONNECT decoder
reads the byte at index 1 of a frame that holds one byte. -/
theorem no_read_past_frame_counterexample :
    (⟨0x7E0, 0x7E8, ⟨0x7E0, 1, [0xFF, 0x00]⟩⟩ : XcpMessage).frame.len
        = (⟨0x7E0, 0x7E8, ⟨0x7E0, 1, [0xFF, 0x01]⟩⟩ : XcpMessage).frame.len
      ∧ (∀ i, i < 1 →
          MSG_BYTE ⟨0x7E0, 0x7E8, ⟨0x7E0, 1, [0xFF, 0x00]⟩⟩ i
            = MSG_BYTE ⟨0x7E0, 0x7E8, ⟨0x7E0, 1, [0xFF, 0x01]⟩⟩ i)
      ∧ (print_xcp_message exampleSession ⟨0x7E0, 0x7E8, ⟨0x7E0, 1, [0xFF, 0x00]⟩⟩ false).1
          = "-> CONNECT(mode = NORMAL[ ])"
      ∧ (print_xcp_message exampleSession ⟨0x7E0, 0x7E8, ⟨0x7E0, 1, [0xFF, 0x01]⟩⟩ false).1
          = "-> CONNECT(mode = USER_DEFINED[ ])" := by
  decide

/-- C16, amended: unless the frame is a master frame with first byte `0xC7`
(WRITE_DAQ_MULTIPLE), `print_xcp_message` reads payload bytes only at indices
below the larger of the frame length and 8: two frames with the same id, the
same length and the same bytes at all those indices give the same text and
the same state, from every prior state. -/
theorem reads_below_length_or_eight (st : DissectState) (msg msg' : XcpMessage) (dtos : Bool)
    (hid : msg.frame.can_id = msg'.frame.can_id) (hlen : msg.frame.len = msg'.frame.len)
    (hbytes : ∀ i, i < max msg.frame.len 8 → MSG_BYTE msg i = MSG_BYTE msg' i)
    (hcmd : ¬ (msg.frame.can_id = st.CanIds.src ∧ MSG_BYTE msg 0 = 0xC7)) :
    print_xcp_message st msg dtos = print_xcp_message st msg' dtos := by
  have hb : ∀ i, i < 8 ∨ i < msg.frame.len → MSG_BYTE msg i = MSG_BYTE msg' i := by
    intro i hi
    apply hbytes
    rcases hi with h | h
    · exact Nat.lt_of_lt_of_le h (Nat.le_max_right _ _)
    · exact Nat.lt_of_lt_of_le h (Nat.le_max_left _ _)
  by_cases h1 : msg.frame.can_id = st.CanIds.src
  · have hne : ¬ MSG_BYTE msg' 0 = WRITE_DAQ_MULTIPLE := by
      rw [← hb 0 (Or.inl (by decide))]
      exact fun h => hcmd ⟨h1, h⟩
    rw [print_xcp_message_of_master st msg dtos h1,
      print_xcp_message_of_master st msg' dtos (hid ▸ h1)]
    exact print_xcp_request_congr _ msg msg' hlen hb hne
  · by_cases h2 : msg.frame.can_id = st.CanIds.dst
    · rw [print_xcp_message_of_slave st msg dtos h1 h2,
        print_xcp_message_of_slave st msg' dtos (hid ▸ h1) (hid ▸ h2)]
      exact print_xcp_response_congr _ msg msg' hlen hb
    · rw [print_xcp_message_of_other st msg dtos h1 h2,
        print_xcp_message_of_other st msg' dtos (hid ▸ h1) (hid ▸ h2),
        hexdump_congr msg msg' hlen hb]

/-- Witness for C16 as amended: two CONNECT requests of length 2 whose
buffers differ only at index 8 are rendered the same. -/
theorem reads_below_length_or_eight_witness :
    print_xcp_message exampleSession
        ⟨0x7E0, 0x7E8, ⟨0x7E0, 2, [0xFF, 0x00, 1, 2, 3, 4, 5, 6, 0xAA]⟩⟩ false
      = print_xcp_message exampleSession
        ⟨0x7E0, 0x7E8, ⟨0x7E0, 2, [0xFF, 0x00, 1, 2, 3, 4, 5, 6, 0xBB]⟩⟩ false :=
  reads_below_length_or_eight exampleSession
    ⟨0x7E0, 0x7E8, ⟨0x7E0, 2, [0xFF, 0x00, 1, 2, 3, 4, 5, 6, 0xAA]⟩⟩
    ⟨0x7E0, 0x7E8, ⟨0x7E0, 2, [0xFF, 0x00, 1, 2, 3, 4, 5, 6, 0xBB]⟩⟩ false
    (by decide) (by decide) (by decide) (by decide)

/-! ## Defects of the request decoder and of the event decoder -/

/-- C13, what the code does for a command code without a case: for the
master frame `[0x01, 0x02]` the decoder returns index 1, not 0, and the frame
is rendered as `-> [ 02 ])`: the command byte `0x01` is neither named nor part
of the hex dump. -/
theorem unknown_request_command_evaluation :
    (print_requested_service exampleSession ⟨0x7E0, 0x7E8, ⟨0x7E0, 2, [0x01, 0x02]⟩⟩).2.1 = 1
      ∧ (print_xcp_message exampleSession ⟨0x7E0, 0x7E8, ⟨0x7E0, 2, [0x01, 0x02]⟩⟩ false).1
          = "-> [ 02 ])"
      ∧ hexdump_xcp_message ⟨0x7E0, 0x7E8, ⟨0x7E0, 2, [0x01, 0x02]⟩⟩ 0 = "[ 01 02 ]" := by
  decide

/-- C18, what the code does for SET_REQUEST and SET_DAQ_PTR on frames of
length 8: SET_REQUEST renders `sessionConfigurationId` from bytes 2 and 3 but
returns index 3, so byte 3 (`0x12`) is rendered again in the hex dump;
SET_DAQ_PTR renders fields from bytes 2 to 5 but returns index 1, so all of
them are rendered again. -/
theorem consumed_count_evaluation :
    (print_requested_service exampleSession
        ⟨0x7E0, 0x7E8, ⟨0x7E0, 8, [0xF9, 0x00, 0x34, 0x12, 0, 0, 0, 0]⟩⟩).2.1 = 3
      ∧ MSG_WORD ⟨0x7E0, 0x7E8, ⟨0x7E0, 8, [0xF9, 0x00, 0x34, 0x12, 0, 0, 0, 0]⟩⟩ 2 = 0x1234
      ∧ (print_xcp_message exampleSession
          ⟨0x7E0, 0x7E8, ⟨0x7E0, 8, [0xF9, 0x00, 0x34, 0x12, 0, 0, 0, 0]⟩⟩ false).1
          = "-> SET_REQUEST(mode = \x7bclearDaqReq = FALSE, storeDaqReqResume = FALSE, storeDaqReqNoResume = FALSE, storeCalReq = FALSE\x7d, sessionConfigurationId = 4660[ 12 00 00 00 00 ])"
      ∧ (print_requested_service exampleSession
          ⟨0x7E0, 0x7E8, ⟨0x7E0, 8, [0xE2, 0x00, 0x01, 0x00, 0x02, 0x03, 0, 0]⟩⟩).2.1 = 1
      ∧ (print_xcp_message exampleSession
          ⟨0x7E0, 0x7E8, ⟨0x7E0, 8, [0xE2, 0x00, 0x01, 0x00, 0x02, 0x03, 0, 0]⟩⟩ false).1
          = "-> SET_DAQ_PTR(daqListNumber = 1, odtNumber = 2, odtEntryNumber = 3[ 00 01 00 02 03 00 00 ])" := by
  refine ⟨by decide, by decide, rfl, by decide, rfl⟩

/-- C20, what the code does for EV_TIME_SYNC: for the slave frame
`[0xFD, 0x08, 0x00, 0x00, 0x78, 0x56, 0x34, 0x12]` the timestamp is rendered
from bytes 4 to 7 and the hex dump still starts at offset 2, so the timestamp
bytes are rendered a second time; for EV_RESUME_MODE on the same bytes the
hex dump starts at offset 8 and is empty. -/
theorem event_time_sync_evaluation :
    (print_xcp_message exampleSession
        ⟨0x7E0, 0x7E8, ⟨0x7E8, 8, [0xFD, 0x08, 0x00, 0x00, 0x78, 0x56, 0x34, 0x12]⟩⟩ false).1
        = "<- EVENT(id = EV_TIME_SYNC, timestamp = 305419896[ 00 00 78 56 34 12 ])"
      ∧ (print_xcp_message exampleSession
          ⟨0x7E0, 0x7E8, ⟨0x7E8, 8, [0xFD, 0x00, 0x00, 0x00, 0x78, 0x56, 0x34, 0x12]⟩⟩ false).1
        = "<- EVENT(id = EV_RESUME_MODE, sessionConfigurationId = 0, timestamp = 305419896)" := by
  refine ⟨rfl, rfl⟩

/-! ## Helper lemmas: event decoder -/

theorem print_xcp_response_event (st : DissectState) (msg : XcpMessage)
    (h0 : MSG_BYTE msg 0 = 0xFD) :
    (print_xcp_response st msg).1 = "<- " ++ print_event msg := by
  unfold print_xcp_response
  have n1 : ¬ MSG_BYTE msg 0 = 0xff := by rw [h0]; decide
  have n2 : ¬ MSG_BYTE msg 0 = 0xfe := by rw [h0]; decide
  simp only [if_neg n1, if_neg n2, if_pos h0]

theorem event_open (s : String) : "<- " ++ ("EVENT(id = " ++ s) = "<- EVENT(id = " ++ s := by
  rw [← String.append_assoc]
  rfl

theorem event_resume_label (s : String) :
    "EV_RESUME_MODE, sessionConfigurationId = " ++ s
      = "EV_RESUME_MODE" ++ (", sessionConfigurationId = " ++ s) := by
  rw [← String.append_assoc]
  rfl

theorem event_time_sync_label (s : String) :
    "EV_TIME_SYNC, timestamp = " ++ s = "EV_TIME_SYNC" ++ (", timestamp = " ++ s) := by
  rw [← String.append_assoc]
  rfl

theorem event_stim_label (s : String) :
    "EV_STIM_TIMEOUT, eventType = " ++ s = "EV_STIM_TIMEOUT" ++ (", eventType = " ++ s) := by
  rw [← String.append_assoc]
  rfl

theorem print_event_closes (msg : XcpMessage) : ∃ body, print_event msg = body ++ ")" :=
  ⟨_, rfl⟩

theorem print_event_named (msg : XcpMessage) :
    ∀ e ∈ XCP_EV_codes, MSG_BYTE msg 1 = e.2 →
      ∃ rest, print_event msg = "EVENT(id = " ++ (String.mk (e.1.data.drop 4) ++ rest) := by
  intro e he h1
  simp only [XCP_EV_codes, List.mem_cons, List.mem_singleton, List.not_mem_nil, or_false] at he
  rcases he with rfl | rfl | rfl | rfl | rfl | rfl | rfl | rfl | rfl | rfl | rfl | rfl | rfl
  all_goals
    unfold print_event
    simp only [h1, XCP_EV_RESUME_MODE, XCP_EV_CLEAR_DAQ, XCP_EV_STORE_DAQ, XCP_EV_STORE_CAL,
      XCP_EV_CMD_PENDING, XCP_EV_DAQ_OVERLOAD, XCP_EV_SESSION_TERMINATED, XCP_EV_TIME_SYNC,
      XCP_EV_STIM_TIMEOUT, XCP_EV_SLEEP, XCP_EV_WAKE_UP, XCP_EV_USER, XCP_EV_TRANSPORT,
      Nat.reduceEqDiff, ↓reduceIte, event_resume_label, event_time_sync_label,
      event_stim_label, String.append_assoc]
    exact ⟨_, rfl⟩

theorem print_event_unnamed (msg : XcpMessage)
    (h : ∀ e ∈ XCP_EV_codes, MSG_BYTE msg 1 ≠ e.2) :
    print_event msg
      = "EVENT(id = " ++ ("0x" ++ fmt_x 0 (MSG_BYTE msg 1) ++ " ")
        ++ hexdump_xcp_message msg 2 ++ ")" := by
  simp only [XCP_EV_codes, List.mem_cons, List.mem_singleton, List.not_mem_nil, or_false,
    forall_eq_or_imp, forall_eq, ne_eq] at h
  unfold print_event
  simp only [h, if_false]

/-! ## Event decoder -/

/-- C19: a slave frame of length 8 with first byte `0xFD` is rendered as a
text that starts with `<- EVENT(id = ` followed by `EV_<NAME>` when byte 1 is
the value of the standard event macro `XCP_EV_<NAME>`, and followed by byte 1
as a number (`0x`, its hexadecimal digits and a space) when it is the value of
none of them; the text always ends with `)`. -/
theorem event_names (st : DissectState) (msg : XcpMessage) (dtos : Bool)
    (hsrc : msg.frame.can_id ≠ st.CanIds.src) (hdst : msg.frame.can_id = st.CanIds.dst)
    (_hlen : msg.frame.len = 8) (h0 : MSG_BYTE msg 0 = 0xFD) :
    (∀ (name : String) (id : Nat), ("XCP_EV_" ++ name, id) ∈ XCP_EV_codes →
        MSG_BYTE msg 1 = id →
        ∃ rest, (print_xcp_message st msg dtos).1
          = "<- EVENT(id = " ++ ("EV_" ++ name) ++ rest)
      ∧ ((∀ e ∈ XCP_EV_codes, MSG_BYTE msg 1 ≠ e.2) →
        (print_xcp_message st msg dtos).1
          = "<- EVENT(id = " ++ "0x" ++ fmt_x 0 (MSG_BYTE msg 1) ++ " "
            ++ hexdump_xcp_message msg 2 ++ ")")
      ∧ ∃ body, (print_xcp_message st msg dtos).1 = body ++ ")" := by
  rw [slave_text st msg dtos hsrc hdst, print_xcp_response_event st msg h0]
  refine ⟨fun name id hmem h1 => ?_, fun h => ?_, ?_⟩
  · obtain ⟨rest, hrest⟩ := print_event_named msg _ hmem h1
    refine ⟨rest, ?_⟩
    rw [hrest, event_open, String.append_assoc]
    rfl
  · rw [print_event_unnamed msg h]
    simp only [String.append_assoc]
    exact event_open _
  · obtain ⟨body, hbody⟩ := print_event_closes msg
    exact ⟨"<- " ++ body, by rw [hbody, String.append_assoc]⟩

/-- Witness for C19: the slave frame
`[0xFD, 0x77, 0x01, 0x02, 0x03, 0x04, 0x05, 0x06]`, whose event id `0x77` is
not a standard one, is rendered as `<- EVENT(id = 0x77 [ 01 02 03 04 05 06 ])`,
and the frame `[0xFD, 0x07, 0, 0, 0, 0, 0, 0]` as a text that starts with
`<- EVENT(id = EV_SESSION_TERMINATED`. -/
theorem event_names_witness :
    (print_xcp_message exampleSession
        ⟨0x7E0, 0x7E8, ⟨0x7E8, 8, [0xFD, 0x77, 0x01, 0x02, 0x03, 0x04, 0x05, 0x06]⟩⟩ false).1
        = "<- EVENT(id = 0x77 [ 01 02 03 04 05 06 ])"
      ∧ ∃ rest, (print_xcp_message exampleSession
          ⟨0x7E0, 0x7E8, ⟨0x7E8, 8, [0xFD, 0x07, 0x00, 0x00, 0x00, 0x00, 0x00, 0x00]⟩⟩ false).1
        = "<- EVENT(id = " ++ ("EV_" ++ "SESSION_TERMINATED") ++ rest :=
  ⟨((event_names exampleSession
      ⟨0x7E0, 0x7E8, ⟨0x7E8, 8, [0xFD, 0x77, 0x01, 0x02, 0x03, 0x04, 0x05, 0x06]⟩⟩ false
      (by decide) (by decide) (by decide) (by decide)).2.1 (by decide)).trans (by decide),
    (event_names exampleSession
      ⟨0x7E0, 0x7E8, ⟨0x7E8, 8, [0xFD, 0x07, 0x00, 0x00, 0x00, 0x00, 0x00, 0x00]⟩⟩ false
      (by decide) (by decide) (by decide) (by decide)).1 "SESSION_TERMINATED" 0x07
      (by decide) (by decide)⟩

/-! ## Helper lemmas: data-transfer objects and service requests -/

theorem dto_open (s : String) : "<- " ++ ("DTO(pid = " ++ s) = "<- DTO(pid = " ++ s := by
  rw [← String.append_assoc]
  rfl

theorem service_req_open (s : String) : "<- " ++ ("SERVICE REQ" ++ s) = "<- SERVICE REQ" ++ s := by
  rw [← String.append_assoc]
  rfl

theorem print_xcp_response_dto (st : DissectState) (msg : XcpMessage)
    (h1 : MSG_BYTE msg 0 ≠ 0xFF) (h2 : MSG_BYTE msg 0 ≠ 0xFE) (h3 : MSG_BYTE msg 0 ≠ 0xFD)
    (h4 : MSG_BYTE msg 0 ≠ 0xFC) :
    (print_xcp_response st msg).1
      = "<- " ++ ("DTO(pid = " ++ fmt_u (MSG_BYTE msg 0) ++ ", "
          ++ hexdump_xcp_message msg 1 ++ ")") := by
  unfold print_xcp_response
  simp only [if_neg h1, if_neg h2, if_neg h3, if_neg h4]

theorem print_xcp_response_service (st : DissectState) (msg : XcpMessage)
    (h0 : MSG_BYTE msg 0 = 0xFC) :
    (print_xcp_response st msg).1 = "<- " ++ ("SERVICE REQ" ++ hexdump_xcp_message msg 1) := by
  unfold print_xcp_response
  have n1 : ¬ MSG_BYTE msg 0 = 0xff := by rw [h0]; decide
  have n2 : ¬ MSG_BYTE msg 0 = 0xfe := by rw [h0]; decide
  have n3 : ¬ MSG_BYTE msg 0 = 0xfd := by rw [h0]; decide
  simp only [if_neg n1, if_neg n2, if_neg n3, if_pos h0]

/-! ## Data-transfer objects and service requests -/

/-- C21: a slave frame of length at least 1 whose first byte `b` is none of
`0xFF`, `0xFE`, `0xFD`, `0xFC` is rendered as `<- DTO(pid = `, `b` in decimal,
`, `, the hex dump from offset 1 and `)`, from every state. -/
theorem dto_response (st : DissectState) (msg : XcpMessage) (dtos : Bool)
    (hsrc : msg.frame.can_id ≠ st.CanIds.src) (hdst : msg.frame.can_id = st.CanIds.dst)
    (_hlen : 1 ≤ msg.frame.len)
    (h1 : MSG_BYTE msg 0 ≠ 0xFF) (h2 : MSG_BYTE msg 0 ≠ 0xFE) (h3 : MSG_BYTE msg 0 ≠ 0xFD)
    (h4 : MSG_BYTE msg 0 ≠ 0xFC) :
    (print_xcp_message st msg dtos).1
      = "<- DTO(pid = " ++ fmt_u (MSG_BYTE msg 0) ++ ", " ++ hexdump_xcp_message msg 1 ++ ")" := by
  rw [slave_text st msg dtos hsrc hdst, print_xcp_response_dto st msg h1 h2 h3 h4]
  simp only [String.append_assoc]
  exact dto_open _

/-- Witness for C21: with GET_STATUS remembered the slave frame
`[0x2A, 0x01, 0x02]` is rendered as `<- DTO(pid = 42, [ 01 02 ])`. -/
theorem dto_response_witness :
    (print_xcp_message { exampleSession with service_request := 0xFD }
        ⟨0x7E0, 0x7E8, ⟨0x7E8, 3, [0x2A, 0x01, 0x02]⟩⟩ false).1
      = "<- DTO(pid = 42, [ 01 02 ])" :=
  (dto_response { exampleSession with service_request := 0xFD }
      ⟨0x7E0, 0x7E8, ⟨0x7E8, 3, [0x2A, 0x01, 0x02]⟩⟩ false
      (by decide) (by decide) (by decide) (by decide) (by decide) (by decide)
      (by decide)).trans (by decide)

/-- C22: a slave frame of length at least 1 whose first byte is `0xFC` is
rendered as `<- SERVICE REQ` followed by the hex dump from offset 1 and
nothing else, from every state. -/
theorem service_request_response (st : DissectState) (msg : XcpMessage) (dtos : Bool)
    (hsrc : msg.frame.can_id ≠ st.CanIds.src) (hdst : msg.frame.can_id = st.CanIds.dst)
    (_hlen : 1 ≤ msg.frame.len) (h0 : MSG_BYTE msg 0 = 0xFC) :
    (print_xcp_message st msg dtos).1 = "<- SERVICE REQ" ++ hexdump_xcp_message msg 1 := by
  rw [slave_text st msg dtos hsrc hdst, print_xcp_response_service st msg h0]
  exact service_req_open _

/-- Witness for C22: with CONNECT remembered the slave frame
`[0xFC, 0x01, 0x41]` is rendered as `<- SERVICE REQ[ 01 41 ]`. -/
theorem service_request_response_witness :
    (print_xcp_message { exampleSession with service_request := 0xFF }
        ⟨0x7E0, 0x7E8, ⟨0x7E8, 3, [0xFC, 0x01, 0x41]⟩⟩ false).1
      = "<- SERVICE REQ[ 01 41 ]" :=
  (service_request_response { exampleSession with service_request := 0xFF }
      ⟨0x7E0, 0x7E8, ⟨0x7E8, 3, [0xFC, 0x01, 0x41]⟩⟩ false
      (by decide) (by decide) (by decide) (by decide)).trans (by decide)

/-! ## Helper lemmas: selecting a case of the positive-response switch -/

theorem positive_response_GET_PAG_PROCESSOR_INFO (st : DissectState) (msg : XcpMessage)
    (h : st.service_request = GET_PAG_PROCESSOR_INFO) :
    print_xcp_positive_response st msg = response_GET_PAG_PROCESSOR_INFO_text st msg := by
  unfold print_xcp_positive_response
  simp only [h, CONNECT, GET_STATUS, GET_COMM_MODE_INFO, GET_ID, GET_SEED, UNLOCK, UPLOAD,
    BUILD_CHECKSUM, TRANSPORT_LAYER_CMD, GET_PAG_PROCESSOR_INFO, Nat.reduceEqDiff, ↓reduceIte]

theorem positive_response_GET_SEGMENT_INFO (st : DissectState) (msg : XcpMessage)
    (h : st.service_request = GET_SEGMENT_INFO) :
    print_xcp_positive_response st msg = response_GET_SEGMENT_INFO_text st msg := by
  unfold print_xcp_positive_response
  simp only [h, CONNECT, GET_STATUS, GET_COMM_MODE_INFO, GET_ID, GET_SEED, UNLOCK, UPLOAD,
    BUILD_CHECKSUM, TRANSPORT_LAYER_CMD, GET_PAG_PROCESSOR_INFO, GET_SEGMENT_INFO,
    Nat.reduceEqDiff, ↓reduceIte]

theorem positive_response_GET_PAGE_INFO (st : DissectState) (msg : XcpMessage)
    (h : st.service_request = GET_PAGE_INFO) :
    print_xcp_positive_response st msg = response_GET_PAGE_INFO_text msg := by
  unfold print_xcp_positive_response
  simp only [h, CONNECT, GET_STATUS, GET_COMM_MODE_INFO, GET_ID, GET_SEED, UNLOCK, UPLOAD,
    BUILD_CHECKSUM, TRANSPORT_LAYER_CMD, GET_PAG_PROCESSOR_INFO, GET_SEGMENT_INFO,
    GET_PAGE_INFO, Nat.reduceEqDiff, ↓reduceIte]

theorem positive_response_GET_SEGMENT_MODE (st : DissectState) (msg : XcpMessage)
    (h : st.service_request = GET_SEGMENT_MODE) :
    print_xcp_positive_response st msg = response_GET_SEGMENT_MODE_text msg := by
  unfold print_xcp_positive_response
  simp only [h, CONNECT, GET_STATUS, GET_COMM_MODE_INFO, GET_ID, GET_SEED, UNLOCK, UPLOAD,
    BUILD_CHECKSUM, TRANSPORT_LAYER_CMD, GET_PAG_PROCESSOR_INFO, GET_SEGMENT_INFO,
    GET_PAGE_INFO, GET_SEGMENT_MODE, Nat.reduceEqDiff, ↓reduceIte]

theorem ok_only (s : String) : "<- " ++ ("OK" ++ s) = "<- OK" ++ s := by
  rw [← String.append_assoc]
  rfl

/-! ## Fall-through in the positive-response switch -/

/-- C23: for every positive response and every state, the text rendered after
`OK` when GET_PAG_PROCESSOR_INFO is remembered is its own parenthesised group
followed by the whole text rendered when GET_SEGMENT_INFO is remembered; that
text is its own group followed by the whole text for GET_PAGE_INFO; and that
text is its own group followed by the text for GET_SEGMENT_MODE, which is one
group.  A slave frame of length 8 decoded with GET_PAG_PROCESSOR_INFO
remembered is therefore rendered as `<- OK` and four groups. -/
theorem positive_response_fall_through (st : DissectState) (msg : XcpMessage) :
    print_xcp_positive_response { st with service_request := GET_PAG_PROCESSOR_INFO } msg
        = ("(" ++ "maxSegment = " ++ fmt_u (MSG_BYTE msg 1) ++ ", "
            ++ print_get_pag_processor_info (MSG_BYTE msg 2) ++ ")")
          ++ print_xcp_positive_response { st with service_request := GET_SEGMENT_INFO } msg
      ∧ (∃ body,
          print_xcp_positive_response { st with service_request := GET_SEGMENT_INFO } msg
            = ("(" ++ body ++ ")")
              ++ print_xcp_positive_response { st with service_request := GET_PAGE_INFO } msg)
      ∧ print_xcp_positive_response { st with service_request := GET_PAGE_INFO } msg
        = ("(" ++ print_get_page_info (MSG_BYTE msg 1)
            ++ ", initSegment = " ++ fmt_u (MSG_BYTE msg 2) ++ ")")
          ++ print_xcp_positive_response { st with service_request := GET_SEGMENT_MODE } msg
      ∧ print_xcp_positive_response { st with service_request := GET_SEGMENT_MODE } msg
        = "(" ++ print_segment_mode (MSG_BYTE msg 2) ++ ")"
      ∧ (∀ dtos : Bool,
          msg.frame.can_id ≠ st.CanIds.src → msg.frame.can_id = st.CanIds.dst →
          msg.frame.len = 8 → MSG_BYTE msg 0 = 0xFF →
          st.service_request = GET_PAG_PROCESSOR_INFO →
          ∃ g1 g2 g3 g4, (print_xcp_message st msg dtos).1
            = "<- OK" ++ (("(" ++ g1 ++ ")") ++ (("(" ++ g2 ++ ")")
                ++ (("(" ++ g3 ++ ")") ++ ("(" ++ g4 ++ ")"))))) := by
  have e9 := positive_response_GET_PAG_PROCESSOR_INFO
    { st with service_request := GET_PAG_PROCESSOR_INFO } msg rfl
  have e8 := positive_response_GET_SEGMENT_INFO
    { st with service_request := GET_SEGMENT_INFO } msg rfl
  have e7 := positive_response_GET_PAGE_INFO
    { st with service_request := GET_PAGE_INFO } msg rfl
  have e5 := positive_response_GET_SEGMENT_MODE
    { st with service_request := GET_SEGMENT_MODE } msg rfl
  refine ⟨?_, ?_, ?_, ?_, ?_⟩
  · rw [e9, e8]
    rfl
  · rw [e8, e7]
    exact ⟨_, rfl⟩
  · rw [e7, e5]
    rfl
  · rw [e5]
    rfl
  · intro dtos hsrc hdst _ h0 hreq
    rw [slave_text st msg dtos hsrc hdst, print_xcp_response_positive st msg h0,
      positive_response_GET_PAG_PROCESSOR_INFO st msg hreq, ok_only]
    exact ⟨_, _, _, _, rfl⟩

set_option maxRecDepth 100000 in
/-- Witness for C23: with GET_PAG_PROCESSOR_INFO remembered the slave frame
`[0xFF, 0x05, 0x00, 0x08, 0x00, 0x01, 0x01, 0x00]` is rendered with four
groups. -/
theorem positive_response_fall_through_witness :
    (∃ g1 g2 g3 g4,
        (print_xcp_message { exampleSession with service_request := 0xE9 }
          ⟨0x7E0, 0x7E8, ⟨0x7E8, 8, [0xFF, 0x05, 0x00, 0x08, 0x00, 0x01, 0x01, 0x00]⟩⟩ false).1
        = "<- OK" ++ (("(" ++ g1 ++ ")") ++ (("(" ++ g2 ++ ")")
            ++ (("(" ++ g3 ++ ")") ++ ("(" ++ g4 ++ ")")))))
      ∧ (print_xcp_message { exampleSession with service_request := 0xE9 }
          ⟨0x7E0, 0x7E8, ⟨0x7E8, 8, [0xFF, 0x05, 0x00, 0x08, 0x00, 0x01, 0x01, 0x00]⟩⟩ false).1
        = "<- OK(maxSegment = 5, properties = \x7b  \x7d)(address = 0x00010100)(properties = \x7b ecuAccessType = \"without XCP only\", xcpReadAccessType = \"without ECU only\", xcpWriteAccessType = \"XCP WRITE access not allowed\" \x7d, initSegment = 0)(segmentMode = \x7b freeze = DISABLE \x7d)" :=
  ⟨(positive_response_fall_through { exampleSession with service_request := 0xE9 }
      ⟨0x7E0, 0x7E8, ⟨0x7E8, 8, [0xFF, 0x05, 0x00, 0x08, 0x00, 0x01, 0x01, 0x00]⟩⟩).2.2.2.2
      false (by decide) (by decide) (by decide) (by decide) (by decide),
    rfl⟩

/-! ## Blank enumerated fields -/

/-- C24, what the code does for the undefined bit combinations: with both
bits of a pair set, `print_get_page_info` prints nothing after
`ecuAccessType = `, `xcpReadAccessType = ` and `xcpWriteAccessType = `;
`print_daq_event_properties` prints nothing after `consistency = ` for the
value 3; `print_event_channel_time_unit` prints nothing after `unit = ` for a
unit above 12, where `print_daq_timestamp_mode` prints `"INVALID"` for the
same unit; and the blank fields reach the rendered line of a GET_PAGE_INFO
response. -/
theorem blank_enumerated_fields :
    print_get_page_info 0x3F
        = "properties = \x7b ecuAccessType = , xcpReadAccessType = , xcpWriteAccessType =  \x7d"
      ∧ print_daq_event_properties 0xC0
        = "eventProperties = \x7beventChannelType = \"not allowed\", consistency =  \x7d"
      ∧ print_event_channel_time_unit 13 = "unit = "
      ∧ print_daq_timestamp_mode 0xD0
        = "timestampMode = \x7bsize = \"no timestamp\", unit = \"INVALID\", fixed = FALSE\x7d"
      ∧ (print_xcp_message { exampleSession with service_request := 0xE7 }
          ⟨0x7E0, 0x7E8, ⟨0x7E8, 8, [0xFF, 0x3F, 0x00, 0x00, 0x00, 0x00, 0x00, 0x00]⟩⟩ false).1
        = "<- OK(properties = \x7b ecuAccessType = , xcpReadAccessType = , xcpWriteAccessType =  \x7d, initSegment = 0)(segmentMode = \x7b freeze = DISABLE \x7d)" := by
  refine ⟨by decide, by decide, by decide, by decide, rfl⟩

/-! ## Number of named error codes -/

/-- C25, counterexample: the second byte values `0x33` and `0xFF` are
rendered with a name as well, and the values below 256 that are rendered with
a name are not 18 in number. -/
theorem eighteen_error_codes_counterexample :
    error_code_text 0x33 = ("RESOURCE_TEMPORARY_NOT_ACCESSIBLE", 2)
      ∧ error_code_text 0xFF = ("SUCCESS", 2)
      ∧ ((List.range 256).filter fun b => decide ((error_code_text b).1 ≠ "")).length ≠ 18 := by
  decide

set_option maxRecDepth 100000 in
/-- C25, amended: exactly 20 of the 256 values of the second byte of a `0xFE`
response are rendered with a name, namely the values of the 20 error code
macros of `xcp.h`, and every other value takes the default case (no name, hex
dump from offset 1). -/
theorem twenty_error_codes :
    ((List.range 256).filter fun b => decide ((error_code_text b).1 ≠ "")).length = 20
      ∧ ((List.range 256).filter fun b => decide ((error_code_text b).1 ≠ ""))
        = ERR_codes.map Prod.snd
      ∧ ∀ b, b < 256 → b ∉ ERR_codes.map Prod.snd → error_code_text b = ("", 1) := by
  decide

/-- Witness for C25 as amended: the value `0x44` is the value of no error
code macro and takes the default case. -/
theorem twenty_error_codes_witness : error_code_text 0x44 = ("", 1) :=
  twenty_error_codes.2.2 0x44 (by decide) (by decide)

/-! ## Remembered sub-fields -/

/-- C26, counterexample: after the GET_SEGMENT_INFO request
`[0xE8, 0x02, 0x01, 0x00, 0x07]`, decoded in a state whose `mappingIndex` is
9, the remembered `mappingIndex` is still 9, not byte 4 of the frame, although
the rendered text shows `mappingIndex = 7`. -/
theorem segment_info_triple_counterexample :
    (print_xcp_message
        { exampleSession with
          getSegmentInfoRequest := { mode := 0, segmentInfo := 0, mappingIndex := 9 } }
        ⟨0x7E0, 0x7E8, ⟨0x7E0, 5, [0xE8, 0x02, 0x01, 0x00, 0x07]⟩⟩
        false).2.getSegmentInfoRequest.mappingIndex = 9
      ∧ MSG_BYTE ⟨0x7E0, 0x7E8, ⟨0x7E0, 5, [0xE8, 0x02, 0x01, 0x00, 0x07]⟩⟩ 4 = 7
      ∧ (print_xcp_message
          { exampleSession with
            getSegmentInfoRequest := { mode := 0, segmentInfo := 0, mappingIndex := 9 } }
          ⟨0x7E0, 0x7E8, ⟨0x7E0, 5, [0xE8, 0x02, 0x01, 0x00, 0x07]⟩⟩ false).1
        = "-> GET_SEGMENT_INFO(mode = 2 [\"get address mapping info for this SEGMENT\"], segmentNumber = 1, segmentInfo = \"sourceAddress\", mappingIndex = 7 [\"identifier for address mapping range that MAPPING_INFO belongs to\"])" := by
  refine ⟨by decide, by decide, rfl⟩

/-! ## Helper lemmas: selecting a case of the request switch -/

theorem print_requested_service_GET_SEGMENT_INFO (st : DissectState) (msg : XcpMessage)
    (h0 : MSG_BYTE msg 0 = GET_SEGMENT_INFO) :
    (print_requested_service st msg).2.2
      = { st with getSegmentInfoRequest :=
          { st.getSegmentInfoRequest with
            mode := MSG_BYTE msg 1, segmentInfo := MSG_BYTE msg 3 } } := by
  unfold print_requested_service
  simp only [h0, CONNECT, DISCONNECT, GET_STATUS, SYNCH, GET_COMM_MODE_INFO, GET_ID,
    SET_REQUEST, GET_SEED, UNLOCK, SET_MTA, UPLOAD, SHORT_UPLOAD, BUILD_CHECKSUM,
    TRANSPORT_LAYER_CMD, USER_CMD, DOWNLOAD, DOWNLOAD_NEXT, DOWNLOAD_MAX, SHORT_DOWNLOAD,
    MODIFY_BITS, SET_CAL_PAGE, GET_CAL_PAGE, GET_PAG_PROCESSOR_INFO, GET_SEGMENT_INFO,
    Nat.reduceEqDiff, ↓reduceIte]

theorem print_requested_service_GET_SECTOR_INFO (st : DissectState) (msg : XcpMessage)
    (h0 : MSG_BYTE msg 0 = GET_SECTOR_INFO) :
    (print_requested_service st msg).2.2
      = { st with get_sector_info_mode := MSG_BYTE msg 1 } := by
  unfold print_requested_service
  simp only [h0, CONNECT, DISCONNECT, GET_STATUS, SYNCH, GET_COMM_MODE_INFO, GET_ID,
    SET_REQUEST, GET_SEED, UNLOCK, SET_MTA, UPLOAD, SHORT_UPLOAD, BUILD_CHECKSUM,
    TRANSPORT_LAYER_CMD, USER_CMD, DOWNLOAD, DOWNLOAD_NEXT, DOWNLOAD_MAX, SHORT_DOWNLOAD,
    MODIFY_BITS, SET_CAL_PAGE, GET_CAL_PAGE, GET_PAG_PROCESSOR_INFO, GET_SEGMENT_INFO,
    GET_PAGE_INFO, SET_SEGMENT_MODE, GET_SEGMENT_MODE, COPY_CAL_PAGE, CLEAR_DAQ_LIST,
    SET_DAQ_PTR, WRITE_DAQ, SET_DAQ_LIST_MODE, GET_DAQ_LIST_MODE, START_STOP_DAQ_LIST,
    START_STOP_SYNCH, GET_DAQ_CLOCK, READ_DAQ, GET_DAQ_PROCESSOR_INFO,
    GET_DAQ_RESOLUTION_INFO, GET_DAQ_LIST_INFO, GET_DAQ_EVENT_INFO, FREE_DAQ, ALLOC_DAQ,
    ALLOC_ODT, ALLOC_ODT_ENTRY, PROGRAM_START, PROGRAM_CLEAR, PROGRAM, PROGRAM_RESET,
    GET_PGM_PROCESSOR_INFO, GET_SECTOR_INFO, Nat.reduceEqDiff, ↓reduceIte]

theorem print_xcp_request_state (st : DissectState) (msg : XcpMessage) :
    (print_xcp_request st msg).2
      = (print_requested_service { st with service_request := MSG_BYTE msg 0 } msg).2.2 :=
  rfl

/-- C26, amended: after the request decoder handles a master frame with first
byte `0xE8` the state holds `mode` = byte 1 and `segmentInfo` = byte 3 of that
frame, while `mappingIndex` keeps the value it had (the dissector never
writes it); after a frame with first byte `0xCD` the state holds the
sector-info mode = byte 1. -/
theorem segment_info_remembered (st : DissectState) (msg : XcpMessage) (dtos : Bool)
    (hid : msg.frame.can_id = st.CanIds.src) :
    (MSG_BYTE msg 0 = 0xE8 →
        (print_xcp_message st msg dtos).2.getSegmentInfoRequest
          = { mode := MSG_BYTE msg 1, segmentInfo := MSG_BYTE msg 3,
              mappingIndex := st.getSegmentInfoRequest.mappingIndex })
      ∧ (MSG_BYTE msg 0 = 0xCD →
        (print_xcp_message st msg dtos).2.get_sector_info_mode = MSG_BYTE msg 1) := by
  rw [print_xcp_message_of_master st msg dtos hid, print_xcp_request_state]
  refine ⟨fun h0 => ?_, fun h0 => ?_⟩
  · rw [print_requested_service_GET_SEGMENT_INFO _ msg h0]
  · rw [print_requested_service_GET_SECTOR_INFO _ msg h0]

/-- Witness for C26 as amended: after the GET_SEGMENT_INFO request
`[0xE8, 0x02, 0x01, 0x00, 0x07]` the state holds mode 2, segmentInfo 0 and the
`mappingIndex` 9 it held before. -/
theorem segment_info_remembered_witness :
    (print_xcp_message
        { exampleSession with
          getSegmentInfoRequest := { mode := 0, segmentInfo := 0, mappingIndex := 9 } }
        ⟨0x7E0, 0x7E8, ⟨0x7E0, 5, [0xE8, 0x02, 0x01, 0x00, 0x07]⟩⟩
        false).2.getSegmentInfoRequest
      = { mode := 2, segmentInfo := 0, mappingIndex := 9 } :=
  ((segment_info_remembered
      { exampleSession with
        getSegmentInfoRequest := { mode := 0, segmentInfo := 0, mappingIndex := 9 } }
      ⟨0x7E0, 0x7E8, ⟨0x7E0, 5, [0xE8, 0x02, 0x01, 0x00, 0x07]⟩⟩ false (by decide)).1
    (by decide)).trans (by decide)

/-! ## Helper lemmas: zero-padded hexadecimal -/

theorem spec_hex_fixed_length (width n : Nat) : (spec_hex_fixed width n).length = width := by
  induction width generalizing n with
  | zero => rfl
  | succ w ih => rw [spec_hex_fixed, List.length_append, ih, List.length_singleton]

theorem positive_response_GET_DAQ_PROCESSOR_INFO (st : DissectState) (msg : XcpMessage)
    (h : st.service_request = GET_DAQ_PROCESSOR_INFO) :
    print_xcp_positive_response st msg
      = "(" ++ print_daq_properties (MSG_BYTE msg 1)
        ++ ", minDaq = " ++ fmt_u (MSG_BYTE msg 6)
        ++ ", maxDaq = " ++ fmt_u (MSG_WORD msg 2)
        ++ ", maxEventChannel = " ++ fmt_u (MSG_WORD msg 4)
        ++ ", "
        ++ print_daq_key_byte (MSG_BYTE msg 7)
        ++ ")" := by
  unfold print_xcp_positive_response
  simp only [h, CONNECT, GET_STATUS, GET_COMM_MODE_INFO, GET_ID, GET_SEED, UNLOCK, UPLOAD,
    BUILD_CHECKSUM, TRANSPORT_LAYER_CMD, GET_PAG_PROCESSOR_INFO, GET_SEGMENT_INFO,
    GET_PAGE_INFO, GET_SEGMENT_MODE, START_STOP_DAQ_LIST, GET_DAQ_CLOCK,
    GET_DAQ_PROCESSOR_INFO, Nat.reduceEqDiff, ↓reduceIte]

set_option maxRecDepth 100000 in
theorem overload_bits : ∀ p, p < 256 → ((p &&& (0x80 ||| 0x40)) >>> 6) % 256 = p / 64 := by
  decide

theorem optimisation_bits (k : Nat) : k &&& (0x08 ||| 0x04 ||| 0x02 ||| 0x01) = k % 16 :=
  Nat.and_pow_two_sub_one_eq_mod k 4

set_option maxRecDepth 100000 in
theorem extension_bits : ∀ k, k < 256 → ((k &&& (0x20 ||| 0x10)) >>> 4) % 256 = k / 16 % 4 := by
  decide

/-! ## GET_DAQ_PROCESSOR_INFO response -/

/-- C28: while the remembered command is `0xDA`, a slave frame of length 8
with first byte `0xFF` is rendered as `<- OK(`, the DAQ properties of byte 1,
`minDaq` as byte 6, `maxDaq` as the word at offset 2, `maxEventChannel` as the
word at offset 4, all in decimal, the key byte text of byte 7 and `)`.  The
DAQ properties show `daqConfigType` by bit 0 of byte 1 (DYNAMIC when set, else
STATIC), the five `...Supported` flags by bits 1 to 5 and
`overloadIndicationType` from bits 6 and 7 (0 no overload indication, 1 in MSB
of PID, 2 by Event Packet, 3 not allowed, each in double quotes).  The key
byte text shows `optimisationType` from the low nibble of byte 7 (0
OM_DEFAULT, 1 OM_ODT_TYPE_16, 2 OM_ODT_TYPE_32, 3 OM_ODT_TYPE_64, 4
OM_ODT_TYPE_ALIGNMENT, 5 OM_MAX_ENTRY_SIZE, above 5 `"INVALID"`),
`addressExtensionType` from bits 4 and 5 and `identificationFieldType` from
bits 6 and 7. -/
theorem daq_processor_info_response (st : DissectState) (msg : XcpMessage) (dtos : Bool)
    (hsrc : msg.frame.can_id ≠ st.CanIds.src) (hdst : msg.frame.can_id = st.CanIds.dst)
    (hreq : st.service_request = 0xDA) (_hlen : msg.frame.len = 8)
    (h0 : MSG_BYTE msg 0 = 0xFF) :
    (print_xcp_message st msg dtos).1
      = "<- OK("
        ++ ("daqProperties = \x7b"
          ++ "daqConfigType = "
          ++ (if (MSG_BYTE msg 1).testBit 0 then "DYNAMIC" else "STATIC")
          ++ ", prescalerSupported = "
          ++ (if (MSG_BYTE msg 1).testBit 1 then "TRUE" else "FALSE")
          ++ ", resumeSupported = "
          ++ (if (MSG_BYTE msg 1).testBit 2 then "TRUE" else "FALSE")
          ++ ", bitStimSupported = "
          ++ (if (MSG_BYTE msg 1).testBit 3 then "TRUE" else "FALSE")
          ++ ", timestampSupported = "
          ++ (if (MSG_BYTE msg 1).testBit 4 then "TRUE" else "FALSE")
          ++ ", pidOffSupported = "
          ++ (if (MSG_BYTE msg 1).testBit 5 then "TRUE" else "FALSE")
          ++ ", overloadIndicationType = "
          ++ (if MSG_BYTE msg 1 / 64 = 0 then "\"no overload indication\""
              else if MSG_BYTE msg 1 / 64 = 1 then "\"overload indication in MSB of PID\""
              else if MSG_BYTE msg 1 / 64 = 2 then "\"overload indication by Event Packet\""
              else "\"not allowed\"")
          ++ "\x7d")
        ++ ", minDaq = " ++ fmt_u (MSG_BYTE msg 6)
        ++ ", maxDaq = " ++ fmt_u (MSG_BYTE msg 2 + 256 * MSG_BYTE msg 3)
        ++ ", maxEventChannel = " ++ fmt_u (MSG_BYTE msg 4 + 256 * MSG_BYTE msg 5)
        ++ ", "
        ++ ("keyByte = \x7b"
          ++ "optimisationType = "
          ++ (if MSG_BYTE msg 7 % 16 = 0 then "OM_DEFAULT"
              else if MSG_BYTE msg 7 % 16 = 1 then "OM_ODT_TYPE_16"
              else if MSG_BYTE msg 7 % 16 = 2 then "OM_ODT_TYPE_32"
              else if MSG_BYTE msg 7 % 16 = 3 then "OM_ODT_TYPE_64"
              else if MSG_BYTE msg 7 % 16 = 4 then "OM_ODT_TYPE_ALIGNMENT"
              else if MSG_BYTE msg 7 % 16 = 5 then "OM_MAX_ENTRY_SIZE"
              else "\"INVALID\"")
          ++ ", addressExtensionType = "
          ++ (if MSG_BYTE msg 7 / 16 % 4 = 0 then
                "\"address extension can be different within one and the same ODT\""
              else if MSG_BYTE msg 7 / 16 % 4 = 1 then
                "\"address extension to be the same for all entries within one ODT\""
              else if MSG_BYTE msg 7 / 16 % 4 = 2 then "\"Not allowed\""
              else "\"address extension to be the same for all entries within one DAQ\"")
          ++ ", identificationFieldType = "
          ++ (if MSG_BYTE msg 7 / 64 = 0 then "\"Absolute ODT number\""
              else if MSG_BYTE msg 7 / 64 = 1 then
                "\"Relative ODT number, absolute DAQ list number (BYTE)\""
              else if MSG_BYTE msg 7 / 64 = 2 then
                "\"Relative ODT number, absolute DAQ list number (WORD)\""
              else "\"Relative ODT number, absolute DAQ list number (WORD, aligned)\"")
          ++ "\x7d")
        ++ ")" := by
  have hm : ∀ x i : Nat, maskSet x (2 ^ i) = x.testBit i := by
    intro x i
    unfold maskSet
    rw [Nat.and_two_pow]
    cases x.testBit i <;> simp
  have hp := MSG_BYTE_lt msg 1
  have hk := MSG_BYTE_lt msg 7
  have P : print_daq_properties (MSG_BYTE msg 1)
      = ("daqProperties = \x7b"
        ++ "daqConfigType = "
        ++ (if (MSG_BYTE msg 1).testBit 0 then "DYNAMIC" else "STATIC")
        ++ ", prescalerSupported = "
        ++ (if (MSG_BYTE msg 1).testBit 1 then "TRUE" else "FALSE")
        ++ ", resumeSupported = "
        ++ (if (MSG_BYTE msg 1).testBit 2 then "TRUE" else "FALSE")
        ++ ", bitStimSupported = "
        ++ (if (MSG_BYTE msg 1).testBit 3 then "TRUE" else "FALSE")
        ++ ", timestampSupported = "
        ++ (if (MSG_BYTE msg 1).testBit 4 then "TRUE" else "FALSE")
        ++ ", pidOffSupported = "
        ++ (if (MSG_BYTE msg 1).testBit 5 then "TRUE" else "FALSE")
        ++ ", overloadIndicationType = "
        ++ (if MSG_BYTE msg 1 / 64 = 0 then "\"no overload indication\""
            else if MSG_BYTE msg 1 / 64 = 1 then "\"overload indication in MSB of PID\""
            else if MSG_BYTE msg 1 / 64 = 2 then "\"overload indication by Event Packet\""
            else "\"not allowed\"")
        ++ "\x7d") := by
    have e0 := hm (MSG_BYTE msg 1) 0
    have e1 := hm (MSG_BYTE msg 1) 1
    have e2 := hm (MSG_BYTE msg 1) 2
    have e3 := hm (MSG_BYTE msg 1) 3
    have e4 := hm (MSG_BYTE msg 1) 4
    have e5 := hm (MSG_BYTE msg 1) 5
    norm_num only at e0 e1 e2 e3 e4 e5
    have h : MSG_BYTE msg 1 / 64 = 0 ∨ MSG_BYTE msg 1 / 64 = 1 ∨ MSG_BYTE msg 1 / 64 = 2
        ∨ MSG_BYTE msg 1 / 64 = 3 := by omega
    unfold print_daq_properties
    simp only [overload_bits _ hp, e0, e1, e2, e3, e4, e5]
    rcases h with h | h | h | h <;> simp only [h, Nat.reduceEqDiff, ↓reduceIte]
  have K : print_daq_key_byte (MSG_BYTE msg 7)
      = ("keyByte = \x7b"
        ++ "optimisationType = "
        ++ (if MSG_BYTE msg 7 % 16 = 0 then "OM_DEFAULT"
            else if MSG_BYTE msg 7 % 16 = 1 then "OM_ODT_TYPE_16"
            else if MSG_BYTE msg 7 % 16 = 2 then "OM_ODT_TYPE_32"
            else if MSG_BYTE msg 7 % 16 = 3 then "OM_ODT_TYPE_64"
            else if MSG_BYTE msg 7 % 16 = 4 then "OM_ODT_TYPE_ALIGNMENT"
            else if MSG_BYTE msg 7 % 16 = 5 then "OM_MAX_ENTRY_SIZE"
            else "\"INVALID\"")
        ++ ", addressExtensionType = "
        ++ (if MSG_BYTE msg 7 / 16 % 4 = 0 then
              "\"address extension can be different within one and the same ODT\""
            else if MSG_BYTE msg 7 / 16 % 4 = 1 then
              "\"address extension to be the same for all entries within one ODT\""
            else if MSG_BYTE msg 7 / 16 % 4 = 2 then "\"Not allowed\""
            else "\"address extension to be the same for all entries within one DAQ\"")
        ++ ", identificationFieldType = "
        ++ (if MSG_BYTE msg 7 / 64 = 0 then "\"Absolute ODT number\""
            else if MSG_BYTE msg 7 / 64 = 1 then
              "\"Relative ODT number, absolute DAQ list number (BYTE)\""
            else if MSG_BYTE msg 7 / 64 = 2 then
              "\"Relative ODT number, absolute DAQ list number (WORD)\""
            else "\"Relative ODT number, absolute DAQ list number (WORD, aligned)\"")
        ++ "\x7d") := by
    have h : MSG_BYTE msg 7 / 64 = 0 ∨ MSG_BYTE msg 7 / 64 = 1 ∨ MSG_BYTE msg 7 / 64 = 2
        ∨ MSG_BYTE msg 7 / 64 = 3 := by omega
    have g : MSG_BYTE msg 7 / 16 % 4 = 0 ∨ MSG_BYTE msg 7 / 16 % 4 = 1
        ∨ MSG_BYTE msg 7 / 16 % 4 = 2 ∨ MSG_BYTE msg 7 / 16 % 4 = 3 := by omega
    unfold print_daq_key_byte
    simp only [optimisation_bits, extension_bits _ hk, overload_bits _ hk]
    rcases h with h | h | h | h <;> rcases g with g | g | g | g <;>
      simp only [h, g, Nat.reduceEqDiff, ↓reduceIte]
  rw [slave_text st msg dtos hsrc hdst, print_xcp_response_positive st msg h0,
    positive_response_GET_DAQ_PROCESSOR_INFO st msg hreq, MSG_WORD_eq msg 2, MSG_WORD_eq msg 4,
    P, K]
  simp only [String.append_assoc]
  exact ok_open _

set_option maxRecDepth 100000 in
/-- Witness for C28: with GET_DAQ_PROCESSOR_INFO remembered the slave frame
`[0xFF, 0x81, 0x02, 0x01, 0x04, 0x00, 0x01, 0x52]` is rendered with
`maxDaq = 258`, overload indication by Event Packet and optimisation type
OM_ODT_TYPE_32. -/
theorem daq_processor_info_response_witness :
    (print_xcp_message { exampleSession with service_request := 0xDA }
        ⟨0x7E0, 0x7E8, ⟨0x7E8, 8, [0xFF, 0x81, 0x02, 0x01, 0x04, 0x00, 0x01, 0x52]⟩⟩ false).1
      = "<- OK(daqProperties = \x7bdaqConfigType = DYNAMIC, prescalerSupported = FALSE, resumeSupported = FALSE, bitStimSupported = FALSE, timestampSupported = FALSE, pidOffSupported = FALSE, overloadIndicationType = \"overload indication by Event Packet\"\x7d, minDaq = 1, maxDaq = 258, maxEventChannel = 4, keyByte = \x7boptimisationType = OM_ODT_TYPE_32, addressExtensionType = \"address extension to be the same for all entries within one ODT\", identificationFieldType = \"Relative ODT number, absolute DAQ list number (BYTE)\"\x7d)" :=
  (daq_processor_info_response { exampleSession with service_request := 0xDA }
      ⟨0x7E0, 0x7E8, ⟨0x7E8, 8, [0xFF, 0x81, 0x02, 0x01, 0x04, 0x00, 0x01, 0x52]⟩⟩ false
      (by decide) (by decide) (by decide) (by decide) (by decide)).trans (by decide)

/-! ## Option parsing -/

/-- C30, what the code does with `-m 7E0 -s 7E8`: the id given with `-m` is
stored in `dst` and becomes `CanIds.dst`, the id given with `-s` becomes
`CanIds.src`; so a frame carrying the `-m` id is decoded by the response
decoder and a frame carrying the `-s` id by the request decoder. -/
theorem option_m_evaluation :
    main_CanIds [⟨'m', 0x7E0, 3⟩, ⟨'s', 0x7E8, 3⟩] = { src := 0x7E8, dst := 0x7E0 }
      ∧ (print_xcp_message (main_session [⟨'m', 0x7E0, 3⟩, ⟨'s', 0x7E8, 3⟩])
          ⟨0x7E8, 0x7E0, ⟨0x7E0, 2, [0xFF, 0x00]⟩⟩ false).1 = "<- OK([ 00 ])"
      ∧ (print_xcp_message (main_session [⟨'m', 0x7E0, 3⟩, ⟨'s', 0x7E8, 3⟩])
          ⟨0x7E8, 0x7E0, ⟨0x7E8, 2, [0xFF, 0x00]⟩⟩ false).1 = "-> CONNECT(mode = NORMAL)" := by
  decide

/-! ## Helper lemmas: what the decoders read of the state -/

theorem print_requested_service_state_kept (st : DissectState) (msg : XcpMessage)
    (h1 : ¬ MSG_BYTE msg 0 = GET_SEGMENT_INFO) (h2 : ¬ MSG_BYTE msg 0 = GET_SECTOR_INFO) :
    (print_requested_service st msg).2.2 = st := by
  unfold print_requested_service
  simp only [apply_ite Prod.snd, h1, h2, if_false, ite_self]

theorem positive_response_of_command (s1 s2 : DissectState) (msg : XcpMessage)
    (h : s1.service_request = s2.service_request)
    (h1 : ¬ s1.service_request = GET_PAG_PROCESSOR_INFO)
    (h2 : ¬ s1.service_request = GET_SEGMENT_INFO)
    (h3 : ¬ s1.service_request = GET_SECTOR_INFO) :
    print_xcp_positive_response s1 msg = print_xcp_positive_response s2 msg := by
  rw [h] at h1 h2 h3
  unfold print_xcp_positive_response
  simp only [h, h1, h2, h3, if_false]

theorem positive_response_of_state (s1 s2 : DissectState) (msg : XcpMessage)
    (h : s1.service_request = s2.service_request)
    (hseg : s1.getSegmentInfoRequest = s2.getSegmentInfoRequest)
    (hsec : s1.get_sector_info_mode = s2.get_sector_info_mode) :
    print_xcp_positive_response s1 msg = print_xcp_positive_response s2 msg := by
  unfold print_xcp_positive_response response_GET_PAG_PROCESSOR_INFO_text
    response_GET_SEGMENT_INFO_text response_GET_SECTOR_INFO_text
  simp only [h, hseg, hsec]

/-! ## Field formatters and the state -/

/-- C29: the text the field formatters print is a function of their byte
argument alone, so wherever the decoders call them the rendering does not
depend on the state or on what was decoded before: the request text (with
`print_set_cal_page_mode`, `print_segment_mode`, `print_daq_list_mode`) is the
same from any two states; the positive-response text is the same from any two
states that remember the same command, for every command but the three whose
layout prints remembered sub-fields, and for those three when the sub-fields
agree as well.  The calls leave the state as it is: a request whose case calls
a formatter (SET_CAL_PAGE, SET_SEGMENT_MODE, SET_DAQ_LIST_MODE) returns the
state it was given, and response decoding changes nothing but the command
code. -/
theorem field_formatters_pure (s1 s2 : DissectState) (msg : XcpMessage) :
    (print_requested_service s1 msg).1 = (print_requested_service s2 msg).1
      ∧ (s1.service_request = s2.service_request →
          ¬ s1.service_request = GET_PAG_PROCESSOR_INFO →
          ¬ s1.service_request = GET_SEGMENT_INFO →
          ¬ s1.service_request = GET_SECTOR_INFO →
          print_xcp_positive_response s1 msg = print_xcp_positive_response s2 msg)
      ∧ (s1.service_request = s2.service_request →
          s1.getSegmentInfoRequest = s2.getSegmentInfoRequest →
          s1.get_sector_info_mode = s2.get_sector_info_mode →
          print_xcp_positive_response s1 msg = print_xcp_positive_response s2 msg)
      ∧ (MSG_BYTE msg 0 = SET_CAL_PAGE ∨ MSG_BYTE msg 0 = SET_SEGMENT_MODE
            ∨ MSG_BYTE msg 0 = SET_DAQ_LIST_MODE →
          (print_requested_service s1 msg).2.2 = s1)
      ∧ (print_xcp_response s1 msg).2.getSegmentInfoRequest = s1.getSegmentInfoRequest
      ∧ (print_xcp_response s1 msg).2.get_sector_info_mode = s1.get_sector_info_mode := by
  refine ⟨(print_requested_service_text_of_frame s1 s2 msg).1,
    positive_response_of_command s1 s2 msg, positive_response_of_state s1 s2 msg,
    fun h => ?_, rfl, rfl⟩
  apply print_requested_service_state_kept
  · rcases h with h | h | h <;> rw [h] <;> decide
  · rcases h with h | h | h <;> rw [h] <;> decide

/-- Witness for C29: the UNLOCK response `[0xFF, 0x15]` is rendered the same
from a state that has just been armed and from one that also remembers
sub-fields of earlier requests. -/
theorem field_formatters_pure_witness :
    print_xcp_positive_response { exampleSession with service_request := 0xF7 }
        ⟨0x7E0, 0x7E8, ⟨0x7E8, 2, [0xFF, 0x15]⟩⟩
      = print_xcp_positive_response
        { exampleSession with
          service_request := 0xF7, get_sector_info_mode := 2,
          getSegmentInfoRequest := { mode := 2, segmentInfo := 1, mappingIndex := 0 } }
        ⟨0x7E0, 0x7E8, ⟨0x7E8, 2, [0xFF, 0x15]⟩⟩ :=
  (field_formatters_pure { exampleSession with service_request := 0xF7 }
      { exampleSession with
        service_request := 0xF7, get_sector_info_mode := 2,
        getSegmentInfoRequest := { mode := 2, segmentInfo := 1, mappingIndex := 0 } }
      ⟨0x7E0, 0x7E8, ⟨0x7E8, 2, [0xFF, 0x15]⟩⟩).2.1
    (by decide) (by decide) (by decide) (by decide)

/-! ## Helper lemmas: decoding a sequence of frames -/

theorem print_xcp_message_ids (st : DissectState) (msg : XcpMessage) (dtos : Bool) :
    (print_xcp_message st msg dtos).2.CanIds = st.CanIds := by
  by_cases h1 : msg.frame.can_id = st.CanIds.src
  · rw [print_xcp_message_of_master st msg dtos h1]
    unfold print_xcp_request print_requested_service
    simp only [apply_ite Prod.snd, apply_ite DissectState.CanIds, ite_self]
  · by_cases h2 : msg.frame.can_id = st.CanIds.dst
    · rw [print_xcp_message_of_slave st msg dtos h1 h2]
      rfl
    · rw [print_xcp_message_of_other st msg dtos h1 h2]

theorem print_xcp_message_command (st : DissectState) (msg : XcpMessage) (dtos : Bool) :
    (print_xcp_message st msg dtos).2.service_request
      = if msg.frame.can_id = st.CanIds.src then MSG_BYTE msg 0
        else if msg.frame.can_id = st.CanIds.dst then 0
        else st.service_request := by
  by_cases h1 : msg.frame.can_id = st.CanIds.src
  · rw [print_xcp_message_of_master st msg dtos h1, if_pos h1]
    exact print_xcp_request_command _ msg
  · by_cases h2 : msg.frame.can_id = st.CanIds.dst
    · rw [print_xcp_message_of_slave st msg dtos h1 h2, if_neg h1, if_pos h2]
      rfl
    · rw [print_xcp_message_of_other st msg dtos h1 h2, if_neg h1, if_neg h2]

theorem decode_trace_ids (frames : List (XcpMessage × Bool)) :
    ∀ st : DissectState, (decode_trace st frames).CanIds = st.CanIds := by
  induction frames with
  | nil => intro st; rfl
  | cons f rest ih =>
    intro st
    rw [decode_trace, ih, print_xcp_message_ids]

theorem decode_trace_command (frames : List (XcpMessage × Bool)) :
    ∀ st : DissectState,
      (decode_trace st frames).service_request
        = match spec_last_session_frame st.CanIds frames with
          | some m => if m.frame.can_id = st.CanIds.src then MSG_BYTE m 0 else 0
          | none => st.service_request := by
  induction frames with
  | nil => intro st; rfl
  | cons f rest ih =>
    intro st
    rw [decode_trace, ih, print_xcp_message_ids, spec_last_session_frame]
    cases hl : spec_last_session_frame st.CanIds rest with
    | some m => rfl
    | none =>
      simp only []
      rw [print_xcp_message_command]
      by_cases h1 : f.1.frame.can_id = st.CanIds.src
      · simp only [h1, true_or, if_true]
      · by_cases h2 : f.1.frame.can_id = st.CanIds.dst
        · rw [if_neg h1, if_pos h2, if_pos (Or.inr h2)]
          exact (if_neg h1).symm
        · simp only [h1, h2, or_self, if_false]

theorem decode_trace_pending (ids : CanIdType) (frames : List (XcpMessage × Bool)) :
    (decode_trace (setIdentifiers DissectState.initial ids) frames).service_request
      = spec_pending_command ids frames := by
  rw [decode_trace_command]
  unfold spec_pending_command
  rfl

/-! ## Lifetime of the remembered command over a sequence of frames -/

/-- C31: starting from the initial state with the identifiers configured,
after decoding any finite sequence of frames the identifiers are unchanged and
the remembered command code is the first byte of the most recent session frame
(a frame with the master or the slave id) when that frame is a master frame,
and 0 otherwise; so a positive response that follows a sequence whose most
recent session frame is not a master frame is rendered in the generic layout,
`<- OK(` hex dump from offset 1 `)`. -/
theorem pending_command_lifetime (ids : CanIdType) (frames : List (XcpMessage × Bool)) :
    (decode_trace (setIdentifiers DissectState.initial ids) frames).CanIds = ids
      ∧ (decode_trace (setIdentifiers DissectState.initial ids) frames).service_request
        = spec_pending_command ids frames
      ∧ (spec_pending_command ids frames ≠ 0 →
          ∃ m, spec_last_session_frame ids frames = some m ∧ m.frame.can_id = ids.src
            ∧ spec_pending_command ids frames = MSG_BYTE m 0)
      ∧ ∀ (resp : XcpMessage) (dtos : Bool),
          (spec_last_session_frame ids frames).all (fun m => decide (m.frame.can_id ≠ ids.src))
            = true →
          resp.frame.can_id ≠ ids.src → resp.frame.can_id = ids.dst → MSG_BYTE resp 0 = 0xFF →
          (print_xcp_message (decode_trace (setIdentifiers DissectState.initial ids) frames)
              resp dtos).1
            = "<- OK(" ++ hexdump_xcp_message resp 1 ++ ")" := by
  have hids := decode_trace_ids frames (setIdentifiers DissectState.initial ids)
  have hcmd := decode_trace_pending ids frames
  refine ⟨hids, hcmd, ?_, ?_⟩
  · intro hne
    unfold spec_pending_command at hne ⊢
    cases hl : spec_last_session_frame ids frames with
    | none => rw [hl] at hne; exact absurd rfl hne
    | some m =>
      rw [hl] at hne
      by_cases hm : m.frame.can_id = ids.src
      · exact ⟨m, rfl, hm, if_pos hm⟩
      · exact absurd (if_neg hm) hne
  · intro resp dtos hlast h1 h2 h0
    have hzero : spec_pending_command ids frames = 0 := by
      unfold spec_pending_command
      cases hl : spec_last_session_frame ids frames with
      | none => rfl
      | some m =>
        rw [hl] at hlast
        have hm : ¬ m.frame.can_id = ids.src := by simpa using hlast
        exact if_neg hm
    rw [slave_text _ resp dtos (by rw [hids]; exact h1) (by rw [hids]; exact h2)]
    apply generic_positive_text _ resp _ h0
    rw [hcmd, hzero]
    decide

/-- Witness for C31: after the CONNECT request `[0xFF, 0x00]` and a first
response `[0xFF, 0x15]`, a second positive response is rendered in the generic
layout. -/
theorem pending_command_lifetime_witness :
    (print_xcp_message
        (decode_trace (setIdentifiers DissectState.initial { src := 0x7E0, dst := 0x7E8 })
          [(⟨0x7E0, 0x7E8, ⟨0x7E0, 2, [0xFF, 0x00]⟩⟩, false),
           (⟨0x7E0, 0x7E8, ⟨0x7E8, 2, [0xFF, 0x15]⟩⟩, false)])
        ⟨0x7E0, 0x7E8, ⟨0x7E8, 2, [0xFF, 0x15]⟩⟩ false).1
      = "<- OK(" ++ hexdump_xcp_message ⟨0x7E0, 0x7E8, ⟨0x7E8, 2, [0xFF, 0x15]⟩⟩ 1 ++ ")" :=
  (pending_command_lifetime { src := 0x7E0, dst := 0x7E8 }
      [(⟨0x7E0, 0x7E8, ⟨0x7E0, 2, [0xFF, 0x00]⟩⟩, false),
       (⟨0x7E0, 0x7E8, ⟨0x7E8, 2, [0xFF, 0x15]⟩⟩, false)]).2.2.2
    ⟨0x7E0, 0x7E8, ⟨0x7E8, 2, [0xFF, 0x15]⟩⟩ false
    (by decide) (by decide) (by decide) (by decide)

/-! ## Helper lemmas: frames that agree below the frame length -/

theorem print_xcp_message_congr (st : DissectState) (msg msg' : XcpMessage) (dtos : Bool)
    (hid : msg.frame.can_id = msg'.frame.can_id) (hlen : msg.frame.len = msg'.frame.len)
    (hb : ∀ i, i < 8 ∨ i < msg.frame.len → MSG_BYTE msg i = MSG_BYTE msg' i)
    (hcmd : ¬ (msg.frame.can_id = st.CanIds.src ∧ MSG_BYTE msg 0 = WRITE_DAQ_MULTIPLE)) :
    print_xcp_message st msg dtos = print_xcp_message st msg' dtos := by
  by_cases h1 : msg.frame.can_id = st.CanIds.src
  · have hne : ¬ MSG_BYTE msg' 0 = WRITE_DAQ_MULTIPLE := by
      rw [← hb 0 (Or.inl (by decide))]
      exact fun h => hcmd ⟨h1, h⟩
    rw [print_xcp_message_of_master st msg dtos h1,
      print_xcp_message_of_master st msg' dtos (hid ▸ h1)]
    exact print_xcp_request_congr _ msg msg' hlen hb hne
  · by_cases h2 : msg.frame.can_id = st.CanIds.dst
    · rw [print_xcp_message_of_slave st msg dtos h1 h2,
        print_xcp_message_of_slave st msg' dtos (hid ▸ h1) (hid ▸ h2)]
      exact print_xcp_response_congr _ msg msg' hlen hb
    · rw [print_xcp_message_of_other st msg dtos h1 h2,
        print_xcp_message_of_other st msg' dtos (hid ▸ h1) (hid ▸ h2),
        hexdump_congr msg msg' hlen hb]

/-! ## Full classic frames are decoded in bounds -/

/-- C32: for a frame of length 8 or more that is not a master frame with
first byte `0xC7` (WRITE_DAQ_MULTIPLE), `print_xcp_message` reads payload bytes
only at indices below the frame length: two frames with the same id, the same
length and the same bytes at the indices below the length give the same text
and the same state from every prior state, whatever their buffers hold at and
beyond the length. -/
theorem full_frame_decoded_in_bounds (st : DissectState) (msg msg' : XcpMessage) (dtos : Bool)
    (h8 : 8 ≤ msg.frame.len)
    (hid : msg.frame.can_id = msg'.frame.can_id) (hlen : msg.frame.len = msg'.frame.len)
    (hbytes : ∀ i, i < msg.frame.len → MSG_BYTE msg i = MSG_BYTE msg' i)
    (hcmd : ¬ (msg.frame.can_id = st.CanIds.src ∧ MSG_BYTE msg 0 = 0xC7)) :
    print_xcp_message st msg dtos = print_xcp_message st msg' dtos := by
  apply print_xcp_message_congr st msg msg' dtos hid hlen _ hcmd
  intro i hi
  apply hbytes
  rcases hi with h | h
  · exact Nat.lt_of_lt_of_le h h8
  · exact h

/-- Witness for C32: two 8-byte SET_MTA requests whose buffers differ only
at index 8, beyond the frame, are decoded the same. -/
theorem full_frame_decoded_in_bounds_witness :
    print_xcp_message exampleSession
        ⟨0x7E0, 0x7E8, ⟨0x7E0, 8, [0xF6, 0, 0, 0x0A, 0x78, 0x56, 0x34, 0x02, 0xAA]⟩⟩ false
      = print_xcp_message exampleSession
        ⟨0x7E0, 0x7E8, ⟨0x7E0, 8, [0xF6, 0, 0, 0x0A, 0x78, 0x56, 0x34, 0x02, 0xBB]⟩⟩ false :=
  full_frame_decoded_in_bounds exampleSession
    ⟨0x7E0, 0x7E8, ⟨0x7E0, 8, [0xF6, 0, 0, 0x0A, 0x78, 0x56, 0x34, 0x02, 0xAA]⟩⟩
    ⟨0x7E0, 0x7E8, ⟨0x7E0, 8, [0xF6, 0, 0, 0x0A, 0x78, 0x56, 0x34, 0x02, 0xBB]⟩⟩ false
    (by decide) (by decide) (by decide) (by decide) (by decide)

/-! ## Defects of single cases of the decoders -/

set_option maxRecDepth 100000 in
/-- C33, what the code does for the WRITE_DAQ_MULTIPLE request with byte 1 =
8: the loop renders 8 element groups and element 7 takes its
`addressExtension` from index `8 * 7 + 8 = 64`, the first byte after the 64
byte payload buffer; two frames that differ only there are rendered
differently.  The hex dump that follows starts at offset 1. -/
theorem write_daq_multiple_evaluation :
    (print_xcp_message exampleSession
        ⟨0x7E0, 0x7E8, ⟨0x7E0, 8, [0xC7, 8] ++ List.replicate 62 0 ++ [0xAA]⟩⟩ false).1
      = "-> WRITE_DAQ_MULTIPLE(elements = [\x7bbitOffset = 0, sizeofElement = 0, adddress = 0x00000000, addressExtension = 0\x7d, \x7bbitOffset = 0, sizeofElement = 0, adddress = 0x00000000, addressExtension = 0\x7d, \x7bbitOffset = 0, sizeofElement = 0, adddress = 0x00000000, addressExtension = 0\x7d, \x7bbitOffset = 0, sizeofElement = 0, adddress = 0x00000000, addressExtension = 0\x7d, \x7bbitOffset = 0, sizeofElement = 0, adddress = 0x00000000, addressExtension = 0\x7d, \x7bbitOffset = 0, sizeofElement = 0, adddress = 0x00000000, addressExtension = 0\x7d, \x7bbitOffset = 0, sizeofElement = 0, adddress = 0x00000000, addressExtension = 0\x7d, \x7bbitOffset = 0, sizeofElement = 0, adddress = 0x00000000, addressExtension = 170\x7d, ][ 08 00 00 00 00 00 00 ])"
      ∧ write_daq_multiple_loop
          ⟨0x7E0, 0x7E8, ⟨0x7E0, 8, [0xC7, 8] ++ List.replicate 62 0 ++ [0xBB]⟩⟩ 7 1
        = "\x7bbitOffset = 0, sizeofElement = 0, adddress = 0x00000000, addressExtension = 187\x7d, "
      ∧ (print_xcp_message exampleSession
          ⟨0x7E0, 0x7E8, ⟨0x7E0, 8, [0xC7, 8] ++ List.replicate 62 0 ++ [0xAA]⟩⟩ false).1
        ≠ (print_xcp_message exampleSession
          ⟨0x7E0, 0x7E8, ⟨0x7E0, 8, [0xC7, 8] ++ List.replicate 62 0 ++ [0xBB]⟩⟩ false).1 := by
  refine ⟨by decide, by decide, by decide⟩

set_option maxRecDepth 100000 in
/-- C34, what the code does for the 8-byte requests
`[0xF2, 0x01, 0xAA, 0, 0, 0, 0, 0]` and `[0xF1, 0x01, 0xAA, 0, 0, 0, 0, 0]`:
`case TRANSPORT_LAYER_CMD:` and `case USER_CMD:` have no `break`, so the text
of a TRANSPORT_LAYER_CMD request goes on with `USER_CMD(` and `DOWNLOAD(`, and
the text of a USER_CMD request goes on with `DOWNLOAD(`. -/
theorem transport_layer_cmd_evaluation :
    (print_xcp_message exampleSession
        ⟨0x7E0, 0x7E8, ⟨0x7E0, 8, [0xF2, 0x01, 0xAA, 0, 0, 0, 0, 0]⟩⟩ false).1
      = "-> TRANSPORT_LAYER_CMD(subCommandCode = 1parameters: [ AA 00 00 00 00 00 ]USER_CMD(subCommandCode = 1parameters: [ AA 00 00 00 00 00 ]DOWNLOAD(numberOfDataElements = 1, elements: [ AA 00 00 00 00 00 ])"
      ∧ (print_xcp_message exampleSession
          ⟨0x7E0, 0x7E8, ⟨0x7E0, 8, [0xF1, 0x01, 0xAA, 0, 0, 0, 0, 0]⟩⟩ false).1
        = "-> USER_CMD(subCommandCode = 1parameters: [ AA 00 00 00 00 00 ]DOWNLOAD(numberOfDataElements = 1, elements: [ AA 00 00 00 00 00 ])"
      ∧ (print_xcp_message exampleSession
          ⟨0x7E0, 0x7E8, ⟨0x7E0, 8, [0xF0, 0x01, 0xAA, 0, 0, 0, 0, 0]⟩⟩ false).1
        = "-> DOWNLOAD(numberOfDataElements = 1, elements: [ AA 00 00 00 00 00 ])" := by
  refine ⟨by decide, by decide, by decide⟩

set_option maxRecDepth 100000 in
/-- C35, what the code does after the GET_SECTOR_INFO request with mode 1:
the response `[0xFF, 1, 2, 3, 0x00, 0x10, 0, 0]` is rendered without
`, length = `, because the inner `else if` tests `get_sector_info_mode == 0`
a second time; after the request with mode 0 the same response shows
`startAddress`, after the request with mode 2 it shows `nameLength` only. -/
theorem get_sector_info_response_evaluation :
    (print_xcp_message
        (print_xcp_message exampleSession
          ⟨0x7E0, 0x7E8, ⟨0x7E0, 8, [0xCD, 1, 0, 0, 0, 0, 0, 0]⟩⟩ false).2
        ⟨0x7E0, 0x7E8, ⟨0x7E8, 8, [0xFF, 1, 2, 3, 0x00, 0x10, 0, 0]⟩⟩ false).1
      = "<- OK(clearSequenceNumber = 1, programSequenceNumber = 2, programmingMethod = 3)"
      ∧ (print_xcp_message exampleSession
          ⟨0x7E0, 0x7E8, ⟨0x7E0, 8, [0xCD, 1, 0, 0, 0, 0, 0, 0]⟩⟩ false).2.get_sector_info_mode
        = 1
      ∧ (print_xcp_message
          (print_xcp_message exampleSession
            ⟨0x7E0, 0x7E8, ⟨0x7E0, 8, [0xCD, 0, 0, 0, 0, 0, 0, 0]⟩⟩ false).2
          ⟨0x7E0, 0x7E8, ⟨0x7E8, 8, [0xFF, 1, 2, 3, 0x00, 0x10, 0, 0]⟩⟩ false).1
        = "<- OK(clearSequenceNumber = 1, programSequenceNumber = 2, programmingMethod = 3, startAddress = 0x00001000)"
      ∧ (print_xcp_message
          (print_xcp_message exampleSession
            ⟨0x7E0, 0x7E8, ⟨0x7E0, 8, [0xCD, 2, 0, 0, 0, 0, 0, 0]⟩⟩ false).2
          ⟨0x7E0, 0x7E8, ⟨0x7E8, 8, [0xFF, 1, 2, 3, 0x00, 0x10, 0, 0]⟩⟩ false).1
        = "<- OK(nameLength = 1)" := by
  refine ⟨by decide, by decide, by decide, by decide⟩

set_option maxRecDepth 100000 in
/-- C36, what the code does for SET_DAQ_LIST_MODE and ALLOC_ODT_ENTRY: byte 7
of a SET_DAQ_LIST_MODE request is the high byte of
`transmissionRatePrescaler` (`MSG_WORD(6)`) and also `daqListPriority`
(`MSG_BYTE(7)`); byte 5 of an ALLOC_ODT_ENTRY request is the high byte of
`odtNumber` (`MSG_WORD(4)`) and also `odtEntriesCount` (`MSG_BYTE(5)`).
Changing that one byte changes both fields. -/
theorem shared_payload_byte_evaluation :
    (print_xcp_message exampleSession
        ⟨0x7E0, 0x7E8, ⟨0x7E0, 8, [0xE0, 0, 1, 0, 2, 0, 3, 4]⟩⟩ false).1
      = "-> SET_DAQ_LIST_MODE( mode = \x7b  , daqListNumber = 1 , eventChannelNumber = 2 , transmissionRatePrescaler = 1027 , daqListPriority = 4[ 00 01 00 02 00 03 04 ])"
      ∧ (print_xcp_message exampleSession
          ⟨0x7E0, 0x7E8, ⟨0x7E0, 8, [0xE0, 0, 1, 0, 2, 0, 3, 5]⟩⟩ false).1
        = "-> SET_DAQ_LIST_MODE( mode = \x7b  , daqListNumber = 1 , eventChannelNumber = 2 , transmissionRatePrescaler = 1283 , daqListPriority = 5[ 00 01 00 02 00 03 05 ])"
      ∧ (print_xcp_message exampleSession
          ⟨0x7E0, 0x7E8, ⟨0x7E0, 8, [0xD3, 0, 1, 0, 2, 5, 0, 0]⟩⟩ false).1
        = "-> ALLOC_ODT_ENTRY(daqListNumber = 1, odtNumber = 1282, odtEntriesCount = 5[ 00 ])"
      ∧ (print_xcp_message exampleSession
          ⟨0x7E0, 0x7E8, ⟨0x7E0, 8, [0xD3, 0, 1, 0, 2, 6, 0, 0]⟩⟩ false).1
        = "-> ALLOC_ODT_ENTRY(daqListNumber = 1, odtNumber = 1538, odtEntriesCount = 6[ 00 ])" := by
  refine ⟨by decide, by decide, by decide, by decide⟩

set_option maxRecDepth 100000 in
/-- C37, what the code does for the GET_COMM_MODE_INFO response with byte 7 =
`0x12`: the major part is `(byte7 & 0xf0) >> 8`, which is 0 for every byte,
so the line shows `XCPDriverVersion = 0.2`, not `1.2`. -/
theorem driver_version_evaluation :
    (print_xcp_message { exampleSession with service_request := 0xFB }
        ⟨0x7E0, 0x7E8, ⟨0x7E8, 8, [0xFF, 0, 1, 0, 2, 5, 6, 0x12]⟩⟩ false).1
      = "<- OK(commModeOptional = \x7bmasterBlockMode = TRUE, interleavedMode = FALSE\x7d, maxBs = 2, minSt = 5, queueSize = 6, XCPDriverVersion = 0.2)"
      ∧ ∀ b, b < 256 → (b &&& 0xf0) >>> 8 = 0 := by
  refine ⟨by decide, by decide⟩

set_option maxRecDepth 100000 in
/-- C38, what the code does for GET_DAQ_CLOCK responses that differ only in
byte 6 or byte 7: the timestamp is `MSG_WORD(4)`, the 16-bit word at bytes 4
and 5, so all three are rendered `timestamp = 4660`; the event decoder renders
the timestamp of an EV_TIME_SYNC packet with the same bytes 4..7 from
`MSG_DWORD(4)`. -/
theorem daq_clock_timestamp_evaluation :
    (print_xcp_message { exampleSession with service_request := 0xDC }
        ⟨0x7E0, 0x7E8, ⟨0x7E8, 8, [0xFF, 0, 0, 0, 0x34, 0x12, 0x00, 0x00]⟩⟩ false).1
      = "<- OK(timestamp = 4660)"
      ∧ (print_xcp_message { exampleSession with service_request := 0xDC }
          ⟨0x7E0, 0x7E8, ⟨0x7E8, 8, [0xFF, 0, 0, 0, 0x34, 0x12, 0x01, 0x00]⟩⟩ false).1
        = "<- OK(timestamp = 4660)"
      ∧ (print_xcp_message { exampleSession with service_request := 0xDC }
          ⟨0x7E0, 0x7E8, ⟨0x7E8, 8, [0xFF, 0, 0, 0, 0x34, 0x12, 0x00, 0x01]⟩⟩ false).1
        = "<- OK(timestamp = 4660)"
      ∧ (print_xcp_message exampleSession
          ⟨0x7E0, 0x7E8, ⟨0x7E8, 8, [0xFD, 0x08, 0, 0, 0x34, 0x12, 0x01, 0x00]⟩⟩ false).1
        = "<- EVENT(id = EV_TIME_SYNC, timestamp = 70196[ 00 00 34 12 01 00 ])" := by
  refine ⟨by decide, by decide, by decide, by decide⟩

/-! ## Helper lemmas: resource bits -/

theorem maskSet_two_pow (x i : Nat) : maskSet x (2 ^ i) = x.testBit i := by
  unfold maskSet
  rw [Nat.and_two_pow]
  cases x.testBit i <;> simp

theorem maskSet_and_of_testBit (x m i : Nat) (h : m.testBit i = true) :
    maskSet (x &&& m) (2 ^ i) = maskSet x (2 ^ i) := by
  rw [maskSet_two_pow, maskSet_two_pow, Nat.testBit_and, h, Bool.and_true]

/-! ## Resource bit mask -/

/-- C39: for every value `res` and variant `v`, `print_resources` renders
`resources` (variant 0) or `protected`, then ` = { `, then the tokens
`CAL_PAG `, `DAQ `, `STIM `, `PGM ` in that order, each present exactly when
bit 0, 2, 3, 4 (mask `0x01`, `0x04`, `0x08`, `0x10`) of `res` is set, then
the closing brace; the other bits are ignored:
`print_resources res v = print_resources (res &&& 0x1D) v`. -/
theorem print_resources_rendering (res v : Nat) :
    print_resources res v
        = (if v = 0 then "resources" else "protected") ++ " = \x7b "
          ++ (if res.testBit 0 then "CAL_PAG " else "")
          ++ (if res.testBit 2 then "DAQ " else "")
          ++ (if res.testBit 3 then "STIM " else "")
          ++ (if res.testBit 4 then "PGM " else "")
          ++ "\x7d"
      ∧ print_resources res v = print_resources (res &&& 0x1D) v := by
  have e0 := maskSet_two_pow res 0
  have e2 := maskSet_two_pow res 2
  have e3 := maskSet_two_pow res 3
  have e4 := maskSet_two_pow res 4
  have a0 := maskSet_and_of_testBit res 0x1D 0 (by decide)
  have a2 := maskSet_and_of_testBit res 0x1D 2 (by decide)
  have a3 := maskSet_and_of_testBit res 0x1D 3 (by decide)
  have a4 := maskSet_and_of_testBit res 0x1D 4 (by decide)
  norm_num only at e0 e2 e3 e4 a0 a2 a3 a4
  unfold print_resources
  refine ⟨?_, ?_⟩
  · rw [e0, e2, e3, e4]
  · rw [a0, a2, a3, a4]

/-! ## Helper lemmas: the stored flag -/

theorem print_requested_service_flag (st : DissectState) (msg : XcpMessage) (dtos : Bool) :
    print_requested_service { st with include_dtos := dtos } msg
      = ((print_requested_service st msg).1, (print_requested_service st msg).2.1,
          { (print_requested_service st msg).2.2 with include_dtos := dtos }) := by
  have ht := print_requested_service_text_of_frame { st with include_dtos := dtos } st msg
  have hs : (print_requested_service { st with include_dtos := dtos } msg).2.2
      = { (print_requested_service st msg).2.2 with include_dtos := dtos } := by
    by_cases h1 : MSG_BYTE msg 0 = GET_SEGMENT_INFO
    · rw [print_requested_service_GET_SEGMENT_INFO _ msg h1,
        print_requested_service_GET_SEGMENT_INFO _ msg h1]
    · by_cases h2 : MSG_BYTE msg 0 = GET_SECTOR_INFO
      · rw [print_requested_service_GET_SECTOR_INFO _ msg h2,
          print_requested_service_GET_SECTOR_INFO _ msg h2]
      · rw [print_requested_service_state_kept _ msg h1 h2,
          print_requested_service_state_kept _ msg h1 h2]
  exact Prod.ext ht.1 (Prod.ext ht.2 hs)

theorem print_xcp_request_flag (st : DissectState) (msg : XcpMessage) (dtos : Bool) :
    print_xcp_request { st with include_dtos := dtos } msg
      = ((print_xcp_request st msg).1,
          { (print_xcp_request st msg).2 with include_dtos := dtos }) := by
  unfold print_xcp_request
  simp only []
  rw [show ({ ({ st with include_dtos := dtos } : DissectState) with
              service_request := MSG_BYTE msg 0 } : DissectState)
        = { ({ st with service_request := MSG_BYTE msg 0 } : DissectState) with
              include_dtos := dtos } from rfl,
    print_requested_service_flag]

theorem print_xcp_message_flag (st : DissectState) (msg : XcpMessage) (dtos : Bool) :
    print_xcp_message st msg dtos
      = ((print_xcp_message st msg st.include_dtos).1,
          { (print_xcp_message st msg st.include_dtos).2 with include_dtos := dtos }) := by
  by_cases h1 : msg.frame.can_id = st.CanIds.src
  · rw [print_xcp_message_of_master st msg dtos h1,
      print_xcp_message_of_master st msg st.include_dtos h1, print_xcp_request_flag,
      print_xcp_request_flag st msg st.include_dtos]
  · by_cases h2 : msg.frame.can_id = st.CanIds.dst
    · rw [print_xcp_message_of_slave st msg dtos h1 h2,
        print_xcp_message_of_slave st msg st.include_dtos h1 h2]
      rfl
    · rw [print_xcp_message_of_other st msg dtos h1 h2,
        print_xcp_message_of_other st msg st.include_dtos h1 h2]

/-! ## The include-DTOs flag -/

/-- C40: the flag handed to `print_xcp_message` has no effect on decoding.
For every frame and every state (identifiers included) the text is the same
with `dtos = true` and `dtos = false`, and so are the remembered command code,
the remembered GET_SEGMENT_INFO sub-fields, the remembered sector-info mode
and the identifiers: the two resulting states differ in the stored copy of the
flag only, and that copy is never read, as the text and the state do not
depend on the value stored before the call either.  A data-transfer object is
rendered with `dtos = false`. -/
theorem include_dtos_no_effect (st : DissectState) (msg : XcpMessage) :
    (print_xcp_message st msg true).1 = (print_xcp_message st msg false).1
      ∧ (print_xcp_message st msg true).2
        = { (print_xcp_message st msg false).2 with include_dtos := true }
      ∧ (print_xcp_message st msg true).2.service_request
        = (print_xcp_message st msg false).2.service_request
      ∧ (print_xcp_message st msg true).2.getSegmentInfoRequest
        = (print_xcp_message st msg false).2.getSegmentInfoRequest
      ∧ (print_xcp_message st msg true).2.get_sector_info_mode
        = (print_xcp_message st msg false).2.get_sector_info_mode
      ∧ (print_xcp_message st msg true).2.CanIds = (print_xcp_message st msg false).2.CanIds
      ∧ (∀ stored dtos : Bool,
          print_xcp_message { st with include_dtos := stored } msg dtos
            = print_xcp_message st msg dtos)
      ∧ (print_xcp_message exampleSession ⟨0x7E0, 0x7E8, ⟨0x7E8, 2, [0x01, 0xAA]⟩⟩ false).1
        = "<- DTO(pid = 1, [ AA ])" := by
  have ht := print_xcp_message_flag st msg true
  have hf := print_xcp_message_flag st msg false
  refine ⟨?_, ?_, ?_, ?_, ?_, ?_, fun stored dtos => rfl, by decide⟩
  · rw [ht, hf]
  · rw [ht, hf]
  · rw [ht, hf]
  · rw [ht, hf]
  · rw [ht, hf]
  · rw [ht, hf]

/-! ## Helper lemmas: what selects the layout of a positive response -/

end XcpDump
